import Mathlib

/-!
Shallow embedding of `ev.rubic.py` (class `RubicsCube`): the three-layer cube
state, the side get/put accessors, the color-remap tables and the
`RotateSide` rotation algorithm, together with proofs of the spec's claims.

Modelling conventions:
* Python lists of ints become `List Nat`; reads use `List.getD` and writes use
  `List.set` (in-range behaviour is identical to Python; all verified runs stay
  in range).
* Python's `exit()` calls and uncaught indexing errors on invalid side ids are
  modelled as `Option.none`; functions that can abort return `Option`.
* Mutation of `self` is modelled by explicit state passing: functions take the
  cube (or the scratch cells `_1030` … `_0900`) and return the updated values.
-/

namespace Rubic

/-! ## Constants (lines 102-148 of the source) -/

def CUBE_WHITE : Nat := 1
def CUBE_YELLOW : Nat := 2
def CUBE_RED : Nat := 3
def CUBE_GREEN : Nat := 4
def CUBE_ORANGE : Nat := 5
def CUBE_BLUE : Nat := 6

def CUBE_DELAY : Nat := 100

def ROTATE_CLOCKWISE : Nat := 0
def ROTATE_COUNTER : Nat := 1

def CUBE_TOP : Nat := 0
def CUBE_MIDDLE : Nat := 1
def CUBE_BOTTOM : Nat := 2

def CUBE_NULL : Nat := 0
def CUBE_EDGE : Nat := 1
def CUBE_CORNER : Nat := 2
def CUBE_ID : Nat := 3

def CUBE_TYPE : Nat := 0

def CUBE_ID_0 : Nat := 1
def CUBE_ID_FACE_0 : Nat := 2
def CUBE_ID_SPACER : Nat := 9

def CUBE_EDGE_0 : Nat := 1
def CUBE_EDGE_1 : Nat := 2
def CUBE_EDGE_FACE_0 : Nat := 3
def CUBE_EDGE_FACE_1 : Nat := 4

def CUBE_CORNER_0 : Nat := 1
def CUBE_CORNER_1 : Nat := 2
def CUBE_CORNER_2 : Nat := 3
def CUBE_CORNER_FACE_0 : Nat := 4
def CUBE_CORNER_FACE_1 : Nat := 5
def CUBE_CORNER_FACE_2 : Nat := 6

/-- A cell is a Python list of small ints (type tag, colors, face bindings). -/
abbrev Cell := List Nat
/-- A layer is a Python list of 8 cells. -/
abbrev Layer := List Cell
/-- The cube state `self._cube` is a Python list of the 3 layers. -/
abbrev Cube := List Layer

def CUBE_NIL : Cell :=
  [CUBE_NULL, CUBE_NULL, CUBE_NULL, CUBE_NULL, CUBE_NULL, CUBE_NULL, CUBE_NULL, CUBE_NULL]

/-! ## The side index tables (lines 162-246) -/

def _SIDE_WHITE : List Nat := [0, 1, 2, 3, 4, 5, 6, 7]
def _SIDE_YELLOW : List Nat := [0, 7, 6, 5, 4, 3, 2, 1]
def _SIDE_RED : List Nat := [0, 7, 7, 7, 0, 1, 1, 1]
def _SIDE_GREEN : List Nat := [2, 1, 1, 1, 2, 3, 3, 3]
def _SIDE_ORANGE : List Nat := [4, 3, 3, 3, 4, 5, 5, 5]
def _SIDE_BLUE : List Nat := [6, 5, 5, 5, 6, 7, 7, 7]

/-- `_SIDE_INDEX` (line 246); the entry at index 0 is the integer `0` in the
source, which is never legally subscripted — modelled as `[]`. -/
def _SIDE_INDEX : List (List Nat) :=
  [[], _SIDE_WHITE, _SIDE_YELLOW, _SIDE_RED, _SIDE_GREEN, _SIDE_ORANGE, _SIDE_BLUE]

/-! ## The 24 initial cells (lines 248-280) -/

def _CUBE_WR : Cell := [CUBE_EDGE, CUBE_WHITE, CUBE_RED, CUBE_WHITE, CUBE_RED, CUBE_ID_SPACER, CUBE_ID_SPACER]
def _CUBE_WG : Cell := [CUBE_EDGE, CUBE_WHITE, CUBE_GREEN, CUBE_WHITE, CUBE_GREEN, CUBE_ID_SPACER, CUBE_ID_SPACER]
def _CUBE_WO : Cell := [CUBE_EDGE, CUBE_WHITE, CUBE_ORANGE, CUBE_WHITE, CUBE_ORANGE, CUBE_ID_SPACER, CUBE_ID_SPACER]
def _CUBE_WB : Cell := [CUBE_EDGE, CUBE_WHITE, CUBE_BLUE, CUBE_WHITE, CUBE_BLUE, CUBE_ID_SPACER, CUBE_ID_SPACER]
def _CUBE_WRG : Cell := [CUBE_CORNER, CUBE_WHITE, CUBE_RED, CUBE_GREEN, CUBE_WHITE, CUBE_RED, CUBE_GREEN]
def _CUBE_WGO : Cell := [CUBE_CORNER, CUBE_WHITE, CUBE_GREEN, CUBE_ORANGE, CUBE_WHITE, CUBE_GREEN, CUBE_ORANGE]
def _CUBE_WOB : Cell := [CUBE_CORNER, CUBE_WHITE, CUBE_ORANGE, CUBE_BLUE, CUBE_WHITE, CUBE_ORANGE, CUBE_BLUE]
def _CUBE_WBR : Cell := [CUBE_CORNER, CUBE_WHITE, CUBE_BLUE, CUBE_RED, CUBE_WHITE, CUBE_BLUE, CUBE_RED]

def _CUBE_RGM : Cell := [CUBE_EDGE, CUBE_RED, CUBE_GREEN, CUBE_RED, CUBE_GREEN, CUBE_ID_SPACER, CUBE_ID_SPACER]
def _CUBE_GOM : Cell := [CUBE_EDGE, CUBE_GREEN, CUBE_ORANGE, CUBE_GREEN, CUBE_ORANGE, CUBE_ID_SPACER, CUBE_ID_SPACER]
def _CUBE_OBM : Cell := [CUBE_EDGE, CUBE_ORANGE, CUBE_BLUE, CUBE_ORANGE, CUBE_BLUE, CUBE_ID_SPACER, CUBE_ID_SPACER]
def _CUBE_BRM : Cell := [CUBE_EDGE, CUBE_BLUE, CUBE_RED, CUBE_BLUE, CUBE_RED, CUBE_ID_SPACER, CUBE_ID_SPACER]

def _CUBE_YR : Cell := [CUBE_EDGE, CUBE_YELLOW, CUBE_RED, CUBE_YELLOW, CUBE_RED, CUBE_ID_SPACER, CUBE_ID_SPACER]
def _CUBE_YG : Cell := [CUBE_EDGE, CUBE_YELLOW, CUBE_GREEN, CUBE_YELLOW, CUBE_GREEN, CUBE_ID_SPACER, CUBE_ID_SPACER]
def _CUBE_YO : Cell := [CUBE_EDGE, CUBE_YELLOW, CUBE_ORANGE, CUBE_YELLOW, CUBE_ORANGE, CUBE_ID_SPACER, CUBE_ID_SPACER]
def _CUBE_YB : Cell := [CUBE_EDGE, CUBE_YELLOW, CUBE_BLUE, CUBE_YELLOW, CUBE_BLUE, CUBE_ID_SPACER, CUBE_ID_SPACER]
def _CUBE_YGR : Cell := [CUBE_CORNER, CUBE_YELLOW, CUBE_GREEN, CUBE_RED, CUBE_YELLOW, CUBE_GREEN, CUBE_RED]
def _CUBE_YOG : Cell := [CUBE_CORNER, CUBE_YELLOW, CUBE_ORANGE, CUBE_GREEN, CUBE_YELLOW, CUBE_ORANGE, CUBE_GREEN]
def _CUBE_YBO : Cell := [CUBE_CORNER, CUBE_YELLOW, CUBE_BLUE, CUBE_ORANGE, CUBE_YELLOW, CUBE_BLUE, CUBE_ORANGE]
def _CUBE_YRB : Cell := [CUBE_CORNER, CUBE_YELLOW, CUBE_RED, CUBE_BLUE, CUBE_YELLOW, CUBE_RED, CUBE_BLUE]

def _CUBE_RED : Cell := [CUBE_ID, CUBE_RED, CUBE_RED, CUBE_ID_SPACER, CUBE_ID_SPACER, CUBE_ID_SPACER, CUBE_ID_SPACER]
def _CUBE_GED : Cell := [CUBE_ID, CUBE_GREEN, CUBE_GREEN, CUBE_ID_SPACER, CUBE_ID_SPACER, CUBE_ID_SPACER, CUBE_ID_SPACER]
def _CUBE_OED : Cell := [CUBE_ID, CUBE_ORANGE, CUBE_ORANGE, CUBE_ID_SPACER, CUBE_ID_SPACER, CUBE_ID_SPACER, CUBE_ID_SPACER]
def _CUBE_BED : Cell := [CUBE_ID, CUBE_BLUE, CUBE_BLUE, CUBE_ID_SPACER, CUBE_ID_SPACER, CUBE_ID_SPACER, CUBE_ID_SPACER]

/-! ## `__init__` (lines 287-296): the solved cube -/

def init_top : Layer := [_CUBE_WR, _CUBE_WRG, _CUBE_WG, _CUBE_WGO, _CUBE_WO, _CUBE_WOB, _CUBE_WB, _CUBE_WBR]
def init_mid : Layer := [_CUBE_RED, _CUBE_RGM, _CUBE_GED, _CUBE_GOM, _CUBE_OED, _CUBE_OBM, _CUBE_BED, _CUBE_BRM]
def init_bot : Layer := [_CUBE_YR, _CUBE_YGR, _CUBE_YG, _CUBE_YOG, _CUBE_YO, _CUBE_YBO, _CUBE_YB, _CUBE_YRB]

/-- The cube state built by `__init__`: `self._cube = [top, mid, bot]`. -/
def initCube : Cube := [init_top, init_mid, init_bot]

/-- The whole object built by `__init__`: `_cube` plus the frozen snapshot
`_cube_solved` used by the solved-check. -/
structure RubicsCube where
  _cube : Cube
  _cube_solved : Cube
deriving DecidableEq, Repr

def initRubicsCube : RubicsCube := { _cube := initCube, _cube_solved := initCube }

/-! ## Read/write helpers -/

/-- `self._cube[lid]` -/
def layerRead (c : Cube) (lid : Nat) : Layer := c.getD lid []

/-- `self._cube[lid][idx]` -/
def cubeRead (c : Cube) (lid idx : Nat) : Cell := (layerRead c lid).getD idx CUBE_NIL

/-- `self._cube[lid][idx] = cell` -/
def cubeWrite (c : Cube) (lid idx : Nat) (cell : Cell) : Cube :=
  c.set lid ((layerRead c lid).set idx cell)

/-- `RubicsCube._SIDE_INDEX[side_id][k]` -/
def sideIndex (side_id k : Nat) : Nat := (_SIDE_INDEX.getD side_id []).getD k 0

/-! ## `_side_get` (lines 298-322)

Invalid side ids make Python subscript the integer `0` (side 0) or run off
`_SIDE_INDEX` (side ≥ 7), raising an uncaught error; this is modelled by
`none`. -/

def _side_get (side_id_P : Nat) (c : Cube) : Option (List Cell) :=
  if side_id_P < 1 ∨ 6 < side_id_P then none
  else
    let top := layerRead c CUBE_TOP
    let mid := layerRead c CUBE_MIDDLE
    let bot := layerRead c CUBE_BOTTOM
    let mid := if side_id_P = CUBE_WHITE then top else mid
    let bot := if side_id_P = CUBE_WHITE then top else bot
    let top := if side_id_P = CUBE_YELLOW then bot else top
    let mid := if side_id_P = CUBE_YELLOW then bot else mid
    some [top.getD (sideIndex side_id_P 0) CUBE_NIL,
          top.getD (sideIndex side_id_P 1) CUBE_NIL,
          mid.getD (sideIndex side_id_P 2) CUBE_NIL,
          bot.getD (sideIndex side_id_P 3) CUBE_NIL,
          bot.getD (sideIndex side_id_P 4) CUBE_NIL,
          bot.getD (sideIndex side_id_P 5) CUBE_NIL,
          mid.getD (sideIndex side_id_P 6) CUBE_NIL,
          top.getD (sideIndex side_id_P 7) CUBE_NIL]

/-! ## `_side_put` (lines 324-344) -/

def _side_put (side_id_P : Nat) (side_P : List Cell) (c : Cube) : Option Cube :=
  if side_id_P < 1 ∨ 6 < side_id_P then none
  else
    let top_id := CUBE_TOP
    let mid_id := CUBE_MIDDLE
    let bot_id := CUBE_BOTTOM
    let mid_id := if side_id_P = CUBE_WHITE then CUBE_TOP else mid_id
    let bot_id := if side_id_P = CUBE_WHITE then CUBE_TOP else bot_id
    let top_id := if side_id_P = CUBE_YELLOW then CUBE_BOTTOM else top_id
    let mid_id := if side_id_P = CUBE_YELLOW then CUBE_BOTTOM else mid_id
    let c := cubeWrite c top_id (sideIndex side_id_P 0) (side_P.getD 0 CUBE_NIL)
    let c := cubeWrite c top_id (sideIndex side_id_P 1) (side_P.getD 1 CUBE_NIL)
    let c := cubeWrite c mid_id (sideIndex side_id_P 2) (side_P.getD 2 CUBE_NIL)
    let c := cubeWrite c bot_id (sideIndex side_id_P 3) (side_P.getD 3 CUBE_NIL)
    let c := cubeWrite c bot_id (sideIndex side_id_P 4) (side_P.getD 4 CUBE_NIL)
    let c := cubeWrite c bot_id (sideIndex side_id_P 5) (side_P.getD 5 CUBE_NIL)
    let c := cubeWrite c mid_id (sideIndex side_id_P 6) (side_P.getD 6 CUBE_NIL)
    let c := cubeWrite c top_id (sideIndex side_id_P 7) (side_P.getD 7 CUBE_NIL)
    some c

/-! ## `_side_edge_color_get` / `_side_corner_color_get` (lines 346-369)

The `else` branches print and `exit()`: modelled as `none`. -/

def _side_edge_color_get (side_id_P : Nat) (side_P : List Cell) (side_index_P : Nat) : Option Nat :=
  let cell := side_P.getD side_index_P CUBE_NIL
  if side_id_P = cell.getD CUBE_EDGE_FACE_0 0 then
    some (cell.getD CUBE_EDGE_0 0)
  else if side_id_P = cell.getD CUBE_EDGE_FACE_1 0 then
    some (cell.getD CUBE_EDGE_1 0)
  else none

def _side_corner_color_get (side_id_P : Nat) (side_P : List Cell) (side_index_P : Nat) : Option Nat :=
  let cell := side_P.getD side_index_P CUBE_NIL
  if side_id_P = cell.getD CUBE_CORNER_FACE_0 0 then
    some (cell.getD CUBE_CORNER_0 0)
  else if side_id_P = cell.getD CUBE_CORNER_FACE_1 0 then
    some (cell.getD CUBE_CORNER_1 0)
  else if side_id_P = cell.getD CUBE_CORNER_FACE_2 0 then
    some (cell.getD CUBE_CORNER_2 0)
  else none

/-! ## The color-remap family `_side_edge_*` (lines 371-528)

The `exit()` calls on an unknown face or side are modelled as `none`. -/

def _side_edge_white (direction_P face_color_P : Nat) : Option Nat :=
  if direction_P = ROTATE_CLOCKWISE then
    if face_color_P = CUBE_RED then some CUBE_GREEN
    else if face_color_P = CUBE_GREEN then some CUBE_ORANGE
    else if face_color_P = CUBE_ORANGE then some CUBE_BLUE
    else if face_color_P = CUBE_BLUE then some CUBE_RED
    else none
  else
    if face_color_P = CUBE_RED then some CUBE_BLUE
    else if face_color_P = CUBE_BLUE then some CUBE_ORANGE
    else if face_color_P = CUBE_ORANGE then some CUBE_GREEN
    else if face_color_P = CUBE_GREEN then some CUBE_RED
    else none

def _side_edge_yellow (direction_P face_color_P : Nat) : Option Nat :=
  let direction := if direction_P = ROTATE_CLOCKWISE then ROTATE_COUNTER else ROTATE_CLOCKWISE
  _side_edge_white direction face_color_P

def _side_edge_red (direction_P face_color_P : Nat) : Option Nat :=
  if direction_P = ROTATE_CLOCKWISE then
    if face_color_P = CUBE_WHITE then some CUBE_BLUE
    else if face_color_P = CUBE_BLUE then some CUBE_YELLOW
    else if face_color_P = CUBE_YELLOW then some CUBE_GREEN
    else if face_color_P = CUBE_GREEN then some CUBE_WHITE
    else none
  else
    if face_color_P = CUBE_WHITE then some CUBE_GREEN
    else if face_color_P = CUBE_GREEN then some CUBE_YELLOW
    else if face_color_P = CUBE_YELLOW then some CUBE_BLUE
    else if face_color_P = CUBE_BLUE then some CUBE_WHITE
    else none

def _side_edge_orange (direction_P face_color_P : Nat) : Option Nat :=
  let direction := if direction_P = ROTATE_CLOCKWISE then ROTATE_COUNTER else ROTATE_CLOCKWISE
  _side_edge_red direction face_color_P

def _side_edge_green (direction_P face_color_P : Nat) : Option Nat :=
  if direction_P = ROTATE_CLOCKWISE then
    if face_color_P = CUBE_WHITE then some CUBE_RED
    else if face_color_P = CUBE_RED then some CUBE_YELLOW
    else if face_color_P = CUBE_YELLOW then some CUBE_ORANGE
    else if face_color_P = CUBE_ORANGE then some CUBE_WHITE
    else none
  else
    if face_color_P = CUBE_WHITE then some CUBE_ORANGE
    else if face_color_P = CUBE_ORANGE then some CUBE_YELLOW
    else if face_color_P = CUBE_YELLOW then some CUBE_RED
    else if face_color_P = CUBE_RED then some CUBE_WHITE
    else none

def _side_edge_blue (direction_P face_color_P : Nat) : Option Nat :=
  let direction := if direction_P = ROTATE_CLOCKWISE then ROTATE_COUNTER else ROTATE_CLOCKWISE
  _side_edge_green direction face_color_P

def _side_edge_face_get (direction_P side_id_P face_color_P : Nat) : Option Nat :=
  if side_id_P = CUBE_WHITE then _side_edge_white direction_P face_color_P
  else if side_id_P = CUBE_YELLOW then _side_edge_yellow direction_P face_color_P
  else if side_id_P = CUBE_RED then _side_edge_red direction_P face_color_P
  else if side_id_P = CUBE_GREEN then _side_edge_green direction_P face_color_P
  else if side_id_P = CUBE_ORANGE then _side_edge_orange direction_P face_color_P
  else if side_id_P = CUBE_BLUE then _side_edge_blue direction_P face_color_P
  else none

/-- The spec's `NextColorClockwise(axisFace, currentColor)`. -/
def NextColorClockwise (axis_face color : Nat) : Option Nat :=
  _side_edge_face_get ROTATE_CLOCKWISE axis_face color

/-- The spec's counter-clockwise color remap. -/
def NextColorCounterClockwise (axis_face color : Nat) : Option Nat :=
  _side_edge_face_get ROTATE_COUNTER axis_face color

/-! ## The remap pass: `_rotate_face_edge*` and `_face_minus_cube_delay*`
(lines 540-584) -/

def _rotate_face_edge_plus_cube_delay (cell_P : Cell) (edge_P : Nat) (edge_cell_P : Cell)
    (edge_face_P : Nat) : Cell :=
  if cell_P.getD CUBE_CORNER_FACE_0 0 = edge_P then
    cell_P.set CUBE_CORNER_FACE_0 (edge_cell_P.getD edge_face_P 0 + CUBE_DELAY)
  else if cell_P.getD CUBE_CORNER_FACE_1 0 = edge_P then
    cell_P.set CUBE_CORNER_FACE_1 (edge_cell_P.getD edge_face_P 0 + CUBE_DELAY)
  else if cell_P.getD CUBE_CORNER_FACE_2 0 = edge_P then
    cell_P.set CUBE_CORNER_FACE_2 (edge_cell_P.getD edge_face_P 0 + CUBE_DELAY)
  else cell_P

/-- `_rotate_face_edge` mutates the edge cell and its two flanking corner
cells; the updated `(corner_left, edge, corner_right)` triple is returned.
Note: when neither face binding of the edge equals `side_id_P` the source
falls through both branches and touches nothing. -/
def _rotate_face_edge (side_id_P direction_P : Nat) (corner_left_P edge_P corner_right_P : Cell) :
    Option (Cell × Cell × Cell) :=
  if edge_P.getD CUBE_EDGE_FACE_0 0 = side_id_P then
    let edge := edge_P.getD CUBE_EDGE_FACE_1 0
    match _side_edge_face_get direction_P side_id_P edge with
    | none => none
    | some v =>
      let edge_P := edge_P.set CUBE_EDGE_FACE_1 v
      let corner_left := _rotate_face_edge_plus_cube_delay corner_left_P edge edge_P CUBE_EDGE_FACE_1
      let corner_right := _rotate_face_edge_plus_cube_delay corner_right_P edge edge_P CUBE_EDGE_FACE_1
      some (corner_left, edge_P, corner_right)
  else if edge_P.getD CUBE_EDGE_FACE_1 0 = side_id_P then
    let edge := edge_P.getD CUBE_EDGE_FACE_0 0
    match _side_edge_face_get direction_P side_id_P edge with
    | none => none
    | some v =>
      let edge_P := edge_P.set CUBE_EDGE_FACE_0 v
      let corner_left := _rotate_face_edge_plus_cube_delay corner_left_P edge edge_P CUBE_EDGE_FACE_0
      let corner_right := _rotate_face_edge_plus_cube_delay corner_right_P edge edge_P CUBE_EDGE_FACE_0
      some (corner_left, edge_P, corner_right)
  else some (corner_left_P, edge_P, corner_right_P)

def _face_minus_cube_delay_face (cell_P : Cell) (face_P : Nat) : Cell :=
  if CUBE_BLUE < cell_P.getD face_P 0 then
    cell_P.set face_P (cell_P.getD face_P 0 - CUBE_DELAY)
  else cell_P

def _face_minus_cube_delay (cell_P : Cell) : Cell :=
  let cell_P := _face_minus_cube_delay_face cell_P CUBE_CORNER_FACE_0
  let cell_P := _face_minus_cube_delay_face cell_P CUBE_CORNER_FACE_1
  _face_minus_cube_delay_face cell_P CUBE_CORNER_FACE_2

/-! ## `_side_assign` (lines 586-595) -/

def _side_assign (side_P : List Cell) (_0000_P _0300_P _0600_P _0900_P _0130_P _0430_P _0730_P
    _1030_P : Cell) : List Cell :=
  let side_P := side_P.set 0 _0000_P
  let side_P := side_P.set 2 _0300_P
  let side_P := side_P.set 4 _0600_P
  let side_P := side_P.set 6 _0900_P
  let side_P := side_P.set 1 _0130_P
  let side_P := side_P.set 3 _0430_P
  let side_P := side_P.set 5 _0730_P
  side_P.set 7 _1030_P

/-! ## `_rotate_faces` (lines 597-627)

`_side_deepcopy` loads the scratch attributes `self._1030` … `self._0900`;
the four `_rotate_face_edge` calls thread the updated scratch cells (the
corner updated by one call is passed to the next). -/

def _rotate_faces (direction_P side_id_P : Nat) (side_P : List Cell) : Option (List Cell) := do
  let _1030 := side_P.getD 7 CUBE_NIL
  let _0000 := side_P.getD 0 CUBE_NIL
  let _0130 := side_P.getD 1 CUBE_NIL
  let _0300 := side_P.getD 2 CUBE_NIL
  let _0430 := side_P.getD 3 CUBE_NIL
  let _0600 := side_P.getD 4 CUBE_NIL
  let _0730 := side_P.getD 5 CUBE_NIL
  let _0900 := side_P.getD 6 CUBE_NIL
  let (_1030, _0000, _0130) ← _rotate_face_edge side_id_P direction_P _1030 _0000 _0130
  let (_0130, _0300, _0430) ← _rotate_face_edge side_id_P direction_P _0130 _0300 _0430
  let (_0430, _0600, _0730) ← _rotate_face_edge side_id_P direction_P _0430 _0600 _0730
  let (_0730, _0900, _1030) ← _rotate_face_edge side_id_P direction_P _0730 _0900 _1030
  let _1030 := _face_minus_cube_delay _1030
  let _0130 := _face_minus_cube_delay _0130
  let _0430 := _face_minus_cube_delay _0430
  let _0730 := _face_minus_cube_delay _0730
  return _side_assign side_P _0000 _0300 _0600 _0900 _0130 _0430 _0730 _1030

/-! ## `_rotate_colors` (lines 629-646) -/

def _rotate_colors (direction_P side_id_P : Nat) (side_P : List Cell) : List Cell :=
  let _1030 := side_P.getD 7 CUBE_NIL
  let _0000 := side_P.getD 0 CUBE_NIL
  let _0130 := side_P.getD 1 CUBE_NIL
  let _0300 := side_P.getD 2 CUBE_NIL
  let _0430 := side_P.getD 3 CUBE_NIL
  let _0600 := side_P.getD 4 CUBE_NIL
  let _0730 := side_P.getD 5 CUBE_NIL
  let _0900 := side_P.getD 6 CUBE_NIL
  if direction_P = ROTATE_CLOCKWISE then
    _side_assign side_P _0900 _0000 _0300 _0600 _1030 _0130 _0430 _0730
  else
    _side_assign side_P _0300 _0600 _0900 _0000 _0430 _0730 _1030 _0130

/-! ## `RotateSide` (lines 648-660) -/

def RotateSide (side_id_P direction_P : Nat) (c : Cube) : Option Cube := do
  let side ← _side_get side_id_P c
  let side ← _rotate_faces direction_P side_id_P side
  let side := _rotate_colors direction_P side_id_P side
  _side_put side_id_P side c

/-- `RotateSide` on the whole object: only `self._cube` is touched,
`self._cube_solved` is read-only state. -/
def RotateSideObj (side_id_P direction_P : Nat) (r : RubicsCube) : Option RubicsCube :=
  (RotateSide side_id_P direction_P r._cube).map fun c => { r with _cube := c }

/-! ## Well-formedness predicates

A cell occupying a given slot of the cube is well formed when its type tag is
right and its face bindings are exactly the faces adjacent to that slot, in
some order. These predicates describe reachable states; they are written
against the cell layout of the source (type at index 0, edge bindings at
indices 3-4, corner bindings at indices 4-6). -/

abbrev EdgeOK (a b : Nat) (cell : Cell) : Prop :=
  cell.length = 7 ∧ cell.getD CUBE_TYPE 0 = CUBE_EDGE ∧
    ((cell.getD CUBE_EDGE_FACE_0 0 = a ∧ cell.getD CUBE_EDGE_FACE_1 0 = b) ∨
     (cell.getD CUBE_EDGE_FACE_0 0 = b ∧ cell.getD CUBE_EDGE_FACE_1 0 = a))

abbrev CornerOK (a b c : Nat) (cell : Cell) : Prop :=
  cell.length = 7 ∧ cell.getD CUBE_TYPE 0 = CUBE_CORNER ∧
    (let g1 := cell.getD CUBE_CORNER_FACE_0 0
     let g2 := cell.getD CUBE_CORNER_FACE_1 0
     let g3 := cell.getD CUBE_CORNER_FACE_2 0
     (g1 = a ∧ g2 = b ∧ g3 = c) ∨ (g1 = a ∧ g2 = c ∧ g3 = b) ∨
     (g1 = b ∧ g2 = a ∧ g3 = c) ∨ (g1 = b ∧ g2 = c ∧ g3 = a) ∨
     (g1 = c ∧ g2 = a ∧ g3 = b) ∨ (g1 = c ∧ g2 = b ∧ g3 = a))

/-! ## The abstract per-cell action of the remap pass

`faceAdj` is the map applied to every face-binding slot of every ring cell by
the remap pass of `RotateSide`: the binding equal to the rotating side stays,
any other binding advances along the side's 4-cycle. `cellRemap` applies it
to the binding slots of one cell. -/

def faceAdj (direction_P side_id_P b : Nat) : Nat :=
  if b = side_id_P then b else (_side_edge_face_get direction_P side_id_P b).getD b

def cellRemap (direction_P side_id_P : Nat) (cell : Cell) : Cell :=
  if cell.getD CUBE_TYPE 0 = CUBE_EDGE then
    (cell.set CUBE_EDGE_FACE_0 (faceAdj direction_P side_id_P (cell.getD CUBE_EDGE_FACE_0 0))).set
      CUBE_EDGE_FACE_1 (faceAdj direction_P side_id_P (cell.getD CUBE_EDGE_FACE_1 0))
  else if cell.getD CUBE_TYPE 0 = CUBE_CORNER then
    ((cell.set CUBE_CORNER_FACE_0 (faceAdj direction_P side_id_P (cell.getD CUBE_CORNER_FACE_0 0))).set
       CUBE_CORNER_FACE_1 (faceAdj direction_P side_id_P (cell.getD CUBE_CORNER_FACE_1 0))).set
      CUBE_CORNER_FACE_2 (faceAdj direction_P side_id_P (cell.getD CUBE_CORNER_FACE_2 0))
  else cell

/-- The corner staging step: the first binding slot holding the old lateral
face is overwritten with the new lateral face plus `CUBE_DELAY`. This is
`_rotate_face_edge_plus_cube_delay` with the already-updated edge slot read
out. -/
def cornerStage (cell : Cell) (old new : Nat) : Cell :=
  if cell.getD CUBE_CORNER_FACE_0 0 = old then
    cell.set CUBE_CORNER_FACE_0 (new + CUBE_DELAY)
  else if cell.getD CUBE_CORNER_FACE_1 0 = old then
    cell.set CUBE_CORNER_FACE_1 (new + CUBE_DELAY)
  else if cell.getD CUBE_CORNER_FACE_2 0 = old then
    cell.set CUBE_CORNER_FACE_2 (new + CUBE_DELAY)
  else cell

/-! ## Sticker colors -/

/-- The sticker colors stored in one cell (edge: 2, corner: 3, center: 1). -/
def stickersCell (cell : Cell) : List Nat :=
  if cell.getD CUBE_TYPE 0 = CUBE_EDGE then
    [cell.getD CUBE_EDGE_0 0, cell.getD CUBE_EDGE_1 0]
  else if cell.getD CUBE_TYPE 0 = CUBE_CORNER then
    [cell.getD CUBE_CORNER_0 0, cell.getD CUBE_CORNER_1 0, cell.getD CUBE_CORNER_2 0]
  else if cell.getD CUBE_TYPE 0 = CUBE_ID then
    [cell.getD CUBE_ID_0 0]
  else []

/-- All sticker colors of the cube, across the three layers. -/
def stickerList (c : Cube) : List Nat := (c.flatMap id).flatMap stickersCell

/-! ## The reachable-state invariant

Every slot of the three layers holds a cell of the right kind whose face
bindings are exactly the faces adjacent to that slot; the four middle-layer
center cells are immutable. -/

structure CubeOK (c : Cube) : Prop where
  hlen : c.length = 3
  hlt : (layerRead c 0).length = 8
  hlm : (layerRead c 1).length = 8
  hlb : (layerRead c 2).length = 8
  ht0 : EdgeOK CUBE_WHITE CUBE_RED (cubeRead c 0 0)
  ht1 : CornerOK CUBE_WHITE CUBE_RED CUBE_GREEN (cubeRead c 0 1)
  ht2 : EdgeOK CUBE_WHITE CUBE_GREEN (cubeRead c 0 2)
  ht3 : CornerOK CUBE_WHITE CUBE_GREEN CUBE_ORANGE (cubeRead c 0 3)
  ht4 : EdgeOK CUBE_WHITE CUBE_ORANGE (cubeRead c 0 4)
  ht5 : CornerOK CUBE_WHITE CUBE_ORANGE CUBE_BLUE (cubeRead c 0 5)
  ht6 : EdgeOK CUBE_WHITE CUBE_BLUE (cubeRead c 0 6)
  ht7 : CornerOK CUBE_WHITE CUBE_BLUE CUBE_RED (cubeRead c 0 7)
  hm0 : cubeRead c 1 0 = _CUBE_RED
  hm1 : EdgeOK CUBE_RED CUBE_GREEN (cubeRead c 1 1)
  hm2 : cubeRead c 1 2 = _CUBE_GED
  hm3 : EdgeOK CUBE_GREEN CUBE_ORANGE (cubeRead c 1 3)
  hm4 : cubeRead c 1 4 = _CUBE_OED
  hm5 : EdgeOK CUBE_ORANGE CUBE_BLUE (cubeRead c 1 5)
  hm6 : cubeRead c 1 6 = _CUBE_BED
  hm7 : EdgeOK CUBE_BLUE CUBE_RED (cubeRead c 1 7)
  hb0 : EdgeOK CUBE_YELLOW CUBE_RED (cubeRead c 2 0)
  hb1 : CornerOK CUBE_YELLOW CUBE_GREEN CUBE_RED (cubeRead c 2 1)
  hb2 : EdgeOK CUBE_YELLOW CUBE_GREEN (cubeRead c 2 2)
  hb3 : CornerOK CUBE_YELLOW CUBE_ORANGE CUBE_GREEN (cubeRead c 2 3)
  hb4 : EdgeOK CUBE_YELLOW CUBE_ORANGE (cubeRead c 2 4)
  hb5 : CornerOK CUBE_YELLOW CUBE_BLUE CUBE_ORANGE (cubeRead c 2 5)
  hb6 : EdgeOK CUBE_YELLOW CUBE_BLUE (cubeRead c 2 6)
  hb7 : CornerOK CUBE_YELLOW CUBE_RED CUBE_BLUE (cubeRead c 2 7)

/-- The states reachable from the freshly constructed cube by `RotateSide`
calls (of any argument values that complete without a fatal error). -/
inductive Reachable : Cube → Prop where
  | init : Reachable initCube
  | step (s d : Nat) (c c' : Cube) : Reachable c → RotateSide s d c = some c' → Reachable c'

/-- The layer selected for ring slot `p` of face `f`: White reads Top for all
slots, Yellow reads Bottom for all, the lateral faces follow the
top/top/mid/bot/bot/bot/mid/top pattern of `_side_get`/`_side_put`. -/
def ringLayer (f p : Nat) : Nat :=
  if f = CUBE_WHITE then CUBE_TOP
  else if f = CUBE_YELLOW then CUBE_BOTTOM
  else [CUBE_TOP, CUBE_TOP, CUBE_MIDDLE, CUBE_BOTTOM, CUBE_BOTTOM, CUBE_BOTTOM, CUBE_MIDDLE,
    CUBE_TOP].getD p 0

/-- The 8 `(layer, index)` storage positions of the ring of face `f` — the
positions listed in `_SIDE_INDEX[f]` for the layers selected for `f`. -/
def ringPositions (f : Nat) : List (Nat × Nat) :=
  (List.range 8).map fun p => (ringLayer f p, sideIndex f p)

/-! ## Basic list lemmas -/

theorem List.set_getD_self {α : Type _} (l : List α) (i : Nat) (d : α) :
    l.set i (l.getD i d) = l := by
  induction l generalizing i with
  | nil => rfl
  | cons a t ih =>
    cases i with
    | zero => simp [List.getD]
    | succ n => simp [List.getD] at ih ⊢; exact ih n

theorem List.getD_set_ne {α : Type _} (l : List α) {i j : Nat} (h : i ≠ j) (v : α) (d : α) :
    (l.set i v).getD j d = l.getD j d := by
  induction l generalizing i j with
  | nil => rfl
  | cons a t ih =>
    cases i with
    | zero =>
      cases j with
      | zero => exact absurd rfl h
      | succ m => simp [List.getD]
    | succ n =>
      cases j with
      | zero => simp [List.getD]
      | succ m =>
        simp only [List.set_cons_succ, List.getD, List.get?_cons_succ]
        have := ih (i := n) (j := m) (fun hnm => h (by omega))
        simpa [List.getD] using this

theorem List.getD_set_self {α : Type _} (l : List α) {i : Nat} (h : i < l.length) (v : α) (d : α) :
    (l.set i v).getD i d = v := by
  induction l generalizing i with
  | nil => simp at h
  | cons a t ih =>
    cases i with
    | zero => simp [List.getD]
    | succ n =>
      simp only [List.length_cons, Nat.succ_lt_succ_iff] at h
      simp only [List.set_cons_succ, List.getD, List.get?_cons_succ]
      simpa [List.getD] using ih h

/-- Writing back the value just read leaves the cube unchanged. -/
theorem cubeWrite_self (c : Cube) (lid idx : Nat) :
    cubeWrite c lid idx (cubeRead c lid idx) = c := by
  unfold cubeWrite cubeRead layerRead
  rw [List.set_getD_self, List.set_getD_self]

theorem length_eq_three {α : Type _} {l : List α} (h : l.length = 3) :
    ∃ a b c, l = [a, b, c] := by
  rcases l with _ | ⟨a, _ | ⟨b, _ | ⟨c, _ | ⟨d, t⟩⟩⟩⟩ <;> simp_all

theorem length_eq_seven {α : Type _} {l : List α} (h : l.length = 7) :
    ∃ a b c d e f g, l = [a, b, c, d, e, f, g] := by
  rcases l with _ | ⟨a, _ | ⟨b, _ | ⟨c, _ | ⟨d, _ | ⟨e, _ | ⟨f, _ | ⟨g, _ | ⟨h8, t⟩⟩⟩⟩⟩⟩⟩⟩ <;>
    simp_all

theorem length_eq_eight {α : Type _} {l : List α} (h : l.length = 8) :
    ∃ a b c d e f g h', l = [a, b, c, d, e, f, g, h'] := by
  rcases l with _ | ⟨a, _ | ⟨b, _ | ⟨c, _ | ⟨d, _ | ⟨e, _ | ⟨f, _ | ⟨g, _ | ⟨h8, t⟩⟩⟩⟩⟩⟩⟩⟩ <;>
    simp_all

theorem EdgeOK_comm {a b : Nat} {cell : Cell} (h : EdgeOK a b cell) : EdgeOK b a cell := by
  obtain ⟨h1, h2, h3⟩ := h
  exact ⟨h1, h2, h3.symm⟩

theorem CornerOK_swap23 {a b c : Nat} {cell : Cell} (h : CornerOK a b c cell) :
    CornerOK a c b cell := by
  obtain ⟨h1, h2, h3⟩ := h
  refine ⟨h1, h2, ?_⟩
  simp only at h3 ⊢
  tauto

theorem CornerOK_rotate {a b c : Nat} {cell : Cell} (h : CornerOK a b c cell) :
    CornerOK b c a cell := by
  obtain ⟨h1, h2, h3⟩ := h
  refine ⟨h1, h2, ?_⟩
  simp only at h3 ⊢
  tauto

theorem faceAdj_self (d s : Nat) : faceAdj d s s = s := by
  simp [faceAdj]

theorem faceAdj_eq {d s b v : Nat} (hb : b ≠ s) (hv : _side_edge_face_get d s b = some v) :
    faceAdj d s b = v := by
  simp [faceAdj, hb, hv]

theorem pcd_eq_cornerStage (cell : Cell) (old : Nat) (ec : Cell) (fi : Nat) :
    _rotate_face_edge_plus_cube_delay cell old ec fi = cornerStage cell old (ec.getD fi 0) :=
  rfl

/-- One `_rotate_face_edge` call on a well-formed edge cell: the lateral
binding of the edge advances along the cycle and both flanking cells get the
matching binding staged. -/
theorem rfe_spec {s d lam nu : Nat} (cl cr : Cell) {e : Cell}
    (he : EdgeOK s lam e) (hls : lam ≠ s)
    (hnu : _side_edge_face_get d s lam = some nu) :
    _rotate_face_edge s d cl e cr =
      some (cornerStage cl lam nu, cellRemap d s e, cornerStage cr lam nu) := by
  obtain ⟨hlen, htype, harr⟩ := he
  obtain ⟨x0, x1, x2, x3, x4, x5, x6, rfl⟩ := length_eq_seven hlen
  simp only [CUBE_TYPE, CUBE_EDGE, CUBE_EDGE_FACE_0, CUBE_EDGE_FACE_1, List.getD_cons_zero,
    List.getD_cons_succ] at htype harr
  rcases harr with ⟨h3, h4⟩ | ⟨h3, h4⟩
  · subst h3 h4
    unfold _rotate_face_edge
    simp only [CUBE_EDGE_FACE_0, CUBE_EDGE_FACE_1, List.getD_cons_succ, List.getD_cons_zero,
      eq_self_iff_true, ite_true, hnu, pcd_eq_cornerStage]
    simp [cellRemap, CUBE_TYPE, CUBE_EDGE, CUBE_EDGE_FACE_0, CUBE_EDGE_FACE_1, htype,
      faceAdj_self, faceAdj_eq hls hnu]
  · subst h3 h4
    unfold _rotate_face_edge
    simp only [CUBE_EDGE_FACE_0, CUBE_EDGE_FACE_1, List.getD_cons_succ, List.getD_cons_zero,
      eq_self_iff_true, ite_true, hls, ite_false, if_neg hls, hnu, pcd_eq_cornerStage]
    simp [cellRemap, CUBE_TYPE, CUBE_EDGE, CUBE_EDGE_FACE_0, CUBE_EDGE_FACE_1, htype,
      faceAdj_self, faceAdj_eq hls hnu]

/-- The two staged corner updates of one rotation followed by
`_face_minus_cube_delay`: each lateral binding of a well-formed corner cell
advances along the cycle, the axis binding stays. -/
theorem corner_stage_spec {s d mu1 nu1 mu2 nu2 : Nat} {c : Cell}
    (hc : CornerOK s mu1 mu2 c)
    (h12 : mu1 ≠ mu2) (h1s : mu1 ≠ s) (h2s : mu2 ≠ s)
    (hmu2 : mu2 ≤ 6) (hnu1 : nu1 ≤ 6) (hnu2 : nu2 ≤ 6) (hs : s ≤ 6)
    (hv1 : _side_edge_face_get d s mu1 = some nu1)
    (hv2 : _side_edge_face_get d s mu2 = some nu2) :
    _face_minus_cube_delay (cornerStage (cornerStage c mu1 nu1) mu2 nu2) = cellRemap d s c := by
  have hd1 : ¬(nu1 + 100 = mu2) := by omega
  have hs' : ¬(6 < s) := by omega
  have hnn1 : 6 < nu1 + 100 := by omega
  have hnn2 : 6 < nu2 + 100 := by omega
  obtain ⟨hlen, htype, harr⟩ := hc
  obtain ⟨x0, x1, x2, x3, g1, g2, g3, rfl⟩ := length_eq_seven hlen
  simp only [CUBE_TYPE, CUBE_CORNER, CUBE_CORNER_FACE_0, CUBE_CORNER_FACE_1, CUBE_CORNER_FACE_2,
    List.getD_cons_zero, List.getD_cons_succ] at htype harr
  subst htype
  rcases harr with ⟨e1, e2, e3⟩ | ⟨e1, e2, e3⟩ | ⟨e1, e2, e3⟩ | ⟨e1, e2, e3⟩ | ⟨e1, e2, e3⟩ |
    ⟨e1, e2, e3⟩ <;> subst e1 <;> subst e2 <;> subst e3 <;>
    simp [cornerStage, _face_minus_cube_delay, _face_minus_cube_delay_face, cellRemap,
      CUBE_TYPE, CUBE_CORNER, CUBE_EDGE, CUBE_CORNER_FACE_0, CUBE_CORNER_FACE_1,
      CUBE_CORNER_FACE_2, CUBE_BLUE, CUBE_DELAY, faceAdj_self, faceAdj_eq h1s hv1,
      faceAdj_eq h2s hv2, Ne.symm h1s, Ne.symm h2s, h12, Ne.symm h12, hd1, hs', hnn1, hnn2]

/-- `_rotate_faces` on an explicit 8-cell ring, with the threading of the
scratch cells through the four `_rotate_face_edge` calls made explicit. -/
theorem rotate_faces_explicit (d s : Nat) (x0 x1 x2 x3 x4 x5 x6 x7 : Cell) :
    _rotate_faces d s [x0, x1, x2, x3, x4, x5, x6, x7] =
      (_rotate_face_edge s d x7 x0 x1).bind fun r1 =>
      (_rotate_face_edge s d r1.2.2 x2 x3).bind fun r2 =>
      (_rotate_face_edge s d r2.2.2 x4 x5).bind fun r3 =>
      (_rotate_face_edge s d r3.2.2 x6 r1.1).bind fun r4 =>
      some [r1.2.1, _face_minus_cube_delay r2.1, r2.2.1, _face_minus_cube_delay r3.1,
            r3.2.1, _face_minus_cube_delay r4.1, r4.2.1, _face_minus_cube_delay r4.2.2] :=
  rfl

/-- The whole remap pass on a well-formed ring acts as `cellRemap` on every
cell, in place. -/
theorem rotate_faces_spec (s d l0 l2 l4 l6 n0 n2 n4 n6 : Nat)
    {e0 c1 e2 c3 e4 c5 e6 c7 : Cell}
    (he0 : EdgeOK s l0 e0) (he2 : EdgeOK s l2 e2) (he4 : EdgeOK s l4 e4) (he6 : EdgeOK s l6 e6)
    (hc1 : CornerOK s l0 l2 c1) (hc3 : CornerOK s l2 l4 c3)
    (hc5 : CornerOK s l4 l6 c5) (hc7 : CornerOK s l0 l6 c7)
    (h0s : l0 ≠ s) (h2s : l2 ≠ s) (h4s : l4 ≠ s) (h6s : l6 ≠ s)
    (h02 : l0 ≠ l2) (h24 : l2 ≠ l4) (h46 : l4 ≠ l6) (h06 : l0 ≠ l6)
    (hl2 : l2 ≤ 6) (hl4 : l4 ≤ 6) (hl6 : l6 ≤ 6) (hs : s ≤ 6)
    (hn0 : n0 ≤ 6) (hn2 : n2 ≤ 6) (hn4 : n4 ≤ 6) (hn6 : n6 ≤ 6)
    (hv0 : _side_edge_face_get d s l0 = some n0)
    (hv2 : _side_edge_face_get d s l2 = some n2)
    (hv4 : _side_edge_face_get d s l4 = some n4)
    (hv6 : _side_edge_face_get d s l6 = some n6) :
    _rotate_faces d s [e0, c1, e2, c3, e4, c5, e6, c7] =
      some [cellRemap d s e0, cellRemap d s c1, cellRemap d s e2, cellRemap d s c3,
            cellRemap d s e4, cellRemap d s c5, cellRemap d s e6, cellRemap d s c7] := by
  rw [rotate_faces_explicit, rfe_spec c7 c1 he0 h0s hv0]
  dsimp only [Option.bind]
  rw [rfe_spec (cornerStage c1 l0 n0) c3 he2 h2s hv2]
  dsimp only [Option.bind]
  rw [rfe_spec (cornerStage c3 l2 n2) c5 he4 h4s hv4]
  dsimp only [Option.bind]
  rw [rfe_spec (cornerStage c5 l4 n4) (cornerStage c7 l0 n0) he6 h6s hv6]
  dsimp only [Option.bind]
  rw [corner_stage_spec hc1 h02 h0s h2s hl2 hn0 hn2 hs hv0 hv2,
    corner_stage_spec hc3 h24 h2s h4s hl4 hn2 hn4 hs hv2 hv4,
    corner_stage_spec hc5 h46 h4s h6s hl6 hn4 hn6 hs hv4 hv6,
    corner_stage_spec hc7 h06 h0s h6s hl6 hn0 hn6 hs hv0 hv6]

/-- The position pass, clockwise: every cell moves two ring slots forward. -/
theorem rotate_colors_cw (sid : Nat) (x0 x1 x2 x3 x4 x5 x6 x7 : Cell) :
    _rotate_colors 0 sid [x0, x1, x2, x3, x4, x5, x6, x7] =
      [x6, x7, x0, x1, x2, x3, x4, x5] :=
  rfl

/-- The position pass for any non-clockwise direction value: every cell moves
two ring slots backward. -/
theorem rotate_colors_ne {d : Nat} (sid : Nat) (hd : d ≠ 0) (x0 x1 x2 x3 x4 x5 x6 x7 : Cell) :
    _rotate_colors d sid [x0, x1, x2, x3, x4, x5, x6, x7] =
      [x2, x3, x4, x5, x6, x7, x0, x1] := by
  simp only [_rotate_colors, ROTATE_CLOCKWISE, if_neg hd]
  rfl

/-! ## How `cellRemap` transforms the well-formedness predicates -/

theorem EdgeOK_remap {d s a b a' b' : Nat} {x : Cell} (h : EdgeOK a b x)
    (ha : faceAdj d s a = a') (hb : faceAdj d s b = b') :
    EdgeOK a' b' (cellRemap d s x) := by
  obtain ⟨hlen, htype, harr⟩ := h
  obtain ⟨x0, x1, x2, x3, x4, x5, x6, rfl⟩ := length_eq_seven hlen
  simp only [CUBE_TYPE, CUBE_EDGE, CUBE_EDGE_FACE_0, CUBE_EDGE_FACE_1, List.getD_cons_zero,
    List.getD_cons_succ] at htype harr
  subst htype
  rcases harr with ⟨h3, h4⟩ | ⟨h3, h4⟩ <;> subst h3 <;> subst h4 <;>
    simp [cellRemap, CUBE_TYPE, CUBE_EDGE, CUBE_EDGE_FACE_0, CUBE_EDGE_FACE_1, ha, hb, EdgeOK]

theorem CornerOK_remap {d s a b c a' b' c' : Nat} {x : Cell} (h : CornerOK a b c x)
    (ha : faceAdj d s a = a') (hb : faceAdj d s b = b') (hc : faceAdj d s c = c') :
    CornerOK a' b' c' (cellRemap d s x) := by
  obtain ⟨hlen, htype, harr⟩ := h
  obtain ⟨x0, x1, x2, x3, g1, g2, g3, rfl⟩ := length_eq_seven hlen
  simp only [CUBE_TYPE, CUBE_CORNER, CUBE_CORNER_FACE_0, CUBE_CORNER_FACE_1, CUBE_CORNER_FACE_2,
    List.getD_cons_zero, List.getD_cons_succ] at htype harr
  subst htype
  rcases harr with ⟨e1, e2, e3⟩ | ⟨e1, e2, e3⟩ | ⟨e1, e2, e3⟩ | ⟨e1, e2, e3⟩ | ⟨e1, e2, e3⟩ |
    ⟨e1, e2, e3⟩ <;> subst e1 <;> subst e2 <;> subst e3 <;>
    simp [cellRemap, CUBE_TYPE, CUBE_EDGE, CUBE_CORNER, CUBE_CORNER_FACE_0, CUBE_CORNER_FACE_1,
      CUBE_CORNER_FACE_2, ha, hb, hc, CornerOK]

/-! ## Orbit lemmas: four remap steps (or one step and its inverse) restore a
well-formed cell exactly -/

theorem edge_remap4 {d s a b a1 a2 a3 b1 b2 b3 : Nat} {x : Cell} (h : EdgeOK a b x)
    (ha1 : faceAdj d s a = a1) (ha2 : faceAdj d s a1 = a2) (ha3 : faceAdj d s a2 = a3)
    (ha4 : faceAdj d s a3 = a)
    (hb1 : faceAdj d s b = b1) (hb2 : faceAdj d s b1 = b2) (hb3 : faceAdj d s b2 = b3)
    (hb4 : faceAdj d s b3 = b) :
    cellRemap d s (cellRemap d s (cellRemap d s (cellRemap d s x))) = x := by
  obtain ⟨hlen, htype, harr⟩ := h
  obtain ⟨x0, x1, x2, x3, x4, x5, x6, rfl⟩ := length_eq_seven hlen
  simp only [CUBE_TYPE, CUBE_EDGE, CUBE_EDGE_FACE_0, CUBE_EDGE_FACE_1, List.getD_cons_zero,
    List.getD_cons_succ] at htype harr
  subst htype
  rcases harr with ⟨h3, h4⟩ | ⟨h3, h4⟩ <;> subst h3 <;> subst h4 <;>
    simp [cellRemap, CUBE_TYPE, CUBE_EDGE, CUBE_EDGE_FACE_0, CUBE_EDGE_FACE_1,
      ha1, ha2, ha3, ha4, hb1, hb2, hb3, hb4]

theorem corner_remap4 {d s a b c a1 a2 a3 b1 b2 b3 c1 c2 c3 : Nat} {x : Cell}
    (h : CornerOK a b c x)
    (ha1 : faceAdj d s a = a1) (ha2 : faceAdj d s a1 = a2) (ha3 : faceAdj d s a2 = a3)
    (ha4 : faceAdj d s a3 = a)
    (hb1 : faceAdj d s b = b1) (hb2 : faceAdj d s b1 = b2) (hb3 : faceAdj d s b2 = b3)
    (hb4 : faceAdj d s b3 = b)
    (hc1 : faceAdj d s c = c1) (hc2 : faceAdj d s c1 = c2) (hc3 : faceAdj d s c2 = c3)
    (hc4 : faceAdj d s c3 = c) :
    cellRemap d s (cellRemap d s (cellRemap d s (cellRemap d s x))) = x := by
  obtain ⟨hlen, htype, harr⟩ := h
  obtain ⟨x0, x1, x2, x3, g1, g2, g3, rfl⟩ := length_eq_seven hlen
  simp only [CUBE_TYPE, CUBE_CORNER, CUBE_CORNER_FACE_0, CUBE_CORNER_FACE_1, CUBE_CORNER_FACE_2,
    List.getD_cons_zero, List.getD_cons_succ] at htype harr
  subst htype
  rcases harr with ⟨e1, e2, e3⟩ | ⟨e1, e2, e3⟩ | ⟨e1, e2, e3⟩ | ⟨e1, e2, e3⟩ | ⟨e1, e2, e3⟩ |
    ⟨e1, e2, e3⟩ <;> subst e1 <;> subst e2 <;> subst e3 <;>
    simp [cellRemap, CUBE_TYPE, CUBE_EDGE, CUBE_CORNER, CUBE_CORNER_FACE_0, CUBE_CORNER_FACE_1,
      CUBE_CORNER_FACE_2, ha1, ha2, ha3, ha4, hb1, hb2, hb3, hb4, hc1, hc2, hc3, hc4]

theorem edge_remap_inv {d' d s a b a1 b1 : Nat} {x : Cell} (h : EdgeOK a b x)
    (ha1 : faceAdj d s a = a1) (ha2 : faceAdj d' s a1 = a)
    (hb1 : faceAdj d s b = b1) (hb2 : faceAdj d' s b1 = b) :
    cellRemap d' s (cellRemap d s x) = x := by
  obtain ⟨hlen, htype, harr⟩ := h
  obtain ⟨x0, x1, x2, x3, x4, x5, x6, rfl⟩ := length_eq_seven hlen
  simp only [CUBE_TYPE, CUBE_EDGE, CUBE_EDGE_FACE_0, CUBE_EDGE_FACE_1, List.getD_cons_zero,
    List.getD_cons_succ] at htype harr
  subst htype
  rcases harr with ⟨h3, h4⟩ | ⟨h3, h4⟩ <;> subst h3 <;> subst h4 <;>
    simp [cellRemap, CUBE_TYPE, CUBE_EDGE, CUBE_EDGE_FACE_0, CUBE_EDGE_FACE_1,
      ha1, ha2, hb1, hb2]

theorem corner_remap_inv {d' d s a b c a1 b1 c1 : Nat} {x : Cell} (h : CornerOK a b c x)
    (ha1 : faceAdj d s a = a1) (ha2 : faceAdj d' s a1 = a)
    (hb1 : faceAdj d s b = b1) (hb2 : faceAdj d' s b1 = b)
    (hc1 : faceAdj d s c = c1) (hc2 : faceAdj d' s c1 = c) :
    cellRemap d' s (cellRemap d s x) = x := by
  obtain ⟨hlen, htype, harr⟩ := h
  obtain ⟨x0, x1, x2, x3, g1, g2, g3, rfl⟩ := length_eq_seven hlen
  simp only [CUBE_TYPE, CUBE_CORNER, CUBE_CORNER_FACE_0, CUBE_CORNER_FACE_1, CUBE_CORNER_FACE_2,
    List.getD_cons_zero, List.getD_cons_succ] at htype harr
  subst htype
  rcases harr with ⟨e1, e2, e3⟩ | ⟨e1, e2, e3⟩ | ⟨e1, e2, e3⟩ | ⟨e1, e2, e3⟩ | ⟨e1, e2, e3⟩ |
    ⟨e1, e2, e3⟩ <;> subst e1 <;> subst e2 <;> subst e3 <;>
    simp [cellRemap, CUBE_TYPE, CUBE_EDGE, CUBE_CORNER, CUBE_CORNER_FACE_0, CUBE_CORNER_FACE_1,
      CUBE_CORNER_FACE_2, ha1, ha2, hb1, hb2, hc1, hc2]

theorem stickersCell_remap_edge {d s a b : Nat} {x : Cell} (h : EdgeOK a b x) :
    stickersCell (cellRemap d s x) = stickersCell x := by
  obtain ⟨hlen, htype, harr⟩ := h
  obtain ⟨x0, x1, x2, x3, x4, x5, x6, rfl⟩ := length_eq_seven hlen
  simp only [CUBE_TYPE, CUBE_EDGE, List.getD_cons_zero] at htype
  subst htype
  simp [cellRemap, stickersCell, CUBE_TYPE, CUBE_EDGE, CUBE_EDGE_FACE_0, CUBE_EDGE_FACE_1,
    CUBE_EDGE_0, CUBE_EDGE_1]

theorem stickersCell_remap_corner {d s a b c : Nat} {x : Cell} (h : CornerOK a b c x) :
    stickersCell (cellRemap d s x) = stickersCell x := by
  obtain ⟨hlen, htype, harr⟩ := h
  obtain ⟨x0, x1, x2, x3, g1, g2, g3, rfl⟩ := length_eq_seven hlen
  simp only [CUBE_TYPE, CUBE_CORNER, List.getD_cons_zero] at htype
  subst htype
  simp [cellRemap, stickersCell, CUBE_TYPE, CUBE_EDGE, CUBE_CORNER, CUBE_CORNER_FACE_0,
    CUBE_CORNER_FACE_1, CUBE_CORNER_FACE_2, CUBE_CORNER_0, CUBE_CORNER_1, CUBE_CORNER_2]

theorem cubeOK_init : CubeOK initCube := by
  constructor <;> decide

/-! ## One-step characterization lemmas

For each face and direction, `RotateSide` on a well-formed cube succeeds, its
result is given explicitly (ring cells remapped by `cellRemap` and shifted two
ring slots), the result is well formed again, and the sticker-color counts are
unchanged. -/

theorem RotateSide_eq (s d : Nat) (c : Cube) :
    RotateSide s d c = (_side_get s c).bind fun side =>
      (_rotate_faces d s side).bind fun side2 => _side_put s (_rotate_colors d s side2) c :=
  rfl

theorem step_white_cw (t0 t1 t2 t3 t4 t5 t6 t7 m0 m1 m2 m3 m4 m5 m6 m7 b0 b1 b2 b3 b4 b5 b6
    b7 : Cell)
    (h : CubeOK [[t0, t1, t2, t3, t4, t5, t6, t7], [m0, m1, m2, m3, m4, m5, m6, m7],
      [b0, b1, b2, b3, b4, b5, b6, b7]]) :
    RotateSide 1 0 [[t0, t1, t2, t3, t4, t5, t6, t7], [m0, m1, m2, m3, m4, m5, m6, m7],
        [b0, b1, b2, b3, b4, b5, b6, b7]] =
      some [[cellRemap 0 1 t6, cellRemap 0 1 t7, cellRemap 0 1 t0, cellRemap 0 1 t1,
             cellRemap 0 1 t2, cellRemap 0 1 t3, cellRemap 0 1 t4, cellRemap 0 1 t5],
            [m0, m1, m2, m3, m4, m5, m6, m7], [b0, b1, b2, b3, b4, b5, b6, b7]] ∧
    CubeOK [[cellRemap 0 1 t6, cellRemap 0 1 t7, cellRemap 0 1 t0, cellRemap 0 1 t1,
             cellRemap 0 1 t2, cellRemap 0 1 t3, cellRemap 0 1 t4, cellRemap 0 1 t5],
            [m0, m1, m2, m3, m4, m5, m6, m7], [b0, b1, b2, b3, b4, b5, b6, b7]] ∧
    ∀ col, (stickerList [[cellRemap 0 1 t6, cellRemap 0 1 t7, cellRemap 0 1 t0, cellRemap 0 1 t1,
             cellRemap 0 1 t2, cellRemap 0 1 t3, cellRemap 0 1 t4, cellRemap 0 1 t5],
            [m0, m1, m2, m3, m4, m5, m6, m7], [b0, b1, b2, b3, b4, b5, b6, b7]]).count col =
      (stickerList [[t0, t1, t2, t3, t4, t5, t6, t7], [m0, m1, m2, m3, m4, m5, m6, m7],
        [b0, b1, b2, b3, b4, b5, b6, b7]]).count col := by
  have ht0 : EdgeOK 1 3 t0 := h.ht0
  have ht1 : CornerOK 1 3 4 t1 := h.ht1
  have ht2 : EdgeOK 1 4 t2 := h.ht2
  have ht3 : CornerOK 1 4 5 t3 := h.ht3
  have ht4 : EdgeOK 1 5 t4 := h.ht4
  have ht5 : CornerOK 1 5 6 t5 := h.ht5
  have ht6 : EdgeOK 1 6 t6 := h.ht6
  have ht7 : CornerOK 1 6 3 t7 := h.ht7
  have hfaces := rotate_faces_spec 1 0 3 4 5 6 4 5 6 3
    ht0 ht2 ht4 ht6 ht1 ht3 ht5 (CornerOK_swap23 ht7)
    (by decide) (by decide) (by decide) (by decide)
    (by decide) (by decide) (by decide) (by decide)
    (by decide) (by decide) (by decide) (by decide)
    (by decide) (by decide) (by decide) (by decide)
    (by decide) (by decide) (by decide) (by decide)
  refine ⟨?_, ?_, ?_⟩
  · rw [RotateSide_eq]
    rw [show _side_get 1 [[t0, t1, t2, t3, t4, t5, t6, t7], [m0, m1, m2, m3, m4, m5, m6, m7],
        [b0, b1, b2, b3, b4, b5, b6, b7]] = some [t0, t1, t2, t3, t4, t5, t6, t7] from rfl]
    dsimp only [Option.bind]
    rw [hfaces]
    dsimp only [Option.bind]
    rw [rotate_colors_cw]
    rfl
  · exact {
      hlen := rfl, hlt := rfl, hlm := rfl, hlb := rfl
      ht0 := EdgeOK_remap ht6 (by decide) (by decide)
      ht1 := CornerOK_remap ht7 (by decide) (by decide) (by decide)
      ht2 := EdgeOK_remap ht0 (by decide) (by decide)
      ht3 := CornerOK_remap ht1 (by decide) (by decide) (by decide)
      ht4 := EdgeOK_remap ht2 (by decide) (by decide)
      ht5 := CornerOK_remap ht3 (by decide) (by decide) (by decide)
      ht6 := EdgeOK_remap ht4 (by decide) (by decide)
      ht7 := CornerOK_remap ht5 (by decide) (by decide) (by decide)
      hm0 := h.hm0, hm1 := h.hm1, hm2 := h.hm2, hm3 := h.hm3
      hm4 := h.hm4, hm5 := h.hm5, hm6 := h.hm6, hm7 := h.hm7
      hb0 := h.hb0, hb1 := h.hb1, hb2 := h.hb2, hb3 := h.hb3
      hb4 := h.hb4, hb5 := h.hb5, hb6 := h.hb6, hb7 := h.hb7 }
  · intro col
    have s0 := stickersCell_remap_edge (d := 0) (s := 1) ht0
    have s1 := stickersCell_remap_corner (d := 0) (s := 1) ht1
    have s2 := stickersCell_remap_edge (d := 0) (s := 1) ht2
    have s3 := stickersCell_remap_corner (d := 0) (s := 1) ht3
    have s4 := stickersCell_remap_edge (d := 0) (s := 1) ht4
    have s5 := stickersCell_remap_corner (d := 0) (s := 1) ht5
    have s6 := stickersCell_remap_edge (d := 0) (s := 1) ht6
    have s7 := stickersCell_remap_corner (d := 0) (s := 1) ht7
    simp only [stickerList, List.flatMap_cons, List.flatMap_append, List.flatMap_nil, id,
      List.append_nil, List.count_append, s0, s1, s2, s3, s4, s5, s6, s7]
    omega

theorem step_white_ccw (t0 t1 t2 t3 t4 t5 t6 t7 m0 m1 m2 m3 m4 m5 m6 m7 b0 b1 b2 b3 b4 b5 b6
    b7 : Cell)
    (h : CubeOK [[t0, t1, t2, t3, t4, t5, t6, t7],
       [m0, m1, m2, m3, m4, m5, m6, m7],
       [b0, b1, b2, b3, b4, b5, b6, b7]]) :
    RotateSide 1 1 [[t0, t1, t2, t3, t4, t5, t6, t7],
       [m0, m1, m2, m3, m4, m5, m6, m7],
       [b0, b1, b2, b3, b4, b5, b6, b7]] =
      some [[cellRemap 1 1 t2, cellRemap 1 1 t3, cellRemap 1 1 t4, cellRemap 1 1 t5, cellRemap 1 1 t6, cellRemap 1 1 t7, cellRemap 1 1 t0, cellRemap 1 1 t1],
       [m0, m1, m2, m3, m4, m5, m6, m7],
       [b0, b1, b2, b3, b4, b5, b6, b7]] ∧
    CubeOK [[cellRemap 1 1 t2, cellRemap 1 1 t3, cellRemap 1 1 t4, cellRemap 1 1 t5, cellRemap 1 1 t6, cellRemap 1 1 t7, cellRemap 1 1 t0, cellRemap 1 1 t1],
       [m0, m1, m2, m3, m4, m5, m6, m7],
       [b0, b1, b2, b3, b4, b5, b6, b7]] ∧
    ∀ col, (stickerList [[cellRemap 1 1 t2, cellRemap 1 1 t3, cellRemap 1 1 t4, cellRemap 1 1 t5, cellRemap 1 1 t6, cellRemap 1 1 t7, cellRemap 1 1 t0, cellRemap 1 1 t1],
       [m0, m1, m2, m3, m4, m5, m6, m7],
       [b0, b1, b2, b3, b4, b5, b6, b7]]).count col =
      (stickerList [[t0, t1, t2, t3, t4, t5, t6, t7],
       [m0, m1, m2, m3, m4, m5, m6, m7],
       [b0, b1, b2, b3, b4, b5, b6, b7]]).count col := by
  have q0 : EdgeOK 1 3 t0 := h.ht0
  have q1 : CornerOK 1 3 4 t1 := h.ht1
  have q2 : EdgeOK 1 4 t2 := h.ht2
  have q3 : CornerOK 1 4 5 t3 := h.ht3
  have q4 : EdgeOK 1 5 t4 := h.ht4
  have q5 : CornerOK 1 5 6 t5 := h.ht5
  have q6 : EdgeOK 1 6 t6 := h.ht6
  have q7 : CornerOK 1 6 3 t7 := h.ht7
  have hfaces := rotate_faces_spec 1 1 3 4 5 6 6 3 4 5
    (q0) (q2) (q4) (q6)
    (q1) (q3) (q5) (CornerOK_swap23 (q7))
    (by decide) (by decide) (by decide) (by decide)
    (by decide) (by decide) (by decide) (by decide)
    (by decide) (by decide) (by decide) (by decide)
    (by decide) (by decide) (by decide) (by decide)
    (by decide) (by decide) (by decide) (by decide)
  refine ⟨?_, ?_, ?_⟩
  · rw [RotateSide_eq]
    rw [show _side_get 1 [[t0, t1, t2, t3, t4, t5, t6, t7],
       [m0, m1, m2, m3, m4, m5, m6, m7],
       [b0, b1, b2, b3, b4, b5, b6, b7]] = some [t0, t1, t2, t3, t4, t5, t6, t7] from rfl]
    dsimp only [Option.bind]
    rw [hfaces]
    dsimp only [Option.bind]
    rw [rotate_colors_ne 1 (by decide)]
    rfl
  · exact {
      hlen := rfl, hlt := rfl, hlm := rfl, hlb := rfl
      ht0 := EdgeOK_remap q2 (by decide) (by decide),
      ht1 := CornerOK_remap q3 (by decide) (by decide) (by decide),
      ht2 := EdgeOK_remap q4 (by decide) (by decide),
      ht3 := CornerOK_remap q5 (by decide) (by decide) (by decide),
      ht4 := EdgeOK_remap q6 (by decide) (by decide),
      ht5 := CornerOK_remap q7 (by decide) (by decide) (by decide),
      ht6 := EdgeOK_remap q0 (by decide) (by decide),
      ht7 := CornerOK_remap q1 (by decide) (by decide) (by decide),
      hm0 := h.hm0,
      hm1 := h.hm1,
      hm2 := h.hm2,
      hm3 := h.hm3,
      hm4 := h.hm4,
      hm5 := h.hm5,
      hm6 := h.hm6,
      hm7 := h.hm7,
      hb0 := h.hb0,
      hb1 := h.hb1,
      hb2 := h.hb2,
      hb3 := h.hb3,
      hb4 := h.hb4,
      hb5 := h.hb5,
      hb6 := h.hb6,
      hb7 := h.hb7 }
  · intro col
    have w0 := stickersCell_remap_edge (d := 1) (s := 1) q0
    have w1 := stickersCell_remap_corner (d := 1) (s := 1) q1
    have w2 := stickersCell_remap_edge (d := 1) (s := 1) q2
    have w3 := stickersCell_remap_corner (d := 1) (s := 1) q3
    have w4 := stickersCell_remap_edge (d := 1) (s := 1) q4
    have w5 := stickersCell_remap_corner (d := 1) (s := 1) q5
    have w6 := stickersCell_remap_edge (d := 1) (s := 1) q6
    have w7 := stickersCell_remap_corner (d := 1) (s := 1) q7
    simp only [stickerList, List.flatMap_cons, List.flatMap_append, List.flatMap_nil, id,
      List.append_nil, List.count_append, w0, w1, w2, w3, w4, w5, w6, w7]
    omega

theorem step_yellow_cw (t0 t1 t2 t3 t4 t5 t6 t7 m0 m1 m2 m3 m4 m5 m6 m7 b0 b1 b2 b3 b4 b5 b6
    b7 : Cell)
    (h : CubeOK [[t0, t1, t2, t3, t4, t5, t6, t7],
       [m0, m1, m2, m3, m4, m5, m6, m7],
       [b0, b1, b2, b3, b4, b5, b6, b7]]) :
    RotateSide 2 0 [[t0, t1, t2, t3, t4, t5, t6, t7],
       [m0, m1, m2, m3, m4, m5, m6, m7],
       [b0, b1, b2, b3, b4, b5, b6, b7]] =
      some [[t0, t1, t2, t3, t4, t5, t6, t7],
       [m0, m1, m2, m3, m4, m5, m6, m7],
       [cellRemap 0 2 b2, cellRemap 0 2 b3, cellRemap 0 2 b4, cellRemap 0 2 b5, cellRemap 0 2 b6, cellRemap 0 2 b7, cellRemap 0 2 b0, cellRemap 0 2 b1]] ∧
    CubeOK [[t0, t1, t2, t3, t4, t5, t6, t7],
       [m0, m1, m2, m3, m4, m5, m6, m7],
       [cellRemap 0 2 b2, cellRemap 0 2 b3, cellRemap 0 2 b4, cellRemap 0 2 b5, cellRemap 0 2 b6, cellRemap 0 2 b7, cellRemap 0 2 b0, cellRemap 0 2 b1]] ∧
    ∀ col, (stickerList [[t0, t1, t2, t3, t4, t5, t6, t7],
       [m0, m1, m2, m3, m4, m5, m6, m7],
       [cellRemap 0 2 b2, cellRemap 0 2 b3, cellRemap 0 2 b4, cellRemap 0 2 b5, cellRemap 0 2 b6, cellRemap 0 2 b7, cellRemap 0 2 b0, cellRemap 0 2 b1]]).count col =
      (stickerList [[t0, t1, t2, t3, t4, t5, t6, t7],
       [m0, m1, m2, m3, m4, m5, m6, m7],
       [b0, b1, b2, b3, b4, b5, b6, b7]]).count col := by
  have q0 : EdgeOK 2 3 b0 := h.hb0
  have q1 : CornerOK 2 3 6 b7 := h.hb7
  have q2 : EdgeOK 2 6 b6 := h.hb6
  have q3 : CornerOK 2 6 5 b5 := h.hb5
  have q4 : EdgeOK 2 5 b4 := h.hb4
  have q5 : CornerOK 2 5 4 b3 := h.hb3
  have q6 : EdgeOK 2 4 b2 := h.hb2
  have q7 : CornerOK 2 4 3 b1 := h.hb1
  have hfaces := rotate_faces_spec 2 0 3 6 5 4 6 5 4 3
    (q0) (q2) (q4) (q6)
    (q1) (q3) (q5) (CornerOK_swap23 (q7))
    (by decide) (by decide) (by decide) (by decide)
    (by decide) (by decide) (by decide) (by decide)
    (by decide) (by decide) (by decide) (by decide)
    (by decide) (by decide) (by decide) (by decide)
    (by decide) (by decide) (by decide) (by decide)
  refine ⟨?_, ?_, ?_⟩
  · rw [RotateSide_eq]
    rw [show _side_get 2 [[t0, t1, t2, t3, t4, t5, t6, t7],
       [m0, m1, m2, m3, m4, m5, m6, m7],
       [b0, b1, b2, b3, b4, b5, b6, b7]] = some [b0, b7, b6, b5, b4, b3, b2, b1] from rfl]
    dsimp only [Option.bind]
    rw [hfaces]
    dsimp only [Option.bind]
    rw [rotate_colors_cw]
    rfl
  · exact {
      hlen := rfl, hlt := rfl, hlm := rfl, hlb := rfl
      ht0 := h.ht0,
      ht1 := h.ht1,
      ht2 := h.ht2,
      ht3 := h.ht3,
      ht4 := h.ht4,
      ht5 := h.ht5,
      ht6 := h.ht6,
      ht7 := h.ht7,
      hm0 := h.hm0,
      hm1 := h.hm1,
      hm2 := h.hm2,
      hm3 := h.hm3,
      hm4 := h.hm4,
      hm5 := h.hm5,
      hm6 := h.hm6,
      hm7 := h.hm7,
      hb0 := EdgeOK_remap q6 (by decide) (by decide),
      hb1 := CornerOK_remap q5 (by decide) (by decide) (by decide),
      hb2 := EdgeOK_remap q4 (by decide) (by decide),
      hb3 := CornerOK_remap q3 (by decide) (by decide) (by decide),
      hb4 := EdgeOK_remap q2 (by decide) (by decide),
      hb5 := CornerOK_remap q1 (by decide) (by decide) (by decide),
      hb6 := EdgeOK_remap q0 (by decide) (by decide),
      hb7 := CornerOK_remap q7 (by decide) (by decide) (by decide) }
  · intro col
    have w0 := stickersCell_remap_edge (d := 0) (s := 2) q0
    have w1 := stickersCell_remap_corner (d := 0) (s := 2) q1
    have w2 := stickersCell_remap_edge (d := 0) (s := 2) q2
    have w3 := stickersCell_remap_corner (d := 0) (s := 2) q3
    have w4 := stickersCell_remap_edge (d := 0) (s := 2) q4
    have w5 := stickersCell_remap_corner (d := 0) (s := 2) q5
    have w6 := stickersCell_remap_edge (d := 0) (s := 2) q6
    have w7 := stickersCell_remap_corner (d := 0) (s := 2) q7
    simp only [stickerList, List.flatMap_cons, List.flatMap_append, List.flatMap_nil, id,
      List.append_nil, List.count_append, w0, w1, w2, w3, w4, w5, w6, w7]
    omega

theorem step_yellow_ccw (t0 t1 t2 t3 t4 t5 t6 t7 m0 m1 m2 m3 m4 m5 m6 m7 b0 b1 b2 b3 b4 b5 b6
    b7 : Cell)
    (h : CubeOK [[t0, t1, t2, t3, t4, t5, t6, t7],
       [m0, m1, m2, m3, m4, m5, m6, m7],
       [b0, b1, b2, b3, b4, b5, b6, b7]]) :
    RotateSide 2 1 [[t0, t1, t2, t3, t4, t5, t6, t7],
       [m0, m1, m2, m3, m4, m5, m6, m7],
       [b0, b1, b2, b3, b4, b5, b6, b7]] =
      some [[t0, t1, t2, t3, t4, t5, t6, t7],
       [m0, m1, m2, m3, m4, m5, m6, m7],
       [cellRemap 1 2 b6, cellRemap 1 2 b7, cellRemap 1 2 b0, cellRemap 1 2 b1, cellRemap 1 2 b2, cellRemap 1 2 b3, cellRemap 1 2 b4, cellRemap 1 2 b5]] ∧
    CubeOK [[t0, t1, t2, t3, t4, t5, t6, t7],
       [m0, m1, m2, m3, m4, m5, m6, m7],
       [cellRemap 1 2 b6, cellRemap 1 2 b7, cellRemap 1 2 b0, cellRemap 1 2 b1, cellRemap 1 2 b2, cellRemap 1 2 b3, cellRemap 1 2 b4, cellRemap 1 2 b5]] ∧
    ∀ col, (stickerList [[t0, t1, t2, t3, t4, t5, t6, t7],
       [m0, m1, m2, m3, m4, m5, m6, m7],
       [cellRemap 1 2 b6, cellRemap 1 2 b7, cellRemap 1 2 b0, cellRemap 1 2 b1, cellRemap 1 2 b2, cellRemap 1 2 b3, cellRemap 1 2 b4, cellRemap 1 2 b5]]).count col =
      (stickerList [[t0, t1, t2, t3, t4, t5, t6, t7],
       [m0, m1, m2, m3, m4, m5, m6, m7],
       [b0, b1, b2, b3, b4, b5, b6, b7]]).count col := by
  have q0 : EdgeOK 2 3 b0 := h.hb0
  have q1 : CornerOK 2 3 6 b7 := h.hb7
  have q2 : EdgeOK 2 6 b6 := h.hb6
  have q3 : CornerOK 2 6 5 b5 := h.hb5
  have q4 : EdgeOK 2 5 b4 := h.hb4
  have q5 : CornerOK 2 5 4 b3 := h.hb3
  have q6 : EdgeOK 2 4 b2 := h.hb2
  have q7 : CornerOK 2 4 3 b1 := h.hb1
  have hfaces := rotate_faces_spec 2 1 3 6 5 4 4 3 6 5
    (q0) (q2) (q4) (q6)
    (q1) (q3) (q5) (CornerOK_swap23 (q7))
    (by decide) (by decide) (by decide) (by decide)
    (by decide) (by decide) (by decide) (by decide)
    (by decide) (by decide) (by decide) (by decide)
    (by decide) (by decide) (by decide) (by decide)
    (by decide) (by decide) (by decide) (by decide)
  refine ⟨?_, ?_, ?_⟩
  · rw [RotateSide_eq]
    rw [show _side_get 2 [[t0, t1, t2, t3, t4, t5, t6, t7],
       [m0, m1, m2, m3, m4, m5, m6, m7],
       [b0, b1, b2, b3, b4, b5, b6, b7]] = some [b0, b7, b6, b5, b4, b3, b2, b1] from rfl]
    dsimp only [Option.bind]
    rw [hfaces]
    dsimp only [Option.bind]
    rw [rotate_colors_ne 2 (by decide)]
    rfl
  · exact {
      hlen := rfl, hlt := rfl, hlm := rfl, hlb := rfl
      ht0 := h.ht0,
      ht1 := h.ht1,
      ht2 := h.ht2,
      ht3 := h.ht3,
      ht4 := h.ht4,
      ht5 := h.ht5,
      ht6 := h.ht6,
      ht7 := h.ht7,
      hm0 := h.hm0,
      hm1 := h.hm1,
      hm2 := h.hm2,
      hm3 := h.hm3,
      hm4 := h.hm4,
      hm5 := h.hm5,
      hm6 := h.hm6,
      hm7 := h.hm7,
      hb0 := EdgeOK_remap q2 (by decide) (by decide),
      hb1 := CornerOK_remap q1 (by decide) (by decide) (by decide),
      hb2 := EdgeOK_remap q0 (by decide) (by decide),
      hb3 := CornerOK_remap q7 (by decide) (by decide) (by decide),
      hb4 := EdgeOK_remap q6 (by decide) (by decide),
      hb5 := CornerOK_remap q5 (by decide) (by decide) (by decide),
      hb6 := EdgeOK_remap q4 (by decide) (by decide),
      hb7 := CornerOK_remap q3 (by decide) (by decide) (by decide) }
  · intro col
    have w0 := stickersCell_remap_edge (d := 1) (s := 2) q0
    have w1 := stickersCell_remap_corner (d := 1) (s := 2) q1
    have w2 := stickersCell_remap_edge (d := 1) (s := 2) q2
    have w3 := stickersCell_remap_corner (d := 1) (s := 2) q3
    have w4 := stickersCell_remap_edge (d := 1) (s := 2) q4
    have w5 := stickersCell_remap_corner (d := 1) (s := 2) q5
    have w6 := stickersCell_remap_edge (d := 1) (s := 2) q6
    have w7 := stickersCell_remap_corner (d := 1) (s := 2) q7
    simp only [stickerList, List.flatMap_cons, List.flatMap_append, List.flatMap_nil, id,
      List.append_nil, List.count_append, w0, w1, w2, w3, w4, w5, w6, w7]
    omega

theorem step_red_cw (t0 t1 t2 t3 t4 t5 t6 t7 m0 m1 m2 m3 m4 m5 m6 m7 b0 b1 b2 b3 b4 b5 b6
    b7 : Cell)
    (h : CubeOK [[t0, t1, t2, t3, t4, t5, t6, t7],
       [m0, m1, m2, m3, m4, m5, m6, m7],
       [b0, b1, b2, b3, b4, b5, b6, b7]]) :
    RotateSide 3 0 [[t0, t1, t2, t3, t4, t5, t6, t7],
       [m0, m1, m2, m3, m4, m5, m6, m7],
       [b0, b1, b2, b3, b4, b5, b6, b7]] =
      some [[cellRemap 0 3 m1, cellRemap 0 3 b1, t2, t3, t4, t5, t6, cellRemap 0 3 t1],
       [m0, cellRemap 0 3 b0, m2, m3, m4, m5, m6, cellRemap 0 3 t0],
       [cellRemap 0 3 m7, cellRemap 0 3 b7, b2, b3, b4, b5, b6, cellRemap 0 3 t7]] ∧
    CubeOK [[cellRemap 0 3 m1, cellRemap 0 3 b1, t2, t3, t4, t5, t6, cellRemap 0 3 t1],
       [m0, cellRemap 0 3 b0, m2, m3, m4, m5, m6, cellRemap 0 3 t0],
       [cellRemap 0 3 m7, cellRemap 0 3 b7, b2, b3, b4, b5, b6, cellRemap 0 3 t7]] ∧
    ∀ col, (stickerList [[cellRemap 0 3 m1, cellRemap 0 3 b1, t2, t3, t4, t5, t6, cellRemap 0 3 t1],
       [m0, cellRemap 0 3 b0, m2, m3, m4, m5, m6, cellRemap 0 3 t0],
       [cellRemap 0 3 m7, cellRemap 0 3 b7, b2, b3, b4, b5, b6, cellRemap 0 3 t7]]).count col =
      (stickerList [[t0, t1, t2, t3, t4, t5, t6, t7],
       [m0, m1, m2, m3, m4, m5, m6, m7],
       [b0, b1, b2, b3, b4, b5, b6, b7]]).count col := by
  have q0 : EdgeOK 1 3 t0 := h.ht0
  have q1 : CornerOK 1 6 3 t7 := h.ht7
  have q2 : EdgeOK 6 3 m7 := h.hm7
  have q3 : CornerOK 2 3 6 b7 := h.hb7
  have q4 : EdgeOK 2 3 b0 := h.hb0
  have q5 : CornerOK 2 4 3 b1 := h.hb1
  have q6 : EdgeOK 3 4 m1 := h.hm1
  have q7 : CornerOK 1 3 4 t1 := h.ht1
  have hfaces := rotate_faces_spec 3 0 1 6 2 4 6 2 4 1
    (EdgeOK_comm q0) (EdgeOK_comm q2) (EdgeOK_comm q4) (q6)
    (CornerOK_rotate (CornerOK_rotate (q1))) (CornerOK_rotate (q3)) (CornerOK_rotate (CornerOK_rotate (q5))) (CornerOK_swap23 (CornerOK_rotate (q7)))
    (by decide) (by decide) (by decide) (by decide)
    (by decide) (by decide) (by decide) (by decide)
    (by decide) (by decide) (by decide) (by decide)
    (by decide) (by decide) (by decide) (by decide)
    (by decide) (by decide) (by decide) (by decide)
  refine ⟨?_, ?_, ?_⟩
  · rw [RotateSide_eq]
    rw [show _side_get 3 [[t0, t1, t2, t3, t4, t5, t6, t7],
       [m0, m1, m2, m3, m4, m5, m6, m7],
       [b0, b1, b2, b3, b4, b5, b6, b7]] = some [t0, t7, m7, b7, b0, b1, m1, t1] from rfl]
    dsimp only [Option.bind]
    rw [hfaces]
    dsimp only [Option.bind]
    rw [rotate_colors_cw]
    rfl
  · exact {
      hlen := rfl, hlt := rfl, hlm := rfl, hlb := rfl
      ht0 := EdgeOK_comm (EdgeOK_remap q6 (by decide) (by decide)),
      ht1 := CornerOK_rotate (CornerOK_remap q5 (by decide) (by decide) (by decide)),
      ht2 := h.ht2,
      ht3 := h.ht3,
      ht4 := h.ht4,
      ht5 := h.ht5,
      ht6 := h.ht6,
      ht7 := CornerOK_rotate (CornerOK_rotate (CornerOK_remap q7 (by decide) (by decide) (by decide))),
      hm0 := h.hm0,
      hm1 := EdgeOK_comm (EdgeOK_remap q4 (by decide) (by decide)),
      hm2 := h.hm2,
      hm3 := h.hm3,
      hm4 := h.hm4,
      hm5 := h.hm5,
      hm6 := h.hm6,
      hm7 := EdgeOK_remap q0 (by decide) (by decide),
      hb0 := EdgeOK_remap q2 (by decide) (by decide),
      hb1 := CornerOK_rotate (CornerOK_rotate (CornerOK_remap q3 (by decide) (by decide) (by decide))),
      hb2 := h.hb2,
      hb3 := h.hb3,
      hb4 := h.hb4,
      hb5 := h.hb5,
      hb6 := h.hb6,
      hb7 := CornerOK_rotate (CornerOK_remap q1 (by decide) (by decide) (by decide)) }
  · intro col
    have w0 := stickersCell_remap_edge (d := 0) (s := 3) q0
    have w1 := stickersCell_remap_corner (d := 0) (s := 3) q1
    have w2 := stickersCell_remap_edge (d := 0) (s := 3) q2
    have w3 := stickersCell_remap_corner (d := 0) (s := 3) q3
    have w4 := stickersCell_remap_edge (d := 0) (s := 3) q4
    have w5 := stickersCell_remap_corner (d := 0) (s := 3) q5
    have w6 := stickersCell_remap_edge (d := 0) (s := 3) q6
    have w7 := stickersCell_remap_corner (d := 0) (s := 3) q7
    simp only [stickerList, List.flatMap_cons, List.flatMap_append, List.flatMap_nil, id,
      List.append_nil, List.count_append, w0, w1, w2, w3, w4, w5, w6, w7]
    omega

theorem step_red_ccw (t0 t1 t2 t3 t4 t5 t6 t7 m0 m1 m2 m3 m4 m5 m6 m7 b0 b1 b2 b3 b4 b5 b6
    b7 : Cell)
    (h : CubeOK [[t0, t1, t2, t3, t4, t5, t6, t7],
       [m0, m1, m2, m3, m4, m5, m6, m7],
       [b0, b1, b2, b3, b4, b5, b6, b7]]) :
    RotateSide 3 1 [[t0, t1, t2, t3, t4, t5, t6, t7],
       [m0, m1, m2, m3, m4, m5, m6, m7],
       [b0, b1, b2, b3, b4, b5, b6, b7]] =
      some [[cellRemap 1 3 m7, cellRemap 1 3 t7, t2, t3, t4, t5, t6, cellRemap 1 3 b7],
       [m0, cellRemap 1 3 t0, m2, m3, m4, m5, m6, cellRemap 1 3 b0],
       [cellRemap 1 3 m1, cellRemap 1 3 t1, b2, b3, b4, b5, b6, cellRemap 1 3 b1]] ∧
    CubeOK [[cellRemap 1 3 m7, cellRemap 1 3 t7, t2, t3, t4, t5, t6, cellRemap 1 3 b7],
       [m0, cellRemap 1 3 t0, m2, m3, m4, m5, m6, cellRemap 1 3 b0],
       [cellRemap 1 3 m1, cellRemap 1 3 t1, b2, b3, b4, b5, b6, cellRemap 1 3 b1]] ∧
    ∀ col, (stickerList [[cellRemap 1 3 m7, cellRemap 1 3 t7, t2, t3, t4, t5, t6, cellRemap 1 3 b7],
       [m0, cellRemap 1 3 t0, m2, m3, m4, m5, m6, cellRemap 1 3 b0],
       [cellRemap 1 3 m1, cellRemap 1 3 t1, b2, b3, b4, b5, b6, cellRemap 1 3 b1]]).count col =
      (stickerList [[t0, t1, t2, t3, t4, t5, t6, t7],
       [m0, m1, m2, m3, m4, m5, m6, m7],
       [b0, b1, b2, b3, b4, b5, b6, b7]]).count col := by
  have q0 : EdgeOK 1 3 t0 := h.ht0
  have q1 : CornerOK 1 6 3 t7 := h.ht7
  have q2 : EdgeOK 6 3 m7 := h.hm7
  have q3 : CornerOK 2 3 6 b7 := h.hb7
  have q4 : EdgeOK 2 3 b0 := h.hb0
  have q5 : CornerOK 2 4 3 b1 := h.hb1
  have q6 : EdgeOK 3 4 m1 := h.hm1
  have q7 : CornerOK 1 3 4 t1 := h.ht1
  have hfaces := rotate_faces_spec 3 1 1 6 2 4 4 1 6 2
    (EdgeOK_comm q0) (EdgeOK_comm q2) (EdgeOK_comm q4) (q6)
    (CornerOK_rotate (CornerOK_rotate (q1))) (CornerOK_rotate (q3)) (CornerOK_rotate (CornerOK_rotate (q5))) (CornerOK_swap23 (CornerOK_rotate (q7)))
    (by decide) (by decide) (by decide) (by decide)
    (by decide) (by decide) (by decide) (by decide)
    (by decide) (by decide) (by decide) (by decide)
    (by decide) (by decide) (by decide) (by decide)
    (by decide) (by decide) (by decide) (by decide)
  refine ⟨?_, ?_, ?_⟩
  · rw [RotateSide_eq]
    rw [show _side_get 3 [[t0, t1, t2, t3, t4, t5, t6, t7],
       [m0, m1, m2, m3, m4, m5, m6, m7],
       [b0, b1, b2, b3, b4, b5, b6, b7]] = some [t0, t7, m7, b7, b0, b1, m1, t1] from rfl]
    dsimp only [Option.bind]
    rw [hfaces]
    dsimp only [Option.bind]
    rw [rotate_colors_ne 3 (by decide)]
    rfl
  · exact {
      hlen := rfl, hlt := rfl, hlm := rfl, hlb := rfl
      ht0 := EdgeOK_remap q2 (by decide) (by decide),
      ht1 := CornerOK_rotate (CornerOK_remap q1 (by decide) (by decide) (by decide)),
      ht2 := h.ht2,
      ht3 := h.ht3,
      ht4 := h.ht4,
      ht5 := h.ht5,
      ht6 := h.ht6,
      ht7 := CornerOK_rotate (CornerOK_rotate (CornerOK_remap q3 (by decide) (by decide) (by decide))),
      hm0 := h.hm0,
      hm1 := EdgeOK_comm (EdgeOK_remap q0 (by decide) (by decide)),
      hm2 := h.hm2,
      hm3 := h.hm3,
      hm4 := h.hm4,
      hm5 := h.hm5,
      hm6 := h.hm6,
      hm7 := EdgeOK_remap q4 (by decide) (by decide),
      hb0 := EdgeOK_comm (EdgeOK_remap q6 (by decide) (by decide)),
      hb1 := CornerOK_rotate (CornerOK_rotate (CornerOK_remap q7 (by decide) (by decide) (by decide))),
      hb2 := h.hb2,
      hb3 := h.hb3,
      hb4 := h.hb4,
      hb5 := h.hb5,
      hb6 := h.hb6,
      hb7 := CornerOK_rotate (CornerOK_remap q5 (by decide) (by decide) (by decide)) }
  · intro col
    have w0 := stickersCell_remap_edge (d := 1) (s := 3) q0
    have w1 := stickersCell_remap_corner (d := 1) (s := 3) q1
    have w2 := stickersCell_remap_edge (d := 1) (s := 3) q2
    have w3 := stickersCell_remap_corner (d := 1) (s := 3) q3
    have w4 := stickersCell_remap_edge (d := 1) (s := 3) q4
    have w5 := stickersCell_remap_corner (d := 1) (s := 3) q5
    have w6 := stickersCell_remap_edge (d := 1) (s := 3) q6
    have w7 := stickersCell_remap_corner (d := 1) (s := 3) q7
    simp only [stickerList, List.flatMap_cons, List.flatMap_append, List.flatMap_nil, id,
      List.append_nil, List.count_append, w0, w1, w2, w3, w4, w5, w6, w7]
    omega

theorem step_green_cw (t0 t1 t2 t3 t4 t5 t6 t7 m0 m1 m2 m3 m4 m5 m6 m7 b0 b1 b2 b3 b4 b5 b6
    b7 : Cell)
    (h : CubeOK [[t0, t1, t2, t3, t4, t5, t6, t7],
       [m0, m1, m2, m3, m4, m5, m6, m7],
       [b0, b1, b2, b3, b4, b5, b6, b7]]) :
    RotateSide 4 0 [[t0, t1, t2, t3, t4, t5, t6, t7],
       [m0, m1, m2, m3, m4, m5, m6, m7],
       [b0, b1, b2, b3, b4, b5, b6, b7]] =
      some [[t0, cellRemap 0 4 t3, cellRemap 0 4 m3, cellRemap 0 4 b3, t4, t5, t6, t7],
       [m0, cellRemap 0 4 t2, m2, cellRemap 0 4 b2, m4, m5, m6, m7],
       [b0, cellRemap 0 4 t1, cellRemap 0 4 m1, cellRemap 0 4 b1, b4, b5, b6, b7]] ∧
    CubeOK [[t0, cellRemap 0 4 t3, cellRemap 0 4 m3, cellRemap 0 4 b3, t4, t5, t6, t7],
       [m0, cellRemap 0 4 t2, m2, cellRemap 0 4 b2, m4, m5, m6, m7],
       [b0, cellRemap 0 4 t1, cellRemap 0 4 m1, cellRemap 0 4 b1, b4, b5, b6, b7]] ∧
    ∀ col, (stickerList [[t0, cellRemap 0 4 t3, cellRemap 0 4 m3, cellRemap 0 4 b3, t4, t5, t6, t7],
       [m0, cellRemap 0 4 t2, m2, cellRemap 0 4 b2, m4, m5, m6, m7],
       [b0, cellRemap 0 4 t1, cellRemap 0 4 m1, cellRemap 0 4 b1, b4, b5, b6, b7]]).count col =
      (stickerList [[t0, t1, t2, t3, t4, t5, t6, t7],
       [m0, m1, m2, m3, m4, m5, m6, m7],
       [b0, b1, b2, b3, b4, b5, b6, b7]]).count col := by
  have q0 : EdgeOK 1 4 t2 := h.ht2
  have q1 : CornerOK 1 3 4 t1 := h.ht1
  have q2 : EdgeOK 3 4 m1 := h.hm1
  have q3 : CornerOK 2 4 3 b1 := h.hb1
  have q4 : EdgeOK 2 4 b2 := h.hb2
  have q5 : CornerOK 2 5 4 b3 := h.hb3
  have q6 : EdgeOK 4 5 m3 := h.hm3
  have q7 : CornerOK 1 4 5 t3 := h.ht3
  have hfaces := rotate_faces_spec 4 0 1 3 2 5 3 2 5 1
    (EdgeOK_comm q0) (EdgeOK_comm q2) (EdgeOK_comm q4) (q6)
    (CornerOK_rotate (CornerOK_rotate (q1))) (CornerOK_rotate (q3)) (CornerOK_rotate (CornerOK_rotate (q5))) (CornerOK_swap23 (CornerOK_rotate (q7)))
    (by decide) (by decide) (by decide) (by decide)
    (by decide) (by decide) (by decide) (by decide)
    (by decide) (by decide) (by decide) (by decide)
    (by decide) (by decide) (by decide) (by decide)
    (by decide) (by decide) (by decide) (by decide)
  refine ⟨?_, ?_, ?_⟩
  · rw [RotateSide_eq]
    rw [show _side_get 4 [[t0, t1, t2, t3, t4, t5, t6, t7],
       [m0, m1, m2, m3, m4, m5, m6, m7],
       [b0, b1, b2, b3, b4, b5, b6, b7]] = some [t2, t1, m1, b1, b2, b3, m3, t3] from rfl]
    dsimp only [Option.bind]
    rw [hfaces]
    dsimp only [Option.bind]
    rw [rotate_colors_cw]
    rfl
  · exact {
      hlen := rfl, hlt := rfl, hlm := rfl, hlb := rfl
      ht0 := h.ht0,
      ht1 := CornerOK_rotate (CornerOK_rotate (CornerOK_remap q7 (by decide) (by decide) (by decide))),
      ht2 := EdgeOK_comm (EdgeOK_remap q6 (by decide) (by decide)),
      ht3 := CornerOK_rotate (CornerOK_remap q5 (by decide) (by decide) (by decide)),
      ht4 := h.ht4,
      ht5 := h.ht5,
      ht6 := h.ht6,
      ht7 := h.ht7,
      hm0 := h.hm0,
      hm1 := EdgeOK_remap q0 (by decide) (by decide),
      hm2 := h.hm2,
      hm3 := EdgeOK_comm (EdgeOK_remap q4 (by decide) (by decide)),
      hm4 := h.hm4,
      hm5 := h.hm5,
      hm6 := h.hm6,
      hm7 := h.hm7,
      hb0 := h.hb0,
      hb1 := CornerOK_rotate (CornerOK_remap q1 (by decide) (by decide) (by decide)),
      hb2 := EdgeOK_remap q2 (by decide) (by decide),
      hb3 := CornerOK_rotate (CornerOK_rotate (CornerOK_remap q3 (by decide) (by decide) (by decide))),
      hb4 := h.hb4,
      hb5 := h.hb5,
      hb6 := h.hb6,
      hb7 := h.hb7 }
  · intro col
    have w0 := stickersCell_remap_edge (d := 0) (s := 4) q0
    have w1 := stickersCell_remap_corner (d := 0) (s := 4) q1
    have w2 := stickersCell_remap_edge (d := 0) (s := 4) q2
    have w3 := stickersCell_remap_corner (d := 0) (s := 4) q3
    have w4 := stickersCell_remap_edge (d := 0) (s := 4) q4
    have w5 := stickersCell_remap_corner (d := 0) (s := 4) q5
    have w6 := stickersCell_remap_edge (d := 0) (s := 4) q6
    have w7 := stickersCell_remap_corner (d := 0) (s := 4) q7
    simp only [stickerList, List.flatMap_cons, List.flatMap_append, List.flatMap_nil, id,
      List.append_nil, List.count_append, w0, w1, w2, w3, w4, w5, w6, w7]
    omega

theorem step_green_ccw (t0 t1 t2 t3 t4 t5 t6 t7 m0 m1 m2 m3 m4 m5 m6 m7 b0 b1 b2 b3 b4 b5 b6
    b7 : Cell)
    (h : CubeOK [[t0, t1, t2, t3, t4, t5, t6, t7],
       [m0, m1, m2, m3, m4, m5, m6, m7],
       [b0, b1, b2, b3, b4, b5, b6, b7]]) :
    RotateSide 4 1 [[t0, t1, t2, t3, t4, t5, t6, t7],
       [m0, m1, m2, m3, m4, m5, m6, m7],
       [b0, b1, b2, b3, b4, b5, b6, b7]] =
      some [[t0, cellRemap 1 4 b1, cellRemap 1 4 m1, cellRemap 1 4 t1, t4, t5, t6, t7],
       [m0, cellRemap 1 4 b2, m2, cellRemap 1 4 t2, m4, m5, m6, m7],
       [b0, cellRemap 1 4 b3, cellRemap 1 4 m3, cellRemap 1 4 t3, b4, b5, b6, b7]] ∧
    CubeOK [[t0, cellRemap 1 4 b1, cellRemap 1 4 m1, cellRemap 1 4 t1, t4, t5, t6, t7],
       [m0, cellRemap 1 4 b2, m2, cellRemap 1 4 t2, m4, m5, m6, m7],
       [b0, cellRemap 1 4 b3, cellRemap 1 4 m3, cellRemap 1 4 t3, b4, b5, b6, b7]] ∧
    ∀ col, (stickerList [[t0, cellRemap 1 4 b1, cellRemap 1 4 m1, cellRemap 1 4 t1, t4, t5, t6, t7],
       [m0, cellRemap 1 4 b2, m2, cellRemap 1 4 t2, m4, m5, m6, m7],
       [b0, cellRemap 1 4 b3, cellRemap 1 4 m3, cellRemap 1 4 t3, b4, b5, b6, b7]]).count col =
      (stickerList [[t0, t1, t2, t3, t4, t5, t6, t7],
       [m0, m1, m2, m3, m4, m5, m6, m7],
       [b0, b1, b2, b3, b4, b5, b6, b7]]).count col := by
  have q0 : EdgeOK 1 4 t2 := h.ht2
  have q1 : CornerOK 1 3 4 t1 := h.ht1
  have q2 : EdgeOK 3 4 m1 := h.hm1
  have q3 : CornerOK 2 4 3 b1 := h.hb1
  have q4 : EdgeOK 2 4 b2 := h.hb2
  have q5 : CornerOK 2 5 4 b3 := h.hb3
  have q6 : EdgeOK 4 5 m3 := h.hm3
  have q7 : CornerOK 1 4 5 t3 := h.ht3
  have hfaces := rotate_faces_spec 4 1 1 3 2 5 5 1 3 2
    (EdgeOK_comm q0) (EdgeOK_comm q2) (EdgeOK_comm q4) (q6)
    (CornerOK_rotate (CornerOK_rotate (q1))) (CornerOK_rotate (q3)) (CornerOK_rotate (CornerOK_rotate (q5))) (CornerOK_swap23 (CornerOK_rotate (q7)))
    (by decide) (by decide) (by decide) (by decide)
    (by decide) (by decide) (by decide) (by decide)
    (by decide) (by decide) (by decide) (by decide)
    (by decide) (by decide) (by decide) (by decide)
    (by decide) (by decide) (by decide) (by decide)
  refine ⟨?_, ?_, ?_⟩
  · rw [RotateSide_eq]
    rw [show _side_get 4 [[t0, t1, t2, t3, t4, t5, t6, t7],
       [m0, m1, m2, m3, m4, m5, m6, m7],
       [b0, b1, b2, b3, b4, b5, b6, b7]] = some [t2, t1, m1, b1, b2, b3, m3, t3] from rfl]
    dsimp only [Option.bind]
    rw [hfaces]
    dsimp only [Option.bind]
    rw [rotate_colors_ne 4 (by decide)]
    rfl
  · exact {
      hlen := rfl, hlt := rfl, hlm := rfl, hlb := rfl
      ht0 := h.ht0,
      ht1 := CornerOK_rotate (CornerOK_rotate (CornerOK_remap q3 (by decide) (by decide) (by decide))),
      ht2 := EdgeOK_remap q2 (by decide) (by decide),
      ht3 := CornerOK_rotate (CornerOK_remap q1 (by decide) (by decide) (by decide)),
      ht4 := h.ht4,
      ht5 := h.ht5,
      ht6 := h.ht6,
      ht7 := h.ht7,
      hm0 := h.hm0,
      hm1 := EdgeOK_remap q4 (by decide) (by decide),
      hm2 := h.hm2,
      hm3 := EdgeOK_comm (EdgeOK_remap q0 (by decide) (by decide)),
      hm4 := h.hm4,
      hm5 := h.hm5,
      hm6 := h.hm6,
      hm7 := h.hm7,
      hb0 := h.hb0,
      hb1 := CornerOK_rotate (CornerOK_remap q5 (by decide) (by decide) (by decide)),
      hb2 := EdgeOK_comm (EdgeOK_remap q6 (by decide) (by decide)),
      hb3 := CornerOK_rotate (CornerOK_rotate (CornerOK_remap q7 (by decide) (by decide) (by decide))),
      hb4 := h.hb4,
      hb5 := h.hb5,
      hb6 := h.hb6,
      hb7 := h.hb7 }
  · intro col
    have w0 := stickersCell_remap_edge (d := 1) (s := 4) q0
    have w1 := stickersCell_remap_corner (d := 1) (s := 4) q1
    have w2 := stickersCell_remap_edge (d := 1) (s := 4) q2
    have w3 := stickersCell_remap_corner (d := 1) (s := 4) q3
    have w4 := stickersCell_remap_edge (d := 1) (s := 4) q4
    have w5 := stickersCell_remap_corner (d := 1) (s := 4) q5
    have w6 := stickersCell_remap_edge (d := 1) (s := 4) q6
    have w7 := stickersCell_remap_corner (d := 1) (s := 4) q7
    simp only [stickerList, List.flatMap_cons, List.flatMap_append, List.flatMap_nil, id,
      List.append_nil, List.count_append, w0, w1, w2, w3, w4, w5, w6, w7]
    omega

theorem step_orange_cw (t0 t1 t2 t3 t4 t5 t6 t7 m0 m1 m2 m3 m4 m5 m6 m7 b0 b1 b2 b3 b4 b5 b6
    b7 : Cell)
    (h : CubeOK [[t0, t1, t2, t3, t4, t5, t6, t7],
       [m0, m1, m2, m3, m4, m5, m6, m7],
       [b0, b1, b2, b3, b4, b5, b6, b7]]) :
    RotateSide 5 0 [[t0, t1, t2, t3, t4, t5, t6, t7],
       [m0, m1, m2, m3, m4, m5, m6, m7],
       [b0, b1, b2, b3, b4, b5, b6, b7]] =
      some [[t0, t1, t2, cellRemap 0 5 t5, cellRemap 0 5 m5, cellRemap 0 5 b5, t6, t7],
       [m0, m1, m2, cellRemap 0 5 t4, m4, cellRemap 0 5 b4, m6, m7],
       [b0, b1, b2, cellRemap 0 5 t3, cellRemap 0 5 m3, cellRemap 0 5 b3, b6, b7]] ∧
    CubeOK [[t0, t1, t2, cellRemap 0 5 t5, cellRemap 0 5 m5, cellRemap 0 5 b5, t6, t7],
       [m0, m1, m2, cellRemap 0 5 t4, m4, cellRemap 0 5 b4, m6, m7],
       [b0, b1, b2, cellRemap 0 5 t3, cellRemap 0 5 m3, cellRemap 0 5 b3, b6, b7]] ∧
    ∀ col, (stickerList [[t0, t1, t2, cellRemap 0 5 t5, cellRemap 0 5 m5, cellRemap 0 5 b5, t6, t7],
       [m0, m1, m2, cellRemap 0 5 t4, m4, cellRemap 0 5 b4, m6, m7],
       [b0, b1, b2, cellRemap 0 5 t3, cellRemap 0 5 m3, cellRemap 0 5 b3, b6, b7]]).count col =
      (stickerList [[t0, t1, t2, t3, t4, t5, t6, t7],
       [m0, m1, m2, m3, m4, m5, m6, m7],
       [b0, b1, b2, b3, b4, b5, b6, b7]]).count col := by
  have q0 : EdgeOK 1 5 t4 := h.ht4
  have q1 : CornerOK 1 4 5 t3 := h.ht3
  have q2 : EdgeOK 4 5 m3 := h.hm3
  have q3 : CornerOK 2 5 4 b3 := h.hb3
  have q4 : EdgeOK 2 5 b4 := h.hb4
  have q5 : CornerOK 2 6 5 b5 := h.hb5
  have q6 : EdgeOK 5 6 m5 := h.hm5
  have q7 : CornerOK 1 5 6 t5 := h.ht5
  have hfaces := rotate_faces_spec 5 0 1 4 2 6 4 2 6 1
    (EdgeOK_comm q0) (EdgeOK_comm q2) (EdgeOK_comm q4) (q6)
    (CornerOK_rotate (CornerOK_rotate (q1))) (CornerOK_rotate (q3)) (CornerOK_rotate (CornerOK_rotate (q5))) (CornerOK_swap23 (CornerOK_rotate (q7)))
    (by decide) (by decide) (by decide) (by decide)
    (by decide) (by decide) (by decide) (by decide)
    (by decide) (by decide) (by decide) (by decide)
    (by decide) (by decide) (by decide) (by decide)
    (by decide) (by decide) (by decide) (by decide)
  refine ⟨?_, ?_, ?_⟩
  · rw [RotateSide_eq]
    rw [show _side_get 5 [[t0, t1, t2, t3, t4, t5, t6, t7],
       [m0, m1, m2, m3, m4, m5, m6, m7],
       [b0, b1, b2, b3, b4, b5, b6, b7]] = some [t4, t3, m3, b3, b4, b5, m5, t5] from rfl]
    dsimp only [Option.bind]
    rw [hfaces]
    dsimp only [Option.bind]
    rw [rotate_colors_cw]
    rfl
  · exact {
      hlen := rfl, hlt := rfl, hlm := rfl, hlb := rfl
      ht0 := h.ht0,
      ht1 := h.ht1,
      ht2 := h.ht2,
      ht3 := CornerOK_rotate (CornerOK_rotate (CornerOK_remap q7 (by decide) (by decide) (by decide))),
      ht4 := EdgeOK_comm (EdgeOK_remap q6 (by decide) (by decide)),
      ht5 := CornerOK_rotate (CornerOK_remap q5 (by decide) (by decide) (by decide)),
      ht6 := h.ht6,
      ht7 := h.ht7,
      hm0 := h.hm0,
      hm1 := h.hm1,
      hm2 := h.hm2,
      hm3 := EdgeOK_remap q0 (by decide) (by decide),
      hm4 := h.hm4,
      hm5 := EdgeOK_comm (EdgeOK_remap q4 (by decide) (by decide)),
      hm6 := h.hm6,
      hm7 := h.hm7,
      hb0 := h.hb0,
      hb1 := h.hb1,
      hb2 := h.hb2,
      hb3 := CornerOK_rotate (CornerOK_remap q1 (by decide) (by decide) (by decide)),
      hb4 := EdgeOK_remap q2 (by decide) (by decide),
      hb5 := CornerOK_rotate (CornerOK_rotate (CornerOK_remap q3 (by decide) (by decide) (by decide))),
      hb6 := h.hb6,
      hb7 := h.hb7 }
  · intro col
    have w0 := stickersCell_remap_edge (d := 0) (s := 5) q0
    have w1 := stickersCell_remap_corner (d := 0) (s := 5) q1
    have w2 := stickersCell_remap_edge (d := 0) (s := 5) q2
    have w3 := stickersCell_remap_corner (d := 0) (s := 5) q3
    have w4 := stickersCell_remap_edge (d := 0) (s := 5) q4
    have w5 := stickersCell_remap_corner (d := 0) (s := 5) q5
    have w6 := stickersCell_remap_edge (d := 0) (s := 5) q6
    have w7 := stickersCell_remap_corner (d := 0) (s := 5) q7
    simp only [stickerList, List.flatMap_cons, List.flatMap_append, List.flatMap_nil, id,
      List.append_nil, List.count_append, w0, w1, w2, w3, w4, w5, w6, w7]
    omega

theorem step_orange_ccw (t0 t1 t2 t3 t4 t5 t6 t7 m0 m1 m2 m3 m4 m5 m6 m7 b0 b1 b2 b3 b4 b5 b6
    b7 : Cell)
    (h : CubeOK [[t0, t1, t2, t3, t4, t5, t6, t7],
       [m0, m1, m2, m3, m4, m5, m6, m7],
       [b0, b1, b2, b3, b4, b5, b6, b7]]) :
    RotateSide 5 1 [[t0, t1, t2, t3, t4, t5, t6, t7],
       [m0, m1, m2, m3, m4, m5, m6, m7],
       [b0, b1, b2, b3, b4, b5, b6, b7]] =
      some [[t0, t1, t2, cellRemap 1 5 b3, cellRemap 1 5 m3, cellRemap 1 5 t3, t6, t7],
       [m0, m1, m2, cellRemap 1 5 b4, m4, cellRemap 1 5 t4, m6, m7],
       [b0, b1, b2, cellRemap 1 5 b5, cellRemap 1 5 m5, cellRemap 1 5 t5, b6, b7]] ∧
    CubeOK [[t0, t1, t2, cellRemap 1 5 b3, cellRemap 1 5 m3, cellRemap 1 5 t3, t6, t7],
       [m0, m1, m2, cellRemap 1 5 b4, m4, cellRemap 1 5 t4, m6, m7],
       [b0, b1, b2, cellRemap 1 5 b5, cellRemap 1 5 m5, cellRemap 1 5 t5, b6, b7]] ∧
    ∀ col, (stickerList [[t0, t1, t2, cellRemap 1 5 b3, cellRemap 1 5 m3, cellRemap 1 5 t3, t6, t7],
       [m0, m1, m2, cellRemap 1 5 b4, m4, cellRemap 1 5 t4, m6, m7],
       [b0, b1, b2, cellRemap 1 5 b5, cellRemap 1 5 m5, cellRemap 1 5 t5, b6, b7]]).count col =
      (stickerList [[t0, t1, t2, t3, t4, t5, t6, t7],
       [m0, m1, m2, m3, m4, m5, m6, m7],
       [b0, b1, b2, b3, b4, b5, b6, b7]]).count col := by
  have q0 : EdgeOK 1 5 t4 := h.ht4
  have q1 : CornerOK 1 4 5 t3 := h.ht3
  have q2 : EdgeOK 4 5 m3 := h.hm3
  have q3 : CornerOK 2 5 4 b3 := h.hb3
  have q4 : EdgeOK 2 5 b4 := h.hb4
  have q5 : CornerOK 2 6 5 b5 := h.hb5
  have q6 : EdgeOK 5 6 m5 := h.hm5
  have q7 : CornerOK 1 5 6 t5 := h.ht5
  have hfaces := rotate_faces_spec 5 1 1 4 2 6 6 1 4 2
    (EdgeOK_comm q0) (EdgeOK_comm q2) (EdgeOK_comm q4) (q6)
    (CornerOK_rotate (CornerOK_rotate (q1))) (CornerOK_rotate (q3)) (CornerOK_rotate (CornerOK_rotate (q5))) (CornerOK_swap23 (CornerOK_rotate (q7)))
    (by decide) (by decide) (by decide) (by decide)
    (by decide) (by decide) (by decide) (by decide)
    (by decide) (by decide) (by decide) (by decide)
    (by decide) (by decide) (by decide) (by decide)
    (by decide) (by decide) (by decide) (by decide)
  refine ⟨?_, ?_, ?_⟩
  · rw [RotateSide_eq]
    rw [show _side_get 5 [[t0, t1, t2, t3, t4, t5, t6, t7],
       [m0, m1, m2, m3, m4, m5, m6, m7],
       [b0, b1, b2, b3, b4, b5, b6, b7]] = some [t4, t3, m3, b3, b4, b5, m5, t5] from rfl]
    dsimp only [Option.bind]
    rw [hfaces]
    dsimp only [Option.bind]
    rw [rotate_colors_ne 5 (by decide)]
    rfl
  · exact {
      hlen := rfl, hlt := rfl, hlm := rfl, hlb := rfl
      ht0 := h.ht0,
      ht1 := h.ht1,
      ht2 := h.ht2,
      ht3 := CornerOK_rotate (CornerOK_rotate (CornerOK_remap q3 (by decide) (by decide) (by decide))),
      ht4 := EdgeOK_remap q2 (by decide) (by decide),
      ht5 := CornerOK_rotate (CornerOK_remap q1 (by decide) (by decide) (by decide)),
      ht6 := h.ht6,
      ht7 := h.ht7,
      hm0 := h.hm0,
      hm1 := h.hm1,
      hm2 := h.hm2,
      hm3 := EdgeOK_remap q4 (by decide) (by decide),
      hm4 := h.hm4,
      hm5 := EdgeOK_comm (EdgeOK_remap q0 (by decide) (by decide)),
      hm6 := h.hm6,
      hm7 := h.hm7,
      hb0 := h.hb0,
      hb1 := h.hb1,
      hb2 := h.hb2,
      hb3 := CornerOK_rotate (CornerOK_remap q5 (by decide) (by decide) (by decide)),
      hb4 := EdgeOK_comm (EdgeOK_remap q6 (by decide) (by decide)),
      hb5 := CornerOK_rotate (CornerOK_rotate (CornerOK_remap q7 (by decide) (by decide) (by decide))),
      hb6 := h.hb6,
      hb7 := h.hb7 }
  · intro col
    have w0 := stickersCell_remap_edge (d := 1) (s := 5) q0
    have w1 := stickersCell_remap_corner (d := 1) (s := 5) q1
    have w2 := stickersCell_remap_edge (d := 1) (s := 5) q2
    have w3 := stickersCell_remap_corner (d := 1) (s := 5) q3
    have w4 := stickersCell_remap_edge (d := 1) (s := 5) q4
    have w5 := stickersCell_remap_corner (d := 1) (s := 5) q5
    have w6 := stickersCell_remap_edge (d := 1) (s := 5) q6
    have w7 := stickersCell_remap_corner (d := 1) (s := 5) q7
    simp only [stickerList, List.flatMap_cons, List.flatMap_append, List.flatMap_nil, id,
      List.append_nil, List.count_append, w0, w1, w2, w3, w4, w5, w6, w7]
    omega

theorem step_blue_cw (t0 t1 t2 t3 t4 t5 t6 t7 m0 m1 m2 m3 m4 m5 m6 m7 b0 b1 b2 b3 b4 b5 b6
    b7 : Cell)
    (h : CubeOK [[t0, t1, t2, t3, t4, t5, t6, t7],
       [m0, m1, m2, m3, m4, m5, m6, m7],
       [b0, b1, b2, b3, b4, b5, b6, b7]]) :
    RotateSide 6 0 [[t0, t1, t2, t3, t4, t5, t6, t7],
       [m0, m1, m2, m3, m4, m5, m6, m7],
       [b0, b1, b2, b3, b4, b5, b6, b7]] =
      some [[t0, t1, t2, t3, t4, cellRemap 0 6 t7, cellRemap 0 6 m7, cellRemap 0 6 b7],
       [m0, m1, m2, m3, m4, cellRemap 0 6 t6, m6, cellRemap 0 6 b6],
       [b0, b1, b2, b3, b4, cellRemap 0 6 t5, cellRemap 0 6 m5, cellRemap 0 6 b5]] ∧
    CubeOK [[t0, t1, t2, t3, t4, cellRemap 0 6 t7, cellRemap 0 6 m7, cellRemap 0 6 b7],
       [m0, m1, m2, m3, m4, cellRemap 0 6 t6, m6, cellRemap 0 6 b6],
       [b0, b1, b2, b3, b4, cellRemap 0 6 t5, cellRemap 0 6 m5, cellRemap 0 6 b5]] ∧
    ∀ col, (stickerList [[t0, t1, t2, t3, t4, cellRemap 0 6 t7, cellRemap 0 6 m7, cellRemap 0 6 b7],
       [m0, m1, m2, m3, m4, cellRemap 0 6 t6, m6, cellRemap 0 6 b6],
       [b0, b1, b2, b3, b4, cellRemap 0 6 t5, cellRemap 0 6 m5, cellRemap 0 6 b5]]).count col =
      (stickerList [[t0, t1, t2, t3, t4, t5, t6, t7],
       [m0, m1, m2, m3, m4, m5, m6, m7],
       [b0, b1, b2, b3, b4, b5, b6, b7]]).count col := by
  have q0 : EdgeOK 1 6 t6 := h.ht6
  have q1 : CornerOK 1 5 6 t5 := h.ht5
  have q2 : EdgeOK 5 6 m5 := h.hm5
  have q3 : CornerOK 2 6 5 b5 := h.hb5
  have q4 : EdgeOK 2 6 b6 := h.hb6
  have q5 : CornerOK 2 3 6 b7 := h.hb7
  have q6 : EdgeOK 6 3 m7 := h.hm7
  have q7 : CornerOK 1 6 3 t7 := h.ht7
  have hfaces := rotate_faces_spec 6 0 1 5 2 3 5 2 3 1
    (EdgeOK_comm q0) (EdgeOK_comm q2) (EdgeOK_comm q4) (q6)
    (CornerOK_rotate (CornerOK_rotate (q1))) (CornerOK_rotate (q3)) (CornerOK_rotate (CornerOK_rotate (q5))) (CornerOK_swap23 (CornerOK_rotate (q7)))
    (by decide) (by decide) (by decide) (by decide)
    (by decide) (by decide) (by decide) (by decide)
    (by decide) (by decide) (by decide) (by decide)
    (by decide) (by decide) (by decide) (by decide)
    (by decide) (by decide) (by decide) (by decide)
  refine ⟨?_, ?_, ?_⟩
  · rw [RotateSide_eq]
    rw [show _side_get 6 [[t0, t1, t2, t3, t4, t5, t6, t7],
       [m0, m1, m2, m3, m4, m5, m6, m7],
       [b0, b1, b2, b3, b4, b5, b6, b7]] = some [t6, t5, m5, b5, b6, b7, m7, t7] from rfl]
    dsimp only [Option.bind]
    rw [hfaces]
    dsimp only [Option.bind]
    rw [rotate_colors_cw]
    rfl
  · exact {
      hlen := rfl, hlt := rfl, hlm := rfl, hlb := rfl
      ht0 := h.ht0,
      ht1 := h.ht1,
      ht2 := h.ht2,
      ht3 := h.ht3,
      ht4 := h.ht4,
      ht5 := CornerOK_rotate (CornerOK_rotate (CornerOK_remap q7 (by decide) (by decide) (by decide))),
      ht6 := EdgeOK_comm (EdgeOK_remap q6 (by decide) (by decide)),
      ht7 := CornerOK_rotate (CornerOK_remap q5 (by decide) (by decide) (by decide)),
      hm0 := h.hm0,
      hm1 := h.hm1,
      hm2 := h.hm2,
      hm3 := h.hm3,
      hm4 := h.hm4,
      hm5 := EdgeOK_remap q0 (by decide) (by decide),
      hm6 := h.hm6,
      hm7 := EdgeOK_comm (EdgeOK_remap q4 (by decide) (by decide)),
      hb0 := h.hb0,
      hb1 := h.hb1,
      hb2 := h.hb2,
      hb3 := h.hb3,
      hb4 := h.hb4,
      hb5 := CornerOK_rotate (CornerOK_remap q1 (by decide) (by decide) (by decide)),
      hb6 := EdgeOK_remap q2 (by decide) (by decide),
      hb7 := CornerOK_rotate (CornerOK_rotate (CornerOK_remap q3 (by decide) (by decide) (by decide))) }
  · intro col
    have w0 := stickersCell_remap_edge (d := 0) (s := 6) q0
    have w1 := stickersCell_remap_corner (d := 0) (s := 6) q1
    have w2 := stickersCell_remap_edge (d := 0) (s := 6) q2
    have w3 := stickersCell_remap_corner (d := 0) (s := 6) q3
    have w4 := stickersCell_remap_edge (d := 0) (s := 6) q4
    have w5 := stickersCell_remap_corner (d := 0) (s := 6) q5
    have w6 := stickersCell_remap_edge (d := 0) (s := 6) q6
    have w7 := stickersCell_remap_corner (d := 0) (s := 6) q7
    simp only [stickerList, List.flatMap_cons, List.flatMap_append, List.flatMap_nil, id,
      List.append_nil, List.count_append, w0, w1, w2, w3, w4, w5, w6, w7]
    omega

theorem step_blue_ccw (t0 t1 t2 t3 t4 t5 t6 t7 m0 m1 m2 m3 m4 m5 m6 m7 b0 b1 b2 b3 b4 b5 b6
    b7 : Cell)
    (h : CubeOK [[t0, t1, t2, t3, t4, t5, t6, t7],
       [m0, m1, m2, m3, m4, m5, m6, m7],
       [b0, b1, b2, b3, b4, b5, b6, b7]]) :
    RotateSide 6 1 [[t0, t1, t2, t3, t4, t5, t6, t7],
       [m0, m1, m2, m3, m4, m5, m6, m7],
       [b0, b1, b2, b3, b4, b5, b6, b7]] =
      some [[t0, t1, t2, t3, t4, cellRemap 1 6 b5, cellRemap 1 6 m5, cellRemap 1 6 t5],
       [m0, m1, m2, m3, m4, cellRemap 1 6 b6, m6, cellRemap 1 6 t6],
       [b0, b1, b2, b3, b4, cellRemap 1 6 b7, cellRemap 1 6 m7, cellRemap 1 6 t7]] ∧
    CubeOK [[t0, t1, t2, t3, t4, cellRemap 1 6 b5, cellRemap 1 6 m5, cellRemap 1 6 t5],
       [m0, m1, m2, m3, m4, cellRemap 1 6 b6, m6, cellRemap 1 6 t6],
       [b0, b1, b2, b3, b4, cellRemap 1 6 b7, cellRemap 1 6 m7, cellRemap 1 6 t7]] ∧
    ∀ col, (stickerList [[t0, t1, t2, t3, t4, cellRemap 1 6 b5, cellRemap 1 6 m5, cellRemap 1 6 t5],
       [m0, m1, m2, m3, m4, cellRemap 1 6 b6, m6, cellRemap 1 6 t6],
       [b0, b1, b2, b3, b4, cellRemap 1 6 b7, cellRemap 1 6 m7, cellRemap 1 6 t7]]).count col =
      (stickerList [[t0, t1, t2, t3, t4, t5, t6, t7],
       [m0, m1, m2, m3, m4, m5, m6, m7],
       [b0, b1, b2, b3, b4, b5, b6, b7]]).count col := by
  have q0 : EdgeOK 1 6 t6 := h.ht6
  have q1 : CornerOK 1 5 6 t5 := h.ht5
  have q2 : EdgeOK 5 6 m5 := h.hm5
  have q3 : CornerOK 2 6 5 b5 := h.hb5
  have q4 : EdgeOK 2 6 b6 := h.hb6
  have q5 : CornerOK 2 3 6 b7 := h.hb7
  have q6 : EdgeOK 6 3 m7 := h.hm7
  have q7 : CornerOK 1 6 3 t7 := h.ht7
  have hfaces := rotate_faces_spec 6 1 1 5 2 3 3 1 5 2
    (EdgeOK_comm q0) (EdgeOK_comm q2) (EdgeOK_comm q4) (q6)
    (CornerOK_rotate (CornerOK_rotate (q1))) (CornerOK_rotate (q3)) (CornerOK_rotate (CornerOK_rotate (q5))) (CornerOK_swap23 (CornerOK_rotate (q7)))
    (by decide) (by decide) (by decide) (by decide)
    (by decide) (by decide) (by decide) (by decide)
    (by decide) (by decide) (by decide) (by decide)
    (by decide) (by decide) (by decide) (by decide)
    (by decide) (by decide) (by decide) (by decide)
  refine ⟨?_, ?_, ?_⟩
  · rw [RotateSide_eq]
    rw [show _side_get 6 [[t0, t1, t2, t3, t4, t5, t6, t7],
       [m0, m1, m2, m3, m4, m5, m6, m7],
       [b0, b1, b2, b3, b4, b5, b6, b7]] = some [t6, t5, m5, b5, b6, b7, m7, t7] from rfl]
    dsimp only [Option.bind]
    rw [hfaces]
    dsimp only [Option.bind]
    rw [rotate_colors_ne 6 (by decide)]
    rfl
  · exact {
      hlen := rfl, hlt := rfl, hlm := rfl, hlb := rfl
      ht0 := h.ht0,
      ht1 := h.ht1,
      ht2 := h.ht2,
      ht3 := h.ht3,
      ht4 := h.ht4,
      ht5 := CornerOK_rotate (CornerOK_rotate (CornerOK_remap q3 (by decide) (by decide) (by decide))),
      ht6 := EdgeOK_remap q2 (by decide) (by decide),
      ht7 := CornerOK_rotate (CornerOK_remap q1 (by decide) (by decide) (by decide)),
      hm0 := h.hm0,
      hm1 := h.hm1,
      hm2 := h.hm2,
      hm3 := h.hm3,
      hm4 := h.hm4,
      hm5 := EdgeOK_remap q4 (by decide) (by decide),
      hm6 := h.hm6,
      hm7 := EdgeOK_comm (EdgeOK_remap q0 (by decide) (by decide)),
      hb0 := h.hb0,
      hb1 := h.hb1,
      hb2 := h.hb2,
      hb3 := h.hb3,
      hb4 := h.hb4,
      hb5 := CornerOK_rotate (CornerOK_remap q5 (by decide) (by decide) (by decide)),
      hb6 := EdgeOK_comm (EdgeOK_remap q6 (by decide) (by decide)),
      hb7 := CornerOK_rotate (CornerOK_rotate (CornerOK_remap q7 (by decide) (by decide) (by decide))) }
  · intro col
    have w0 := stickersCell_remap_edge (d := 1) (s := 6) q0
    have w1 := stickersCell_remap_corner (d := 1) (s := 6) q1
    have w2 := stickersCell_remap_edge (d := 1) (s := 6) q2
    have w3 := stickersCell_remap_corner (d := 1) (s := 6) q3
    have w4 := stickersCell_remap_edge (d := 1) (s := 6) q4
    have w5 := stickersCell_remap_corner (d := 1) (s := 6) q5
    have w6 := stickersCell_remap_edge (d := 1) (s := 6) q6
    have w7 := stickersCell_remap_corner (d := 1) (s := 6) q7
    simp only [stickerList, List.flatMap_cons, List.flatMap_append, List.flatMap_nil, id,
      List.append_nil, List.count_append, w0, w1, w2, w3, w4, w5, w6, w7]
    omega

/-! ## Any direction value other than `ROTATE_CLOCKWISE` behaves as
`ROTATE_COUNTER`: every direction test in the source is `== ROTATE_CLOCKWISE`. -/

theorem side_edge_face_get_ne {d : Nat} (hd : d ≠ 0) (s f : Nat) :
    _side_edge_face_get d s f = _side_edge_face_get 1 s f := by
  unfold _side_edge_face_get _side_edge_white _side_edge_yellow _side_edge_red _side_edge_orange
    _side_edge_green _side_edge_blue
  simp [ROTATE_CLOCKWISE, ROTATE_COUNTER, hd]

theorem rfe_d_ne {d : Nat} (hd : d ≠ 0) (s : Nat) (cl e cr : Cell) :
    _rotate_face_edge s d cl e cr = _rotate_face_edge s 1 cl e cr := by
  unfold _rotate_face_edge
  simp only [side_edge_face_get_ne hd]

theorem rotate_faces_d_ne {d : Nat} (hd : d ≠ 0) (s : Nat) (side : List Cell) :
    _rotate_faces d s side = _rotate_faces 1 s side := by
  unfold _rotate_faces
  simp only [rfe_d_ne hd]

theorem rotate_colors_d_ne {d : Nat} (hd : d ≠ 0) (s : Nat) (side : List Cell) :
    _rotate_colors d s side = _rotate_colors 1 s side := by
  unfold _rotate_colors
  simp [ROTATE_CLOCKWISE, hd]

theorem RotateSide_d_ne {d : Nat} (hd : d ≠ 0) (s : Nat) (c : Cube) :
    RotateSide s d c = RotateSide s 1 c := by
  rw [RotateSide_eq, RotateSide_eq]
  simp only [rotate_faces_d_ne hd, rotate_colors_d_ne hd]

/-- `_side_get` on an invalid side id models the uncaught Python error. -/
theorem side_get_invalid {s : Nat} (hs : s < 1 ∨ 6 < s) (c : Cube) : _side_get s c = none := by
  unfold _side_get
  rw [if_pos hs]

theorem RotateSide_invalid_side {s : Nat} (hs : s < 1 ∨ 6 < s) (d : Nat) (c : Cube) :
    RotateSide s d c = none := by
  rw [RotateSide_eq, side_get_invalid hs c]
  rfl

/-! ## Reachability -/

/-- One successful `RotateSide` call preserves well-formedness and the
sticker-color counts. -/
theorem RotateSide_step {c c' : Cube} (h : CubeOK c) {s d : Nat}
    (hr : RotateSide s d c = some c') :
    CubeOK c' ∧ ∀ col, (stickerList c').count col = (stickerList c).count col := by
  obtain ⟨lt, lm, lb, rfl⟩ := length_eq_three h.hlen
  obtain ⟨t0, t1, t2, t3, t4, t5, t6, t7, rfl⟩ := length_eq_eight (h.hlt : lt.length = 8)
  obtain ⟨m0, m1, m2, m3, m4, m5, m6, m7, rfl⟩ := length_eq_eight (h.hlm : lm.length = 8)
  obtain ⟨b0, b1, b2, b3, b4, b5, b6, b7, rfl⟩ := length_eq_eight (h.hlb : lb.length = 8)
  by_cases hs : s < 1 ∨ 6 < s
  · rw [RotateSide_invalid_side hs] at hr
    exact absurd hr (by simp)
  · push_neg at hs
    obtain ⟨hs1, hs6⟩ := hs
    rcases Nat.eq_zero_or_pos d with rfl | hdpos
    · interval_cases s
      · obtain ⟨e1, hOK, hcnt⟩ := step_white_cw _ _ _ _ _ _ _ _ _ _ _ _ _ _ _ _ _ _ _ _ _ _ _ _ h
        rw [e1] at hr
        injection hr with hr2
        subst hr2
        exact ⟨hOK, hcnt⟩
      · obtain ⟨e1, hOK, hcnt⟩ := step_yellow_cw _ _ _ _ _ _ _ _ _ _ _ _ _ _ _ _ _ _ _ _ _ _ _ _ h
        rw [e1] at hr
        injection hr with hr2
        subst hr2
        exact ⟨hOK, hcnt⟩
      · obtain ⟨e1, hOK, hcnt⟩ := step_red_cw _ _ _ _ _ _ _ _ _ _ _ _ _ _ _ _ _ _ _ _ _ _ _ _ h
        rw [e1] at hr
        injection hr with hr2
        subst hr2
        exact ⟨hOK, hcnt⟩
      · obtain ⟨e1, hOK, hcnt⟩ := step_green_cw _ _ _ _ _ _ _ _ _ _ _ _ _ _ _ _ _ _ _ _ _ _ _ _ h
        rw [e1] at hr
        injection hr with hr2
        subst hr2
        exact ⟨hOK, hcnt⟩
      · obtain ⟨e1, hOK, hcnt⟩ := step_orange_cw _ _ _ _ _ _ _ _ _ _ _ _ _ _ _ _ _ _ _ _ _ _ _ _ h
        rw [e1] at hr
        injection hr with hr2
        subst hr2
        exact ⟨hOK, hcnt⟩
      · obtain ⟨e1, hOK, hcnt⟩ := step_blue_cw _ _ _ _ _ _ _ _ _ _ _ _ _ _ _ _ _ _ _ _ _ _ _ _ h
        rw [e1] at hr
        injection hr with hr2
        subst hr2
        exact ⟨hOK, hcnt⟩
    · rw [RotateSide_d_ne (by omega)] at hr
      interval_cases s
      · obtain ⟨e1, hOK, hcnt⟩ := step_white_ccw _ _ _ _ _ _ _ _ _ _ _ _ _ _ _ _ _ _ _ _ _ _ _ _ h
        rw [e1] at hr
        injection hr with hr2
        subst hr2
        exact ⟨hOK, hcnt⟩
      · obtain ⟨e1, hOK, hcnt⟩ := step_yellow_ccw _ _ _ _ _ _ _ _ _ _ _ _ _ _ _ _ _ _ _ _ _ _ _ _ h
        rw [e1] at hr
        injection hr with hr2
        subst hr2
        exact ⟨hOK, hcnt⟩
      · obtain ⟨e1, hOK, hcnt⟩ := step_red_ccw _ _ _ _ _ _ _ _ _ _ _ _ _ _ _ _ _ _ _ _ _ _ _ _ h
        rw [e1] at hr
        injection hr with hr2
        subst hr2
        exact ⟨hOK, hcnt⟩
      · obtain ⟨e1, hOK, hcnt⟩ := step_green_ccw _ _ _ _ _ _ _ _ _ _ _ _ _ _ _ _ _ _ _ _ _ _ _ _ h
        rw [e1] at hr
        injection hr with hr2
        subst hr2
        exact ⟨hOK, hcnt⟩
      · obtain ⟨e1, hOK, hcnt⟩ := step_orange_ccw _ _ _ _ _ _ _ _ _ _ _ _ _ _ _ _ _ _ _ _ _ _ _ _ h
        rw [e1] at hr
        injection hr with hr2
        subst hr2
        exact ⟨hOK, hcnt⟩
      · obtain ⟨e1, hOK, hcnt⟩ := step_blue_ccw _ _ _ _ _ _ _ _ _ _ _ _ _ _ _ _ _ _ _ _ _ _ _ _ h
        rw [e1] at hr
        injection hr with hr2
        subst hr2
        exact ⟨hOK, hcnt⟩

/-- Every reachable state is well formed. -/
theorem reachable_cubeOK {c : Cube} (h : Reachable c) : CubeOK c := by
  induction h with
  | init => exact cubeOK_init
  | step s d c c' hc hr ih => exact (RotateSide_step ih hr).1

/-- Sticker-color counts are constant along reachable states. -/
theorem reachable_counts {c : Cube} (h : Reachable c) (col : Nat) :
    (stickerList c).count col = (stickerList initCube).count col := by
  induction h with
  | init => rfl
  | step s d c c' hc hr ih =>
      rw [(RotateSide_step (reachable_cubeOK hc) hr).2 col]
      exact ih

/-- Core of C2: on any reachable cube, four consecutive identical
`RotateSide` calls restore the state exactly. -/
theorem rotate4_core {c : Cube} (hreach : Reachable c) (f d : Nat)
    (hf1 : 1 ≤ f) (hf6 : f ≤ 6) (hd : d = 0 ∨ d = 1) :
    ((((RotateSide f d c).bind (RotateSide f d)).bind (RotateSide f d)).bind (RotateSide f d))
      = some c := by
  have h := reachable_cubeOK hreach
  obtain ⟨lt, lm, lb, rfl⟩ := length_eq_three h.hlen
  obtain ⟨t0, t1, t2, t3, t4, t5, t6, t7, rfl⟩ := length_eq_eight (h.hlt : lt.length = 8)
  obtain ⟨m0, m1, m2, m3, m4, m5, m6, m7, rfl⟩ := length_eq_eight (h.hlm : lm.length = 8)
  obtain ⟨b0, b1, b2, b3, b4, b5, b6, b7, rfl⟩ := length_eq_eight (h.hlb : lb.length = 8)
  rcases hd with rfl | rfl <;> interval_cases f
  · obtain ⟨e1, h1, -⟩ := step_white_cw _ _ _ _ _ _ _ _ _ _ _ _ _ _ _ _ _ _ _ _ _ _ _ _ h
    rw [e1]
    dsimp only [Option.bind]
    obtain ⟨e2, h2, -⟩ := step_white_cw _ _ _ _ _ _ _ _ _ _ _ _ _ _ _ _ _ _ _ _ _ _ _ _ h1
    rw [e2]
    dsimp only [Option.bind]
    obtain ⟨e3, h3, -⟩ := step_white_cw _ _ _ _ _ _ _ _ _ _ _ _ _ _ _ _ _ _ _ _ _ _ _ _ h2
    rw [e3]
    dsimp only [Option.bind]
    obtain ⟨e4, -, -⟩ := step_white_cw _ _ _ _ _ _ _ _ _ _ _ _ _ _ _ _ _ _ _ _ _ _ _ _ h3
    rw [e4]
    have q0 : EdgeOK 1 3 t0 := h.ht0
    have q1 : CornerOK 1 3 4 t1 := h.ht1
    have q2 : EdgeOK 1 4 t2 := h.ht2
    have q3 : CornerOK 1 4 5 t3 := h.ht3
    have q4 : EdgeOK 1 5 t4 := h.ht4
    have q5 : CornerOK 1 5 6 t5 := h.ht5
    have q6 : EdgeOK 1 6 t6 := h.ht6
    have q7 : CornerOK 1 6 3 t7 := h.ht7
    have o0 := @edge_remap4 0 1 1 3 1 1 1 4 5 6 t0 q0 (by decide) (by decide) (by decide) (by decide) (by decide) (by decide) (by decide) (by decide)
    have o1 := @corner_remap4 0 1 1 3 4 1 1 1 4 5 6 5 6 3 t1 q1 (by decide) (by decide) (by decide) (by decide) (by decide) (by decide) (by decide) (by decide) (by decide) (by decide) (by decide) (by decide)
    have o2 := @edge_remap4 0 1 1 4 1 1 1 5 6 3 t2 q2 (by decide) (by decide) (by decide) (by decide) (by decide) (by decide) (by decide) (by decide)
    have o3 := @corner_remap4 0 1 1 4 5 1 1 1 5 6 3 6 3 4 t3 q3 (by decide) (by decide) (by decide) (by decide) (by decide) (by decide) (by decide) (by decide) (by decide) (by decide) (by decide) (by decide)
    have o4 := @edge_remap4 0 1 1 5 1 1 1 6 3 4 t4 q4 (by decide) (by decide) (by decide) (by decide) (by decide) (by decide) (by decide) (by decide)
    have o5 := @corner_remap4 0 1 1 5 6 1 1 1 6 3 4 3 4 5 t5 q5 (by decide) (by decide) (by decide) (by decide) (by decide) (by decide) (by decide) (by decide) (by decide) (by decide) (by decide) (by decide)
    have o6 := @edge_remap4 0 1 1 6 1 1 1 3 4 5 t6 q6 (by decide) (by decide) (by decide) (by decide) (by decide) (by decide) (by decide) (by decide)
    have o7 := @corner_remap4 0 1 1 6 3 1 1 1 3 4 5 4 5 6 t7 q7 (by decide) (by decide) (by decide) (by decide) (by decide) (by decide) (by decide) (by decide) (by decide) (by decide) (by decide) (by decide)
    rw [o0, o1, o2, o3, o4, o5, o6, o7]
  · obtain ⟨e1, h1, -⟩ := step_yellow_cw _ _ _ _ _ _ _ _ _ _ _ _ _ _ _ _ _ _ _ _ _ _ _ _ h
    rw [e1]
    dsimp only [Option.bind]
    obtain ⟨e2, h2, -⟩ := step_yellow_cw _ _ _ _ _ _ _ _ _ _ _ _ _ _ _ _ _ _ _ _ _ _ _ _ h1
    rw [e2]
    dsimp only [Option.bind]
    obtain ⟨e3, h3, -⟩ := step_yellow_cw _ _ _ _ _ _ _ _ _ _ _ _ _ _ _ _ _ _ _ _ _ _ _ _ h2
    rw [e3]
    dsimp only [Option.bind]
    obtain ⟨e4, -, -⟩ := step_yellow_cw _ _ _ _ _ _ _ _ _ _ _ _ _ _ _ _ _ _ _ _ _ _ _ _ h3
    rw [e4]
    have q0 : EdgeOK 2 3 b0 := h.hb0
    have q1 : CornerOK 2 3 6 b7 := h.hb7
    have q2 : EdgeOK 2 6 b6 := h.hb6
    have q3 : CornerOK 2 6 5 b5 := h.hb5
    have q4 : EdgeOK 2 5 b4 := h.hb4
    have q5 : CornerOK 2 5 4 b3 := h.hb3
    have q6 : EdgeOK 2 4 b2 := h.hb2
    have q7 : CornerOK 2 4 3 b1 := h.hb1
    have o0 := @edge_remap4 0 2 2 3 2 2 2 6 5 4 b0 q0 (by decide) (by decide) (by decide) (by decide) (by decide) (by decide) (by decide) (by decide)
    have o1 := @corner_remap4 0 2 2 3 6 2 2 2 6 5 4 5 4 3 b7 q1 (by decide) (by decide) (by decide) (by decide) (by decide) (by decide) (by decide) (by decide) (by decide) (by decide) (by decide) (by decide)
    have o2 := @edge_remap4 0 2 2 6 2 2 2 5 4 3 b6 q2 (by decide) (by decide) (by decide) (by decide) (by decide) (by decide) (by decide) (by decide)
    have o3 := @corner_remap4 0 2 2 6 5 2 2 2 5 4 3 4 3 6 b5 q3 (by decide) (by decide) (by decide) (by decide) (by decide) (by decide) (by decide) (by decide) (by decide) (by decide) (by decide) (by decide)
    have o4 := @edge_remap4 0 2 2 5 2 2 2 4 3 6 b4 q4 (by decide) (by decide) (by decide) (by decide) (by decide) (by decide) (by decide) (by decide)
    have o5 := @corner_remap4 0 2 2 5 4 2 2 2 4 3 6 3 6 5 b3 q5 (by decide) (by decide) (by decide) (by decide) (by decide) (by decide) (by decide) (by decide) (by decide) (by decide) (by decide) (by decide)
    have o6 := @edge_remap4 0 2 2 4 2 2 2 3 6 5 b2 q6 (by decide) (by decide) (by decide) (by decide) (by decide) (by decide) (by decide) (by decide)
    have o7 := @corner_remap4 0 2 2 4 3 2 2 2 3 6 5 6 5 4 b1 q7 (by decide) (by decide) (by decide) (by decide) (by decide) (by decide) (by decide) (by decide) (by decide) (by decide) (by decide) (by decide)
    rw [o0, o1, o2, o3, o4, o5, o6, o7]
  · obtain ⟨e1, h1, -⟩ := step_red_cw _ _ _ _ _ _ _ _ _ _ _ _ _ _ _ _ _ _ _ _ _ _ _ _ h
    rw [e1]
    dsimp only [Option.bind]
    obtain ⟨e2, h2, -⟩ := step_red_cw _ _ _ _ _ _ _ _ _ _ _ _ _ _ _ _ _ _ _ _ _ _ _ _ h1
    rw [e2]
    dsimp only [Option.bind]
    obtain ⟨e3, h3, -⟩ := step_red_cw _ _ _ _ _ _ _ _ _ _ _ _ _ _ _ _ _ _ _ _ _ _ _ _ h2
    rw [e3]
    dsimp only [Option.bind]
    obtain ⟨e4, -, -⟩ := step_red_cw _ _ _ _ _ _ _ _ _ _ _ _ _ _ _ _ _ _ _ _ _ _ _ _ h3
    rw [e4]
    have q0 : EdgeOK 1 3 t0 := h.ht0
    have q1 : CornerOK 1 6 3 t7 := h.ht7
    have q2 : EdgeOK 6 3 m7 := h.hm7
    have q3 : CornerOK 2 3 6 b7 := h.hb7
    have q4 : EdgeOK 2 3 b0 := h.hb0
    have q5 : CornerOK 2 4 3 b1 := h.hb1
    have q6 : EdgeOK 3 4 m1 := h.hm1
    have q7 : CornerOK 1 3 4 t1 := h.ht1
    have o0 := @edge_remap4 0 3 1 3 6 2 4 3 3 3 t0 q0 (by decide) (by decide) (by decide) (by decide) (by decide) (by decide) (by decide) (by decide)
    have o1 := @corner_remap4 0 3 1 6 3 6 2 4 2 4 1 3 3 3 t7 q1 (by decide) (by decide) (by decide) (by decide) (by decide) (by decide) (by decide) (by decide) (by decide) (by decide) (by decide) (by decide)
    have o2 := @edge_remap4 0 3 6 3 2 4 1 3 3 3 m7 q2 (by decide) (by decide) (by decide) (by decide) (by decide) (by decide) (by decide) (by decide)
    have o3 := @corner_remap4 0 3 2 3 6 4 1 6 3 3 3 2 4 1 b7 q3 (by decide) (by decide) (by decide) (by decide) (by decide) (by decide) (by decide) (by decide) (by decide) (by decide) (by decide) (by decide)
    have o4 := @edge_remap4 0 3 2 3 4 1 6 3 3 3 b0 q4 (by decide) (by decide) (by decide) (by decide) (by decide) (by decide) (by decide) (by decide)
    have o5 := @corner_remap4 0 3 2 4 3 4 1 6 1 6 2 3 3 3 b1 q5 (by decide) (by decide) (by decide) (by decide) (by decide) (by decide) (by decide) (by decide) (by decide) (by decide) (by decide) (by decide)
    have o6 := @edge_remap4 0 3 3 4 3 3 3 1 6 2 m1 q6 (by decide) (by decide) (by decide) (by decide) (by decide) (by decide) (by decide) (by decide)
    have o7 := @corner_remap4 0 3 1 3 4 6 2 4 3 3 3 1 6 2 t1 q7 (by decide) (by decide) (by decide) (by decide) (by decide) (by decide) (by decide) (by decide) (by decide) (by decide) (by decide) (by decide)
    rw [o0, o1, o2, o3, o4, o5, o6, o7]
  · obtain ⟨e1, h1, -⟩ := step_green_cw _ _ _ _ _ _ _ _ _ _ _ _ _ _ _ _ _ _ _ _ _ _ _ _ h
    rw [e1]
    dsimp only [Option.bind]
    obtain ⟨e2, h2, -⟩ := step_green_cw _ _ _ _ _ _ _ _ _ _ _ _ _ _ _ _ _ _ _ _ _ _ _ _ h1
    rw [e2]
    dsimp only [Option.bind]
    obtain ⟨e3, h3, -⟩ := step_green_cw _ _ _ _ _ _ _ _ _ _ _ _ _ _ _ _ _ _ _ _ _ _ _ _ h2
    rw [e3]
    dsimp only [Option.bind]
    obtain ⟨e4, -, -⟩ := step_green_cw _ _ _ _ _ _ _ _ _ _ _ _ _ _ _ _ _ _ _ _ _ _ _ _ h3
    rw [e4]
    have q0 : EdgeOK 1 4 t2 := h.ht2
    have q1 : CornerOK 1 3 4 t1 := h.ht1
    have q2 : EdgeOK 3 4 m1 := h.hm1
    have q3 : CornerOK 2 4 3 b1 := h.hb1
    have q4 : EdgeOK 2 4 b2 := h.hb2
    have q5 : CornerOK 2 5 4 b3 := h.hb3
    have q6 : EdgeOK 4 5 m3 := h.hm3
    have q7 : CornerOK 1 4 5 t3 := h.ht3
    have o0 := @edge_remap4 0 4 1 4 3 2 5 4 4 4 t2 q0 (by decide) (by decide) (by decide) (by decide) (by decide) (by decide) (by decide) (by decide)
    have o1 := @corner_remap4 0 4 1 3 4 3 2 5 2 5 1 4 4 4 t1 q1 (by decide) (by decide) (by decide) (by decide) (by decide) (by decide) (by decide) (by decide) (by decide) (by decide) (by decide) (by decide)
    have o2 := @edge_remap4 0 4 3 4 2 5 1 4 4 4 m1 q2 (by decide) (by decide) (by decide) (by decide) (by decide) (by decide) (by decide) (by decide)
    have o3 := @corner_remap4 0 4 2 4 3 5 1 3 4 4 4 2 5 1 b1 q3 (by decide) (by decide) (by decide) (by decide) (by decide) (by decide) (by decide) (by decide) (by decide) (by decide) (by decide) (by decide)
    have o4 := @edge_remap4 0 4 2 4 5 1 3 4 4 4 b2 q4 (by decide) (by decide) (by decide) (by decide) (by decide) (by decide) (by decide) (by decide)
    have o5 := @corner_remap4 0 4 2 5 4 5 1 3 1 3 2 4 4 4 b3 q5 (by decide) (by decide) (by decide) (by decide) (by decide) (by decide) (by decide) (by decide) (by decide) (by decide) (by decide) (by decide)
    have o6 := @edge_remap4 0 4 4 5 4 4 4 1 3 2 m3 q6 (by decide) (by decide) (by decide) (by decide) (by decide) (by decide) (by decide) (by decide)
    have o7 := @corner_remap4 0 4 1 4 5 3 2 5 4 4 4 1 3 2 t3 q7 (by decide) (by decide) (by decide) (by decide) (by decide) (by decide) (by decide) (by decide) (by decide) (by decide) (by decide) (by decide)
    rw [o0, o1, o2, o3, o4, o5, o6, o7]
  · obtain ⟨e1, h1, -⟩ := step_orange_cw _ _ _ _ _ _ _ _ _ _ _ _ _ _ _ _ _ _ _ _ _ _ _ _ h
    rw [e1]
    dsimp only [Option.bind]
    obtain ⟨e2, h2, -⟩ := step_orange_cw _ _ _ _ _ _ _ _ _ _ _ _ _ _ _ _ _ _ _ _ _ _ _ _ h1
    rw [e2]
    dsimp only [Option.bind]
    obtain ⟨e3, h3, -⟩ := step_orange_cw _ _ _ _ _ _ _ _ _ _ _ _ _ _ _ _ _ _ _ _ _ _ _ _ h2
    rw [e3]
    dsimp only [Option.bind]
    obtain ⟨e4, -, -⟩ := step_orange_cw _ _ _ _ _ _ _ _ _ _ _ _ _ _ _ _ _ _ _ _ _ _ _ _ h3
    rw [e4]
    have q0 : EdgeOK 1 5 t4 := h.ht4
    have q1 : CornerOK 1 4 5 t3 := h.ht3
    have q2 : EdgeOK 4 5 m3 := h.hm3
    have q3 : CornerOK 2 5 4 b3 := h.hb3
    have q4 : EdgeOK 2 5 b4 := h.hb4
    have q5 : CornerOK 2 6 5 b5 := h.hb5
    have q6 : EdgeOK 5 6 m5 := h.hm5
    have q7 : CornerOK 1 5 6 t5 := h.ht5
    have o0 := @edge_remap4 0 5 1 5 4 2 6 5 5 5 t4 q0 (by decide) (by decide) (by decide) (by decide) (by decide) (by decide) (by decide) (by decide)
    have o1 := @corner_remap4 0 5 1 4 5 4 2 6 2 6 1 5 5 5 t3 q1 (by decide) (by decide) (by decide) (by decide) (by decide) (by decide) (by decide) (by decide) (by decide) (by decide) (by decide) (by decide)
    have o2 := @edge_remap4 0 5 4 5 2 6 1 5 5 5 m3 q2 (by decide) (by decide) (by decide) (by decide) (by decide) (by decide) (by decide) (by decide)
    have o3 := @corner_remap4 0 5 2 5 4 6 1 4 5 5 5 2 6 1 b3 q3 (by decide) (by decide) (by decide) (by decide) (by decide) (by decide) (by decide) (by decide) (by decide) (by decide) (by decide) (by decide)
    have o4 := @edge_remap4 0 5 2 5 6 1 4 5 5 5 b4 q4 (by decide) (by decide) (by decide) (by decide) (by decide) (by decide) (by decide) (by decide)
    have o5 := @corner_remap4 0 5 2 6 5 6 1 4 1 4 2 5 5 5 b5 q5 (by decide) (by decide) (by decide) (by decide) (by decide) (by decide) (by decide) (by decide) (by decide) (by decide) (by decide) (by decide)
    have o6 := @edge_remap4 0 5 5 6 5 5 5 1 4 2 m5 q6 (by decide) (by decide) (by decide) (by decide) (by decide) (by decide) (by decide) (by decide)
    have o7 := @corner_remap4 0 5 1 5 6 4 2 6 5 5 5 1 4 2 t5 q7 (by decide) (by decide) (by decide) (by decide) (by decide) (by decide) (by decide) (by decide) (by decide) (by decide) (by decide) (by decide)
    rw [o0, o1, o2, o3, o4, o5, o6, o7]
  · obtain ⟨e1, h1, -⟩ := step_blue_cw _ _ _ _ _ _ _ _ _ _ _ _ _ _ _ _ _ _ _ _ _ _ _ _ h
    rw [e1]
    dsimp only [Option.bind]
    obtain ⟨e2, h2, -⟩ := step_blue_cw _ _ _ _ _ _ _ _ _ _ _ _ _ _ _ _ _ _ _ _ _ _ _ _ h1
    rw [e2]
    dsimp only [Option.bind]
    obtain ⟨e3, h3, -⟩ := step_blue_cw _ _ _ _ _ _ _ _ _ _ _ _ _ _ _ _ _ _ _ _ _ _ _ _ h2
    rw [e3]
    dsimp only [Option.bind]
    obtain ⟨e4, -, -⟩ := step_blue_cw _ _ _ _ _ _ _ _ _ _ _ _ _ _ _ _ _ _ _ _ _ _ _ _ h3
    rw [e4]
    have q0 : EdgeOK 1 6 t6 := h.ht6
    have q1 : CornerOK 1 5 6 t5 := h.ht5
    have q2 : EdgeOK 5 6 m5 := h.hm5
    have q3 : CornerOK 2 6 5 b5 := h.hb5
    have q4 : EdgeOK 2 6 b6 := h.hb6
    have q5 : CornerOK 2 3 6 b7 := h.hb7
    have q6 : EdgeOK 6 3 m7 := h.hm7
    have q7 : CornerOK 1 6 3 t7 := h.ht7
    have o0 := @edge_remap4 0 6 1 6 5 2 3 6 6 6 t6 q0 (by decide) (by decide) (by decide) (by decide) (by decide) (by decide) (by decide) (by decide)
    have o1 := @corner_remap4 0 6 1 5 6 5 2 3 2 3 1 6 6 6 t5 q1 (by decide) (by decide) (by decide) (by decide) (by decide) (by decide) (by decide) (by decide) (by decide) (by decide) (by decide) (by decide)
    have o2 := @edge_remap4 0 6 5 6 2 3 1 6 6 6 m5 q2 (by decide) (by decide) (by decide) (by decide) (by decide) (by decide) (by decide) (by decide)
    have o3 := @corner_remap4 0 6 2 6 5 3 1 5 6 6 6 2 3 1 b5 q3 (by decide) (by decide) (by decide) (by decide) (by decide) (by decide) (by decide) (by decide) (by decide) (by decide) (by decide) (by decide)
    have o4 := @edge_remap4 0 6 2 6 3 1 5 6 6 6 b6 q4 (by decide) (by decide) (by decide) (by decide) (by decide) (by decide) (by decide) (by decide)
    have o5 := @corner_remap4 0 6 2 3 6 3 1 5 1 5 2 6 6 6 b7 q5 (by decide) (by decide) (by decide) (by decide) (by decide) (by decide) (by decide) (by decide) (by decide) (by decide) (by decide) (by decide)
    have o6 := @edge_remap4 0 6 6 3 6 6 6 1 5 2 m7 q6 (by decide) (by decide) (by decide) (by decide) (by decide) (by decide) (by decide) (by decide)
    have o7 := @corner_remap4 0 6 1 6 3 5 2 3 6 6 6 1 5 2 t7 q7 (by decide) (by decide) (by decide) (by decide) (by decide) (by decide) (by decide) (by decide) (by decide) (by decide) (by decide) (by decide)
    rw [o0, o1, o2, o3, o4, o5, o6, o7]
  · obtain ⟨e1, h1, -⟩ := step_white_ccw _ _ _ _ _ _ _ _ _ _ _ _ _ _ _ _ _ _ _ _ _ _ _ _ h
    rw [e1]
    dsimp only [Option.bind]
    obtain ⟨e2, h2, -⟩ := step_white_ccw _ _ _ _ _ _ _ _ _ _ _ _ _ _ _ _ _ _ _ _ _ _ _ _ h1
    rw [e2]
    dsimp only [Option.bind]
    obtain ⟨e3, h3, -⟩ := step_white_ccw _ _ _ _ _ _ _ _ _ _ _ _ _ _ _ _ _ _ _ _ _ _ _ _ h2
    rw [e3]
    dsimp only [Option.bind]
    obtain ⟨e4, -, -⟩ := step_white_ccw _ _ _ _ _ _ _ _ _ _ _ _ _ _ _ _ _ _ _ _ _ _ _ _ h3
    rw [e4]
    have q0 : EdgeOK 1 3 t0 := h.ht0
    have q1 : CornerOK 1 3 4 t1 := h.ht1
    have q2 : EdgeOK 1 4 t2 := h.ht2
    have q3 : CornerOK 1 4 5 t3 := h.ht3
    have q4 : EdgeOK 1 5 t4 := h.ht4
    have q5 : CornerOK 1 5 6 t5 := h.ht5
    have q6 : EdgeOK 1 6 t6 := h.ht6
    have q7 : CornerOK 1 6 3 t7 := h.ht7
    have o0 := @edge_remap4 1 1 1 3 1 1 1 6 5 4 t0 q0 (by decide) (by decide) (by decide) (by decide) (by decide) (by decide) (by decide) (by decide)
    have o1 := @corner_remap4 1 1 1 3 4 1 1 1 6 5 4 3 6 5 t1 q1 (by decide) (by decide) (by decide) (by decide) (by decide) (by decide) (by decide) (by decide) (by decide) (by decide) (by decide) (by decide)
    have o2 := @edge_remap4 1 1 1 4 1 1 1 3 6 5 t2 q2 (by decide) (by decide) (by decide) (by decide) (by decide) (by decide) (by decide) (by decide)
    have o3 := @corner_remap4 1 1 1 4 5 1 1 1 3 6 5 4 3 6 t3 q3 (by decide) (by decide) (by decide) (by decide) (by decide) (by decide) (by decide) (by decide) (by decide) (by decide) (by decide) (by decide)
    have o4 := @edge_remap4 1 1 1 5 1 1 1 4 3 6 t4 q4 (by decide) (by decide) (by decide) (by decide) (by decide) (by decide) (by decide) (by decide)
    have o5 := @corner_remap4 1 1 1 5 6 1 1 1 4 3 6 5 4 3 t5 q5 (by decide) (by decide) (by decide) (by decide) (by decide) (by decide) (by decide) (by decide) (by decide) (by decide) (by decide) (by decide)
    have o6 := @edge_remap4 1 1 1 6 1 1 1 5 4 3 t6 q6 (by decide) (by decide) (by decide) (by decide) (by decide) (by decide) (by decide) (by decide)
    have o7 := @corner_remap4 1 1 1 6 3 1 1 1 5 4 3 6 5 4 t7 q7 (by decide) (by decide) (by decide) (by decide) (by decide) (by decide) (by decide) (by decide) (by decide) (by decide) (by decide) (by decide)
    rw [o0, o1, o2, o3, o4, o5, o6, o7]
  · obtain ⟨e1, h1, -⟩ := step_yellow_ccw _ _ _ _ _ _ _ _ _ _ _ _ _ _ _ _ _ _ _ _ _ _ _ _ h
    rw [e1]
    dsimp only [Option.bind]
    obtain ⟨e2, h2, -⟩ := step_yellow_ccw _ _ _ _ _ _ _ _ _ _ _ _ _ _ _ _ _ _ _ _ _ _ _ _ h1
    rw [e2]
    dsimp only [Option.bind]
    obtain ⟨e3, h3, -⟩ := step_yellow_ccw _ _ _ _ _ _ _ _ _ _ _ _ _ _ _ _ _ _ _ _ _ _ _ _ h2
    rw [e3]
    dsimp only [Option.bind]
    obtain ⟨e4, -, -⟩ := step_yellow_ccw _ _ _ _ _ _ _ _ _ _ _ _ _ _ _ _ _ _ _ _ _ _ _ _ h3
    rw [e4]
    have q0 : EdgeOK 2 3 b0 := h.hb0
    have q1 : CornerOK 2 3 6 b7 := h.hb7
    have q2 : EdgeOK 2 6 b6 := h.hb6
    have q3 : CornerOK 2 6 5 b5 := h.hb5
    have q4 : EdgeOK 2 5 b4 := h.hb4
    have q5 : CornerOK 2 5 4 b3 := h.hb3
    have q6 : EdgeOK 2 4 b2 := h.hb2
    have q7 : CornerOK 2 4 3 b1 := h.hb1
    have o0 := @edge_remap4 1 2 2 3 2 2 2 4 5 6 b0 q0 (by decide) (by decide) (by decide) (by decide) (by decide) (by decide) (by decide) (by decide)
    have o1 := @corner_remap4 1 2 2 3 6 2 2 2 4 5 6 3 4 5 b7 q1 (by decide) (by decide) (by decide) (by decide) (by decide) (by decide) (by decide) (by decide) (by decide) (by decide) (by decide) (by decide)
    have o2 := @edge_remap4 1 2 2 6 2 2 2 3 4 5 b6 q2 (by decide) (by decide) (by decide) (by decide) (by decide) (by decide) (by decide) (by decide)
    have o3 := @corner_remap4 1 2 2 6 5 2 2 2 3 4 5 6 3 4 b5 q3 (by decide) (by decide) (by decide) (by decide) (by decide) (by decide) (by decide) (by decide) (by decide) (by decide) (by decide) (by decide)
    have o4 := @edge_remap4 1 2 2 5 2 2 2 6 3 4 b4 q4 (by decide) (by decide) (by decide) (by decide) (by decide) (by decide) (by decide) (by decide)
    have o5 := @corner_remap4 1 2 2 5 4 2 2 2 6 3 4 5 6 3 b3 q5 (by decide) (by decide) (by decide) (by decide) (by decide) (by decide) (by decide) (by decide) (by decide) (by decide) (by decide) (by decide)
    have o6 := @edge_remap4 1 2 2 4 2 2 2 5 6 3 b2 q6 (by decide) (by decide) (by decide) (by decide) (by decide) (by decide) (by decide) (by decide)
    have o7 := @corner_remap4 1 2 2 4 3 2 2 2 5 6 3 4 5 6 b1 q7 (by decide) (by decide) (by decide) (by decide) (by decide) (by decide) (by decide) (by decide) (by decide) (by decide) (by decide) (by decide)
    rw [o0, o1, o2, o3, o4, o5, o6, o7]
  · obtain ⟨e1, h1, -⟩ := step_red_ccw _ _ _ _ _ _ _ _ _ _ _ _ _ _ _ _ _ _ _ _ _ _ _ _ h
    rw [e1]
    dsimp only [Option.bind]
    obtain ⟨e2, h2, -⟩ := step_red_ccw _ _ _ _ _ _ _ _ _ _ _ _ _ _ _ _ _ _ _ _ _ _ _ _ h1
    rw [e2]
    dsimp only [Option.bind]
    obtain ⟨e3, h3, -⟩ := step_red_ccw _ _ _ _ _ _ _ _ _ _ _ _ _ _ _ _ _ _ _ _ _ _ _ _ h2
    rw [e3]
    dsimp only [Option.bind]
    obtain ⟨e4, -, -⟩ := step_red_ccw _ _ _ _ _ _ _ _ _ _ _ _ _ _ _ _ _ _ _ _ _ _ _ _ h3
    rw [e4]
    have q0 : EdgeOK 1 3 t0 := h.ht0
    have q1 : CornerOK 1 6 3 t7 := h.ht7
    have q2 : EdgeOK 6 3 m7 := h.hm7
    have q3 : CornerOK 2 3 6 b7 := h.hb7
    have q4 : EdgeOK 2 3 b0 := h.hb0
    have q5 : CornerOK 2 4 3 b1 := h.hb1
    have q6 : EdgeOK 3 4 m1 := h.hm1
    have q7 : CornerOK 1 3 4 t1 := h.ht1
    have o0 := @edge_remap4 1 3 1 3 4 2 6 3 3 3 t0 q0 (by decide) (by decide) (by decide) (by decide) (by decide) (by decide) (by decide) (by decide)
    have o1 := @corner_remap4 1 3 1 6 3 4 2 6 1 4 2 3 3 3 t7 q1 (by decide) (by decide) (by decide) (by decide) (by decide) (by decide) (by decide) (by decide) (by decide) (by decide) (by decide) (by decide)
    have o2 := @edge_remap4 1 3 6 3 1 4 2 3 3 3 m7 q2 (by decide) (by decide) (by decide) (by decide) (by decide) (by decide) (by decide) (by decide)
    have o3 := @corner_remap4 1 3 2 3 6 6 1 4 3 3 3 1 4 2 b7 q3 (by decide) (by decide) (by decide) (by decide) (by decide) (by decide) (by decide) (by decide) (by decide) (by decide) (by decide) (by decide)
    have o4 := @edge_remap4 1 3 2 3 6 1 4 3 3 3 b0 q4 (by decide) (by decide) (by decide) (by decide) (by decide) (by decide) (by decide) (by decide)
    have o5 := @corner_remap4 1 3 2 4 3 6 1 4 2 6 1 3 3 3 b1 q5 (by decide) (by decide) (by decide) (by decide) (by decide) (by decide) (by decide) (by decide) (by decide) (by decide) (by decide) (by decide)
    have o6 := @edge_remap4 1 3 3 4 3 3 3 2 6 1 m1 q6 (by decide) (by decide) (by decide) (by decide) (by decide) (by decide) (by decide) (by decide)
    have o7 := @corner_remap4 1 3 1 3 4 4 2 6 3 3 3 2 6 1 t1 q7 (by decide) (by decide) (by decide) (by decide) (by decide) (by decide) (by decide) (by decide) (by decide) (by decide) (by decide) (by decide)
    rw [o0, o1, o2, o3, o4, o5, o6, o7]
  · obtain ⟨e1, h1, -⟩ := step_green_ccw _ _ _ _ _ _ _ _ _ _ _ _ _ _ _ _ _ _ _ _ _ _ _ _ h
    rw [e1]
    dsimp only [Option.bind]
    obtain ⟨e2, h2, -⟩ := step_green_ccw _ _ _ _ _ _ _ _ _ _ _ _ _ _ _ _ _ _ _ _ _ _ _ _ h1
    rw [e2]
    dsimp only [Option.bind]
    obtain ⟨e3, h3, -⟩ := step_green_ccw _ _ _ _ _ _ _ _ _ _ _ _ _ _ _ _ _ _ _ _ _ _ _ _ h2
    rw [e3]
    dsimp only [Option.bind]
    obtain ⟨e4, -, -⟩ := step_green_ccw _ _ _ _ _ _ _ _ _ _ _ _ _ _ _ _ _ _ _ _ _ _ _ _ h3
    rw [e4]
    have q0 : EdgeOK 1 4 t2 := h.ht2
    have q1 : CornerOK 1 3 4 t1 := h.ht1
    have q2 : EdgeOK 3 4 m1 := h.hm1
    have q3 : CornerOK 2 4 3 b1 := h.hb1
    have q4 : EdgeOK 2 4 b2 := h.hb2
    have q5 : CornerOK 2 5 4 b3 := h.hb3
    have q6 : EdgeOK 4 5 m3 := h.hm3
    have q7 : CornerOK 1 4 5 t3 := h.ht3
    have o0 := @edge_remap4 1 4 1 4 5 2 3 4 4 4 t2 q0 (by decide) (by decide) (by decide) (by decide) (by decide) (by decide) (by decide) (by decide)
    have o1 := @corner_remap4 1 4 1 3 4 5 2 3 1 5 2 4 4 4 t1 q1 (by decide) (by decide) (by decide) (by decide) (by decide) (by decide) (by decide) (by decide) (by decide) (by decide) (by decide) (by decide)
    have o2 := @edge_remap4 1 4 3 4 1 5 2 4 4 4 m1 q2 (by decide) (by decide) (by decide) (by decide) (by decide) (by decide) (by decide) (by decide)
    have o3 := @corner_remap4 1 4 2 4 3 3 1 5 4 4 4 1 5 2 b1 q3 (by decide) (by decide) (by decide) (by decide) (by decide) (by decide) (by decide) (by decide) (by decide) (by decide) (by decide) (by decide)
    have o4 := @edge_remap4 1 4 2 4 3 1 5 4 4 4 b2 q4 (by decide) (by decide) (by decide) (by decide) (by decide) (by decide) (by decide) (by decide)
    have o5 := @corner_remap4 1 4 2 5 4 3 1 5 2 3 1 4 4 4 b3 q5 (by decide) (by decide) (by decide) (by decide) (by decide) (by decide) (by decide) (by decide) (by decide) (by decide) (by decide) (by decide)
    have o6 := @edge_remap4 1 4 4 5 4 4 4 2 3 1 m3 q6 (by decide) (by decide) (by decide) (by decide) (by decide) (by decide) (by decide) (by decide)
    have o7 := @corner_remap4 1 4 1 4 5 5 2 3 4 4 4 2 3 1 t3 q7 (by decide) (by decide) (by decide) (by decide) (by decide) (by decide) (by decide) (by decide) (by decide) (by decide) (by decide) (by decide)
    rw [o0, o1, o2, o3, o4, o5, o6, o7]
  · obtain ⟨e1, h1, -⟩ := step_orange_ccw _ _ _ _ _ _ _ _ _ _ _ _ _ _ _ _ _ _ _ _ _ _ _ _ h
    rw [e1]
    dsimp only [Option.bind]
    obtain ⟨e2, h2, -⟩ := step_orange_ccw _ _ _ _ _ _ _ _ _ _ _ _ _ _ _ _ _ _ _ _ _ _ _ _ h1
    rw [e2]
    dsimp only [Option.bind]
    obtain ⟨e3, h3, -⟩ := step_orange_ccw _ _ _ _ _ _ _ _ _ _ _ _ _ _ _ _ _ _ _ _ _ _ _ _ h2
    rw [e3]
    dsimp only [Option.bind]
    obtain ⟨e4, -, -⟩ := step_orange_ccw _ _ _ _ _ _ _ _ _ _ _ _ _ _ _ _ _ _ _ _ _ _ _ _ h3
    rw [e4]
    have q0 : EdgeOK 1 5 t4 := h.ht4
    have q1 : CornerOK 1 4 5 t3 := h.ht3
    have q2 : EdgeOK 4 5 m3 := h.hm3
    have q3 : CornerOK 2 5 4 b3 := h.hb3
    have q4 : EdgeOK 2 5 b4 := h.hb4
    have q5 : CornerOK 2 6 5 b5 := h.hb5
    have q6 : EdgeOK 5 6 m5 := h.hm5
    have q7 : CornerOK 1 5 6 t5 := h.ht5
    have o0 := @edge_remap4 1 5 1 5 6 2 4 5 5 5 t4 q0 (by decide) (by decide) (by decide) (by decide) (by decide) (by decide) (by decide) (by decide)
    have o1 := @corner_remap4 1 5 1 4 5 6 2 4 1 6 2 5 5 5 t3 q1 (by decide) (by decide) (by decide) (by decide) (by decide) (by decide) (by decide) (by decide) (by decide) (by decide) (by decide) (by decide)
    have o2 := @edge_remap4 1 5 4 5 1 6 2 5 5 5 m3 q2 (by decide) (by decide) (by decide) (by decide) (by decide) (by decide) (by decide) (by decide)
    have o3 := @corner_remap4 1 5 2 5 4 4 1 6 5 5 5 1 6 2 b3 q3 (by decide) (by decide) (by decide) (by decide) (by decide) (by decide) (by decide) (by decide) (by decide) (by decide) (by decide) (by decide)
    have o4 := @edge_remap4 1 5 2 5 4 1 6 5 5 5 b4 q4 (by decide) (by decide) (by decide) (by decide) (by decide) (by decide) (by decide) (by decide)
    have o5 := @corner_remap4 1 5 2 6 5 4 1 6 2 4 1 5 5 5 b5 q5 (by decide) (by decide) (by decide) (by decide) (by decide) (by decide) (by decide) (by decide) (by decide) (by decide) (by decide) (by decide)
    have o6 := @edge_remap4 1 5 5 6 5 5 5 2 4 1 m5 q6 (by decide) (by decide) (by decide) (by decide) (by decide) (by decide) (by decide) (by decide)
    have o7 := @corner_remap4 1 5 1 5 6 6 2 4 5 5 5 2 4 1 t5 q7 (by decide) (by decide) (by decide) (by decide) (by decide) (by decide) (by decide) (by decide) (by decide) (by decide) (by decide) (by decide)
    rw [o0, o1, o2, o3, o4, o5, o6, o7]
  · obtain ⟨e1, h1, -⟩ := step_blue_ccw _ _ _ _ _ _ _ _ _ _ _ _ _ _ _ _ _ _ _ _ _ _ _ _ h
    rw [e1]
    dsimp only [Option.bind]
    obtain ⟨e2, h2, -⟩ := step_blue_ccw _ _ _ _ _ _ _ _ _ _ _ _ _ _ _ _ _ _ _ _ _ _ _ _ h1
    rw [e2]
    dsimp only [Option.bind]
    obtain ⟨e3, h3, -⟩ := step_blue_ccw _ _ _ _ _ _ _ _ _ _ _ _ _ _ _ _ _ _ _ _ _ _ _ _ h2
    rw [e3]
    dsimp only [Option.bind]
    obtain ⟨e4, -, -⟩ := step_blue_ccw _ _ _ _ _ _ _ _ _ _ _ _ _ _ _ _ _ _ _ _ _ _ _ _ h3
    rw [e4]
    have q0 : EdgeOK 1 6 t6 := h.ht6
    have q1 : CornerOK 1 5 6 t5 := h.ht5
    have q2 : EdgeOK 5 6 m5 := h.hm5
    have q3 : CornerOK 2 6 5 b5 := h.hb5
    have q4 : EdgeOK 2 6 b6 := h.hb6
    have q5 : CornerOK 2 3 6 b7 := h.hb7
    have q6 : EdgeOK 6 3 m7 := h.hm7
    have q7 : CornerOK 1 6 3 t7 := h.ht7
    have o0 := @edge_remap4 1 6 1 6 3 2 5 6 6 6 t6 q0 (by decide) (by decide) (by decide) (by decide) (by decide) (by decide) (by decide) (by decide)
    have o1 := @corner_remap4 1 6 1 5 6 3 2 5 1 3 2 6 6 6 t5 q1 (by decide) (by decide) (by decide) (by decide) (by decide) (by decide) (by decide) (by decide) (by decide) (by decide) (by decide) (by decide)
    have o2 := @edge_remap4 1 6 5 6 1 3 2 6 6 6 m5 q2 (by decide) (by decide) (by decide) (by decide) (by decide) (by decide) (by decide) (by decide)
    have o3 := @corner_remap4 1 6 2 6 5 5 1 3 6 6 6 1 3 2 b5 q3 (by decide) (by decide) (by decide) (by decide) (by decide) (by decide) (by decide) (by decide) (by decide) (by decide) (by decide) (by decide)
    have o4 := @edge_remap4 1 6 2 6 5 1 3 6 6 6 b6 q4 (by decide) (by decide) (by decide) (by decide) (by decide) (by decide) (by decide) (by decide)
    have o5 := @corner_remap4 1 6 2 3 6 5 1 3 2 5 1 6 6 6 b7 q5 (by decide) (by decide) (by decide) (by decide) (by decide) (by decide) (by decide) (by decide) (by decide) (by decide) (by decide) (by decide)
    have o6 := @edge_remap4 1 6 6 3 6 6 6 2 5 1 m7 q6 (by decide) (by decide) (by decide) (by decide) (by decide) (by decide) (by decide) (by decide)
    have o7 := @corner_remap4 1 6 1 6 3 3 2 5 6 6 6 2 5 1 t7 q7 (by decide) (by decide) (by decide) (by decide) (by decide) (by decide) (by decide) (by decide) (by decide) (by decide) (by decide) (by decide)
    rw [o0, o1, o2, o3, o4, o5, o6, o7]

/-- Core of C3: on any reachable cube, a clockwise `RotateSide` followed by a
counter-clockwise one on the same face is the identity. -/
theorem rotate_inv_core {c : Cube} (hreach : Reachable c) (f : Nat)
    (hf1 : 1 ≤ f) (hf6 : f ≤ 6) :
    (RotateSide f 0 c).bind (RotateSide f 1) = some c := by
  have h := reachable_cubeOK hreach
  obtain ⟨lt, lm, lb, rfl⟩ := length_eq_three h.hlen
  obtain ⟨t0, t1, t2, t3, t4, t5, t6, t7, rfl⟩ := length_eq_eight (h.hlt : lt.length = 8)
  obtain ⟨m0, m1, m2, m3, m4, m5, m6, m7, rfl⟩ := length_eq_eight (h.hlm : lm.length = 8)
  obtain ⟨b0, b1, b2, b3, b4, b5, b6, b7, rfl⟩ := length_eq_eight (h.hlb : lb.length = 8)
  interval_cases f
  · obtain ⟨e1, h1, -⟩ := step_white_cw _ _ _ _ _ _ _ _ _ _ _ _ _ _ _ _ _ _ _ _ _ _ _ _ h
    rw [e1]
    dsimp only [Option.bind]
    obtain ⟨e2, -, -⟩ := step_white_ccw _ _ _ _ _ _ _ _ _ _ _ _ _ _ _ _ _ _ _ _ _ _ _ _ h1
    rw [e2]
    have q0 : EdgeOK 1 3 t0 := h.ht0
    have q1 : CornerOK 1 3 4 t1 := h.ht1
    have q2 : EdgeOK 1 4 t2 := h.ht2
    have q3 : CornerOK 1 4 5 t3 := h.ht3
    have q4 : EdgeOK 1 5 t4 := h.ht4
    have q5 : CornerOK 1 5 6 t5 := h.ht5
    have q6 : EdgeOK 1 6 t6 := h.ht6
    have q7 : CornerOK 1 6 3 t7 := h.ht7
    have o0 := @edge_remap_inv 1 0 1 1 3 1 4 t0 q0 (by decide) (by decide) (by decide) (by decide)
    have o1 := @corner_remap_inv 1 0 1 1 3 4 1 4 5 t1 q1 (by decide) (by decide) (by decide) (by decide) (by decide) (by decide)
    have o2 := @edge_remap_inv 1 0 1 1 4 1 5 t2 q2 (by decide) (by decide) (by decide) (by decide)
    have o3 := @corner_remap_inv 1 0 1 1 4 5 1 5 6 t3 q3 (by decide) (by decide) (by decide) (by decide) (by decide) (by decide)
    have o4 := @edge_remap_inv 1 0 1 1 5 1 6 t4 q4 (by decide) (by decide) (by decide) (by decide)
    have o5 := @corner_remap_inv 1 0 1 1 5 6 1 6 3 t5 q5 (by decide) (by decide) (by decide) (by decide) (by decide) (by decide)
    have o6 := @edge_remap_inv 1 0 1 1 6 1 3 t6 q6 (by decide) (by decide) (by decide) (by decide)
    have o7 := @corner_remap_inv 1 0 1 1 6 3 1 3 4 t7 q7 (by decide) (by decide) (by decide) (by decide) (by decide) (by decide)
    rw [o0, o1, o2, o3, o4, o5, o6, o7]
  · obtain ⟨e1, h1, -⟩ := step_yellow_cw _ _ _ _ _ _ _ _ _ _ _ _ _ _ _ _ _ _ _ _ _ _ _ _ h
    rw [e1]
    dsimp only [Option.bind]
    obtain ⟨e2, -, -⟩ := step_yellow_ccw _ _ _ _ _ _ _ _ _ _ _ _ _ _ _ _ _ _ _ _ _ _ _ _ h1
    rw [e2]
    have q0 : EdgeOK 2 3 b0 := h.hb0
    have q1 : CornerOK 2 3 6 b7 := h.hb7
    have q2 : EdgeOK 2 6 b6 := h.hb6
    have q3 : CornerOK 2 6 5 b5 := h.hb5
    have q4 : EdgeOK 2 5 b4 := h.hb4
    have q5 : CornerOK 2 5 4 b3 := h.hb3
    have q6 : EdgeOK 2 4 b2 := h.hb2
    have q7 : CornerOK 2 4 3 b1 := h.hb1
    have o0 := @edge_remap_inv 1 0 2 2 3 2 6 b0 q0 (by decide) (by decide) (by decide) (by decide)
    have o1 := @corner_remap_inv 1 0 2 2 3 6 2 6 5 b7 q1 (by decide) (by decide) (by decide) (by decide) (by decide) (by decide)
    have o2 := @edge_remap_inv 1 0 2 2 6 2 5 b6 q2 (by decide) (by decide) (by decide) (by decide)
    have o3 := @corner_remap_inv 1 0 2 2 6 5 2 5 4 b5 q3 (by decide) (by decide) (by decide) (by decide) (by decide) (by decide)
    have o4 := @edge_remap_inv 1 0 2 2 5 2 4 b4 q4 (by decide) (by decide) (by decide) (by decide)
    have o5 := @corner_remap_inv 1 0 2 2 5 4 2 4 3 b3 q5 (by decide) (by decide) (by decide) (by decide) (by decide) (by decide)
    have o6 := @edge_remap_inv 1 0 2 2 4 2 3 b2 q6 (by decide) (by decide) (by decide) (by decide)
    have o7 := @corner_remap_inv 1 0 2 2 4 3 2 3 6 b1 q7 (by decide) (by decide) (by decide) (by decide) (by decide) (by decide)
    rw [o0, o1, o2, o3, o4, o5, o6, o7]
  · obtain ⟨e1, h1, -⟩ := step_red_cw _ _ _ _ _ _ _ _ _ _ _ _ _ _ _ _ _ _ _ _ _ _ _ _ h
    rw [e1]
    dsimp only [Option.bind]
    obtain ⟨e2, -, -⟩ := step_red_ccw _ _ _ _ _ _ _ _ _ _ _ _ _ _ _ _ _ _ _ _ _ _ _ _ h1
    rw [e2]
    have q0 : EdgeOK 1 3 t0 := h.ht0
    have q1 : CornerOK 1 6 3 t7 := h.ht7
    have q2 : EdgeOK 6 3 m7 := h.hm7
    have q3 : CornerOK 2 3 6 b7 := h.hb7
    have q4 : EdgeOK 2 3 b0 := h.hb0
    have q5 : CornerOK 2 4 3 b1 := h.hb1
    have q6 : EdgeOK 3 4 m1 := h.hm1
    have q7 : CornerOK 1 3 4 t1 := h.ht1
    have o0 := @edge_remap_inv 1 0 3 1 3 6 3 t0 q0 (by decide) (by decide) (by decide) (by decide)
    have o1 := @corner_remap_inv 1 0 3 1 6 3 6 2 3 t7 q1 (by decide) (by decide) (by decide) (by decide) (by decide) (by decide)
    have o2 := @edge_remap_inv 1 0 3 6 3 2 3 m7 q2 (by decide) (by decide) (by decide) (by decide)
    have o3 := @corner_remap_inv 1 0 3 2 3 6 4 3 2 b7 q3 (by decide) (by decide) (by decide) (by decide) (by decide) (by decide)
    have o4 := @edge_remap_inv 1 0 3 2 3 4 3 b0 q4 (by decide) (by decide) (by decide) (by decide)
    have o5 := @corner_remap_inv 1 0 3 2 4 3 4 1 3 b1 q5 (by decide) (by decide) (by decide) (by decide) (by decide) (by decide)
    have o6 := @edge_remap_inv 1 0 3 3 4 3 1 m1 q6 (by decide) (by decide) (by decide) (by decide)
    have o7 := @corner_remap_inv 1 0 3 1 3 4 6 3 1 t1 q7 (by decide) (by decide) (by decide) (by decide) (by decide) (by decide)
    rw [o0, o1, o2, o3, o4, o5, o6, o7]
  · obtain ⟨e1, h1, -⟩ := step_green_cw _ _ _ _ _ _ _ _ _ _ _ _ _ _ _ _ _ _ _ _ _ _ _ _ h
    rw [e1]
    dsimp only [Option.bind]
    obtain ⟨e2, -, -⟩ := step_green_ccw _ _ _ _ _ _ _ _ _ _ _ _ _ _ _ _ _ _ _ _ _ _ _ _ h1
    rw [e2]
    have q0 : EdgeOK 1 4 t2 := h.ht2
    have q1 : CornerOK 1 3 4 t1 := h.ht1
    have q2 : EdgeOK 3 4 m1 := h.hm1
    have q3 : CornerOK 2 4 3 b1 := h.hb1
    have q4 : EdgeOK 2 4 b2 := h.hb2
    have q5 : CornerOK 2 5 4 b3 := h.hb3
    have q6 : EdgeOK 4 5 m3 := h.hm3
    have q7 : CornerOK 1 4 5 t3 := h.ht3
    have o0 := @edge_remap_inv 1 0 4 1 4 3 4 t2 q0 (by decide) (by decide) (by decide) (by decide)
    have o1 := @corner_remap_inv 1 0 4 1 3 4 3 2 4 t1 q1 (by decide) (by decide) (by decide) (by decide) (by decide) (by decide)
    have o2 := @edge_remap_inv 1 0 4 3 4 2 4 m1 q2 (by decide) (by decide) (by decide) (by decide)
    have o3 := @corner_remap_inv 1 0 4 2 4 3 5 4 2 b1 q3 (by decide) (by decide) (by decide) (by decide) (by decide) (by decide)
    have o4 := @edge_remap_inv 1 0 4 2 4 5 4 b2 q4 (by decide) (by decide) (by decide) (by decide)
    have o5 := @corner_remap_inv 1 0 4 2 5 4 5 1 4 b3 q5 (by decide) (by decide) (by decide) (by decide) (by decide) (by decide)
    have o6 := @edge_remap_inv 1 0 4 4 5 4 1 m3 q6 (by decide) (by decide) (by decide) (by decide)
    have o7 := @corner_remap_inv 1 0 4 1 4 5 3 4 1 t3 q7 (by decide) (by decide) (by decide) (by decide) (by decide) (by decide)
    rw [o0, o1, o2, o3, o4, o5, o6, o7]
  · obtain ⟨e1, h1, -⟩ := step_orange_cw _ _ _ _ _ _ _ _ _ _ _ _ _ _ _ _ _ _ _ _ _ _ _ _ h
    rw [e1]
    dsimp only [Option.bind]
    obtain ⟨e2, -, -⟩ := step_orange_ccw _ _ _ _ _ _ _ _ _ _ _ _ _ _ _ _ _ _ _ _ _ _ _ _ h1
    rw [e2]
    have q0 : EdgeOK 1 5 t4 := h.ht4
    have q1 : CornerOK 1 4 5 t3 := h.ht3
    have q2 : EdgeOK 4 5 m3 := h.hm3
    have q3 : CornerOK 2 5 4 b3 := h.hb3
    have q4 : EdgeOK 2 5 b4 := h.hb4
    have q5 : CornerOK 2 6 5 b5 := h.hb5
    have q6 : EdgeOK 5 6 m5 := h.hm5
    have q7 : CornerOK 1 5 6 t5 := h.ht5
    have o0 := @edge_remap_inv 1 0 5 1 5 4 5 t4 q0 (by decide) (by decide) (by decide) (by decide)
    have o1 := @corner_remap_inv 1 0 5 1 4 5 4 2 5 t3 q1 (by decide) (by decide) (by decide) (by decide) (by decide) (by decide)
    have o2 := @edge_remap_inv 1 0 5 4 5 2 5 m3 q2 (by decide) (by decide) (by decide) (by decide)
    have o3 := @corner_remap_inv 1 0 5 2 5 4 6 5 2 b3 q3 (by decide) (by decide) (by decide) (by decide) (by decide) (by decide)
    have o4 := @edge_remap_inv 1 0 5 2 5 6 5 b4 q4 (by decide) (by decide) (by decide) (by decide)
    have o5 := @corner_remap_inv 1 0 5 2 6 5 6 1 5 b5 q5 (by decide) (by decide) (by decide) (by decide) (by decide) (by decide)
    have o6 := @edge_remap_inv 1 0 5 5 6 5 1 m5 q6 (by decide) (by decide) (by decide) (by decide)
    have o7 := @corner_remap_inv 1 0 5 1 5 6 4 5 1 t5 q7 (by decide) (by decide) (by decide) (by decide) (by decide) (by decide)
    rw [o0, o1, o2, o3, o4, o5, o6, o7]
  · obtain ⟨e1, h1, -⟩ := step_blue_cw _ _ _ _ _ _ _ _ _ _ _ _ _ _ _ _ _ _ _ _ _ _ _ _ h
    rw [e1]
    dsimp only [Option.bind]
    obtain ⟨e2, -, -⟩ := step_blue_ccw _ _ _ _ _ _ _ _ _ _ _ _ _ _ _ _ _ _ _ _ _ _ _ _ h1
    rw [e2]
    have q0 : EdgeOK 1 6 t6 := h.ht6
    have q1 : CornerOK 1 5 6 t5 := h.ht5
    have q2 : EdgeOK 5 6 m5 := h.hm5
    have q3 : CornerOK 2 6 5 b5 := h.hb5
    have q4 : EdgeOK 2 6 b6 := h.hb6
    have q5 : CornerOK 2 3 6 b7 := h.hb7
    have q6 : EdgeOK 6 3 m7 := h.hm7
    have q7 : CornerOK 1 6 3 t7 := h.ht7
    have o0 := @edge_remap_inv 1 0 6 1 6 5 6 t6 q0 (by decide) (by decide) (by decide) (by decide)
    have o1 := @corner_remap_inv 1 0 6 1 5 6 5 2 6 t5 q1 (by decide) (by decide) (by decide) (by decide) (by decide) (by decide)
    have o2 := @edge_remap_inv 1 0 6 5 6 2 6 m5 q2 (by decide) (by decide) (by decide) (by decide)
    have o3 := @corner_remap_inv 1 0 6 2 6 5 3 6 2 b5 q3 (by decide) (by decide) (by decide) (by decide) (by decide) (by decide)
    have o4 := @edge_remap_inv 1 0 6 2 6 3 6 b6 q4 (by decide) (by decide) (by decide) (by decide)
    have o5 := @corner_remap_inv 1 0 6 2 3 6 3 1 6 b7 q5 (by decide) (by decide) (by decide) (by decide) (by decide) (by decide)
    have o6 := @edge_remap_inv 1 0 6 6 3 6 1 m7 q6 (by decide) (by decide) (by decide) (by decide)
    have o7 := @corner_remap_inv 1 0 6 1 6 3 5 6 1 t7 q7 (by decide) (by decide) (by decide) (by decide) (by decide) (by decide)
    rw [o0, o1, o2, o3, o4, o5, o6, o7]


theorem List.set_of_le {α : Type _} {l : List α} {i : Nat} (h : l.length ≤ i) (v : α) :
    l.set i v = l := by
  induction l generalizing i with
  | nil => rfl
  | cons a t ih =>
    cases i with
    | zero => simp at h
    | succ n =>
      simp only [List.length_cons, Nat.succ_le_succ_iff] at h
      simp [ih h]

/-- A write at one storage position does not affect reads at any other
position. -/
theorem cubeRead_cubeWrite_ne {wl wi rl ri : Nat} (hne : ¬(rl = wl ∧ ri = wi)) (c : Cube)
    (v : Cell) :
    cubeRead (cubeWrite c wl wi v) rl ri = cubeRead c rl ri := by
  unfold cubeRead cubeWrite layerRead
  by_cases hl : rl = wl
  · subst hl
    have hi : ri ≠ wi := fun he => hne ⟨rfl, he⟩
    by_cases hlen : rl < c.length
    · rw [List.getD_set_self c hlen]
      exact List.getD_set_ne _ (Ne.symm hi) _ _
    · rw [List.set_of_le (by omega)]
  · rw [List.getD_set_ne c (fun he => hl he.symm) _ _]

/-- A successful `RotateSide` reaches `_side_put`: its result is a put of some
ring into the original cube. -/
theorem RotateSide_shape {f d : Nat} {c x : Cube} (hr : RotateSide f d c = some x) :
    ∃ side, _side_put f side c = some x := by
  rw [RotateSide_eq] at hr
  rcases hg : _side_get f c with _ | side
  · rw [hg] at hr
    exact absurd hr (by simp)
  · rw [hg] at hr
    dsimp only [Option.bind] at hr
    rcases hf : _rotate_faces d f side with _ | side2
    · rw [hf] at hr
      exact absurd hr (by simp)
    · rw [hf] at hr
      dsimp only [Option.bind] at hr
      exact ⟨_, hr⟩

/-- Core of C1: writing back the ring just read is the identity on the cube,
for every valid face. -/
theorem put_get_roundtrip {f : Nat} (hf1 : 1 ≤ f) (hf6 : f ≤ 6) (c : Cube) :
    ((_side_get f c).bind fun side => _side_put f side c) = some c := by
  interval_cases f
  · rw [show _side_get 1 c = some [cubeRead c 0 0, cubeRead c 0 1, cubeRead c 0 2, cubeRead c 0 3, cubeRead c 0 4, cubeRead c 0 5, cubeRead c 0 6, cubeRead c 0 7] from rfl]
    dsimp only [Option.bind]
    show some (cubeWrite (cubeWrite (cubeWrite (cubeWrite (cubeWrite (cubeWrite (cubeWrite (cubeWrite c 0 0 (cubeRead c 0 0)) 0 1 (cubeRead c 0 1)) 0 2 (cubeRead c 0 2)) 0 3 (cubeRead c 0 3)) 0 4 (cubeRead c 0 4)) 0 5 (cubeRead c 0 5)) 0 6 (cubeRead c 0 6)) 0 7 (cubeRead c 0 7)) = some c
    rw [cubeWrite_self, cubeWrite_self, cubeWrite_self, cubeWrite_self, cubeWrite_self,
      cubeWrite_self, cubeWrite_self, cubeWrite_self]
  · rw [show _side_get 2 c = some [cubeRead c 2 0, cubeRead c 2 7, cubeRead c 2 6, cubeRead c 2 5, cubeRead c 2 4, cubeRead c 2 3, cubeRead c 2 2, cubeRead c 2 1] from rfl]
    dsimp only [Option.bind]
    show some (cubeWrite (cubeWrite (cubeWrite (cubeWrite (cubeWrite (cubeWrite (cubeWrite (cubeWrite c 2 0 (cubeRead c 2 0)) 2 7 (cubeRead c 2 7)) 2 6 (cubeRead c 2 6)) 2 5 (cubeRead c 2 5)) 2 4 (cubeRead c 2 4)) 2 3 (cubeRead c 2 3)) 2 2 (cubeRead c 2 2)) 2 1 (cubeRead c 2 1)) = some c
    rw [cubeWrite_self, cubeWrite_self, cubeWrite_self, cubeWrite_self, cubeWrite_self,
      cubeWrite_self, cubeWrite_self, cubeWrite_self]
  · rw [show _side_get 3 c = some [cubeRead c 0 0, cubeRead c 0 7, cubeRead c 1 7, cubeRead c 2 7, cubeRead c 2 0, cubeRead c 2 1, cubeRead c 1 1, cubeRead c 0 1] from rfl]
    dsimp only [Option.bind]
    show some (cubeWrite (cubeWrite (cubeWrite (cubeWrite (cubeWrite (cubeWrite (cubeWrite (cubeWrite c 0 0 (cubeRead c 0 0)) 0 7 (cubeRead c 0 7)) 1 7 (cubeRead c 1 7)) 2 7 (cubeRead c 2 7)) 2 0 (cubeRead c 2 0)) 2 1 (cubeRead c 2 1)) 1 1 (cubeRead c 1 1)) 0 1 (cubeRead c 0 1)) = some c
    rw [cubeWrite_self, cubeWrite_self, cubeWrite_self, cubeWrite_self, cubeWrite_self,
      cubeWrite_self, cubeWrite_self, cubeWrite_self]
  · rw [show _side_get 4 c = some [cubeRead c 0 2, cubeRead c 0 1, cubeRead c 1 1, cubeRead c 2 1, cubeRead c 2 2, cubeRead c 2 3, cubeRead c 1 3, cubeRead c 0 3] from rfl]
    dsimp only [Option.bind]
    show some (cubeWrite (cubeWrite (cubeWrite (cubeWrite (cubeWrite (cubeWrite (cubeWrite (cubeWrite c 0 2 (cubeRead c 0 2)) 0 1 (cubeRead c 0 1)) 1 1 (cubeRead c 1 1)) 2 1 (cubeRead c 2 1)) 2 2 (cubeRead c 2 2)) 2 3 (cubeRead c 2 3)) 1 3 (cubeRead c 1 3)) 0 3 (cubeRead c 0 3)) = some c
    rw [cubeWrite_self, cubeWrite_self, cubeWrite_self, cubeWrite_self, cubeWrite_self,
      cubeWrite_self, cubeWrite_self, cubeWrite_self]
  · rw [show _side_get 5 c = some [cubeRead c 0 4, cubeRead c 0 3, cubeRead c 1 3, cubeRead c 2 3, cubeRead c 2 4, cubeRead c 2 5, cubeRead c 1 5, cubeRead c 0 5] from rfl]
    dsimp only [Option.bind]
    show some (cubeWrite (cubeWrite (cubeWrite (cubeWrite (cubeWrite (cubeWrite (cubeWrite (cubeWrite c 0 4 (cubeRead c 0 4)) 0 3 (cubeRead c 0 3)) 1 3 (cubeRead c 1 3)) 2 3 (cubeRead c 2 3)) 2 4 (cubeRead c 2 4)) 2 5 (cubeRead c 2 5)) 1 5 (cubeRead c 1 5)) 0 5 (cubeRead c 0 5)) = some c
    rw [cubeWrite_self, cubeWrite_self, cubeWrite_self, cubeWrite_self, cubeWrite_self,
      cubeWrite_self, cubeWrite_self, cubeWrite_self]
  · rw [show _side_get 6 c = some [cubeRead c 0 6, cubeRead c 0 5, cubeRead c 1 5, cubeRead c 2 5, cubeRead c 2 6, cubeRead c 2 7, cubeRead c 1 7, cubeRead c 0 7] from rfl]
    dsimp only [Option.bind]
    show some (cubeWrite (cubeWrite (cubeWrite (cubeWrite (cubeWrite (cubeWrite (cubeWrite (cubeWrite c 0 6 (cubeRead c 0 6)) 0 5 (cubeRead c 0 5)) 1 5 (cubeRead c 1 5)) 2 5 (cubeRead c 2 5)) 2 6 (cubeRead c 2 6)) 2 7 (cubeRead c 2 7)) 1 7 (cubeRead c 1 7)) 0 7 (cubeRead c 0 7)) = some c
    rw [cubeWrite_self, cubeWrite_self, cubeWrite_self, cubeWrite_self, cubeWrite_self,
      cubeWrite_self, cubeWrite_self, cubeWrite_self]

/-- `_side_put` changes no storage position outside the ring of `f`. -/
theorem side_put_frame {f : Nat} (hf1 : 1 ≤ f) (hf6 : f ≤ 6) (side : List Cell) (c : Cube)
    {c' : Cube} (hp : _side_put f side c = some c') (lid idx : Nat)
    (hmem : (lid, idx) ∉ ringPositions f) :
    cubeRead c' lid idx = cubeRead c lid idx := by
  interval_cases f
  · rw [show ringPositions 1 = [(0, 0), (0, 1), (0, 2), (0, 3), (0, 4), (0, 5), (0, 6), (0, 7)] from rfl] at hmem
    simp only [List.mem_cons, List.not_mem_nil, or_false, Prod.mk.injEq, not_or] at hmem
    obtain ⟨g0, g1, g2, g3, g4, g5, g6, g7⟩ := hmem
    rw [show _side_put 1 side c = some (cubeWrite (cubeWrite (cubeWrite (cubeWrite (cubeWrite (cubeWrite (cubeWrite (cubeWrite c 0 0 (side.getD 0 CUBE_NIL)) 0 1 (side.getD 1 CUBE_NIL)) 0 2 (side.getD 2 CUBE_NIL)) 0 3 (side.getD 3 CUBE_NIL)) 0 4 (side.getD 4 CUBE_NIL)) 0 5 (side.getD 5 CUBE_NIL)) 0 6 (side.getD 6 CUBE_NIL)) 0 7 (side.getD 7 CUBE_NIL)) from rfl] at hp
    injection hp with hp2
    subst hp2
    rw [cubeRead_cubeWrite_ne g7, cubeRead_cubeWrite_ne g6, cubeRead_cubeWrite_ne g5, cubeRead_cubeWrite_ne g4, cubeRead_cubeWrite_ne g3, cubeRead_cubeWrite_ne g2, cubeRead_cubeWrite_ne g1, cubeRead_cubeWrite_ne g0]
  · rw [show ringPositions 2 = [(2, 0), (2, 7), (2, 6), (2, 5), (2, 4), (2, 3), (2, 2), (2, 1)] from rfl] at hmem
    simp only [List.mem_cons, List.not_mem_nil, or_false, Prod.mk.injEq, not_or] at hmem
    obtain ⟨g0, g1, g2, g3, g4, g5, g6, g7⟩ := hmem
    rw [show _side_put 2 side c = some (cubeWrite (cubeWrite (cubeWrite (cubeWrite (cubeWrite (cubeWrite (cubeWrite (cubeWrite c 2 0 (side.getD 0 CUBE_NIL)) 2 7 (side.getD 1 CUBE_NIL)) 2 6 (side.getD 2 CUBE_NIL)) 2 5 (side.getD 3 CUBE_NIL)) 2 4 (side.getD 4 CUBE_NIL)) 2 3 (side.getD 5 CUBE_NIL)) 2 2 (side.getD 6 CUBE_NIL)) 2 1 (side.getD 7 CUBE_NIL)) from rfl] at hp
    injection hp with hp2
    subst hp2
    rw [cubeRead_cubeWrite_ne g7, cubeRead_cubeWrite_ne g6, cubeRead_cubeWrite_ne g5, cubeRead_cubeWrite_ne g4, cubeRead_cubeWrite_ne g3, cubeRead_cubeWrite_ne g2, cubeRead_cubeWrite_ne g1, cubeRead_cubeWrite_ne g0]
  · rw [show ringPositions 3 = [(0, 0), (0, 7), (1, 7), (2, 7), (2, 0), (2, 1), (1, 1), (0, 1)] from rfl] at hmem
    simp only [List.mem_cons, List.not_mem_nil, or_false, Prod.mk.injEq, not_or] at hmem
    obtain ⟨g0, g1, g2, g3, g4, g5, g6, g7⟩ := hmem
    rw [show _side_put 3 side c = some (cubeWrite (cubeWrite (cubeWrite (cubeWrite (cubeWrite (cubeWrite (cubeWrite (cubeWrite c 0 0 (side.getD 0 CUBE_NIL)) 0 7 (side.getD 1 CUBE_NIL)) 1 7 (side.getD 2 CUBE_NIL)) 2 7 (side.getD 3 CUBE_NIL)) 2 0 (side.getD 4 CUBE_NIL)) 2 1 (side.getD 5 CUBE_NIL)) 1 1 (side.getD 6 CUBE_NIL)) 0 1 (side.getD 7 CUBE_NIL)) from rfl] at hp
    injection hp with hp2
    subst hp2
    rw [cubeRead_cubeWrite_ne g7, cubeRead_cubeWrite_ne g6, cubeRead_cubeWrite_ne g5, cubeRead_cubeWrite_ne g4, cubeRead_cubeWrite_ne g3, cubeRead_cubeWrite_ne g2, cubeRead_cubeWrite_ne g1, cubeRead_cubeWrite_ne g0]
  · rw [show ringPositions 4 = [(0, 2), (0, 1), (1, 1), (2, 1), (2, 2), (2, 3), (1, 3), (0, 3)] from rfl] at hmem
    simp only [List.mem_cons, List.not_mem_nil, or_false, Prod.mk.injEq, not_or] at hmem
    obtain ⟨g0, g1, g2, g3, g4, g5, g6, g7⟩ := hmem
    rw [show _side_put 4 side c = some (cubeWrite (cubeWrite (cubeWrite (cubeWrite (cubeWrite (cubeWrite (cubeWrite (cubeWrite c 0 2 (side.getD 0 CUBE_NIL)) 0 1 (side.getD 1 CUBE_NIL)) 1 1 (side.getD 2 CUBE_NIL)) 2 1 (side.getD 3 CUBE_NIL)) 2 2 (side.getD 4 CUBE_NIL)) 2 3 (side.getD 5 CUBE_NIL)) 1 3 (side.getD 6 CUBE_NIL)) 0 3 (side.getD 7 CUBE_NIL)) from rfl] at hp
    injection hp with hp2
    subst hp2
    rw [cubeRead_cubeWrite_ne g7, cubeRead_cubeWrite_ne g6, cubeRead_cubeWrite_ne g5, cubeRead_cubeWrite_ne g4, cubeRead_cubeWrite_ne g3, cubeRead_cubeWrite_ne g2, cubeRead_cubeWrite_ne g1, cubeRead_cubeWrite_ne g0]
  · rw [show ringPositions 5 = [(0, 4), (0, 3), (1, 3), (2, 3), (2, 4), (2, 5), (1, 5), (0, 5)] from rfl] at hmem
    simp only [List.mem_cons, List.not_mem_nil, or_false, Prod.mk.injEq, not_or] at hmem
    obtain ⟨g0, g1, g2, g3, g4, g5, g6, g7⟩ := hmem
    rw [show _side_put 5 side c = some (cubeWrite (cubeWrite (cubeWrite (cubeWrite (cubeWrite (cubeWrite (cubeWrite (cubeWrite c 0 4 (side.getD 0 CUBE_NIL)) 0 3 (side.getD 1 CUBE_NIL)) 1 3 (side.getD 2 CUBE_NIL)) 2 3 (side.getD 3 CUBE_NIL)) 2 4 (side.getD 4 CUBE_NIL)) 2 5 (side.getD 5 CUBE_NIL)) 1 5 (side.getD 6 CUBE_NIL)) 0 5 (side.getD 7 CUBE_NIL)) from rfl] at hp
    injection hp with hp2
    subst hp2
    rw [cubeRead_cubeWrite_ne g7, cubeRead_cubeWrite_ne g6, cubeRead_cubeWrite_ne g5, cubeRead_cubeWrite_ne g4, cubeRead_cubeWrite_ne g3, cubeRead_cubeWrite_ne g2, cubeRead_cubeWrite_ne g1, cubeRead_cubeWrite_ne g0]
  · rw [show ringPositions 6 = [(0, 6), (0, 5), (1, 5), (2, 5), (2, 6), (2, 7), (1, 7), (0, 7)] from rfl] at hmem
    simp only [List.mem_cons, List.not_mem_nil, or_false, Prod.mk.injEq, not_or] at hmem
    obtain ⟨g0, g1, g2, g3, g4, g5, g6, g7⟩ := hmem
    rw [show _side_put 6 side c = some (cubeWrite (cubeWrite (cubeWrite (cubeWrite (cubeWrite (cubeWrite (cubeWrite (cubeWrite c 0 6 (side.getD 0 CUBE_NIL)) 0 5 (side.getD 1 CUBE_NIL)) 1 5 (side.getD 2 CUBE_NIL)) 2 5 (side.getD 3 CUBE_NIL)) 2 6 (side.getD 4 CUBE_NIL)) 2 7 (side.getD 5 CUBE_NIL)) 1 7 (side.getD 6 CUBE_NIL)) 0 7 (side.getD 7 CUBE_NIL)) from rfl] at hp
    injection hp with hp2
    subst hp2
    rw [cubeRead_cubeWrite_ne g7, cubeRead_cubeWrite_ne g6, cubeRead_cubeWrite_ne g5, cubeRead_cubeWrite_ne g4, cubeRead_cubeWrite_ne g3, cubeRead_cubeWrite_ne g2, cubeRead_cubeWrite_ne g1, cubeRead_cubeWrite_ne g0]

/-- Core of C7: rotations of the White face and of the Yellow face commute on
every reachable cube, for all direction values. -/
theorem commute_wy_core {c : Cube} (hreach : Reachable c) (d1 d2 : Nat) :
    (RotateSide 1 d1 c).bind (RotateSide 2 d2) =
    (RotateSide 2 d2 c).bind (RotateSide 1 d1) := by
  have h := reachable_cubeOK hreach
  obtain ⟨lt, lm, lb, rfl⟩ := length_eq_three h.hlen
  obtain ⟨t0, t1, t2, t3, t4, t5, t6, t7, rfl⟩ := length_eq_eight (h.hlt : lt.length = 8)
  obtain ⟨m0, m1, m2, m3, m4, m5, m6, m7, rfl⟩ := length_eq_eight (h.hlm : lm.length = 8)
  obtain ⟨b0, b1, b2, b3, b4, b5, b6, b7, rfl⟩ := length_eq_eight (h.hlb : lb.length = 8)
  by_cases hd1 : d1 = 0
  · subst hd1
    by_cases hd2 : d2 = 0
    · subst hd2
      obtain ⟨e1, h1, -⟩ := step_white_cw _ _ _ _ _ _ _ _ _ _ _ _ _ _ _ _ _ _ _ _ _ _ _ _ h
      obtain ⟨e2, h2, -⟩ := step_yellow_cw _ _ _ _ _ _ _ _ _ _ _ _ _ _ _ _ _ _ _ _ _ _ _ _ h
      rw [e1, e2]
      dsimp only [Option.bind]
      obtain ⟨e3, -, -⟩ := step_yellow_cw _ _ _ _ _ _ _ _ _ _ _ _ _ _ _ _ _ _ _ _ _ _ _ _ h1
      obtain ⟨e4, -, -⟩ := step_white_cw _ _ _ _ _ _ _ _ _ _ _ _ _ _ _ _ _ _ _ _ _ _ _ _ h2
      rw [e3, e4]
    · have f2 : RotateSide 2 d2 = RotateSide 2 1 := funext fun x => RotateSide_d_ne hd2 2 x
      rw [f2]
      obtain ⟨e1, h1, -⟩ := step_white_cw _ _ _ _ _ _ _ _ _ _ _ _ _ _ _ _ _ _ _ _ _ _ _ _ h
      obtain ⟨e2, h2, -⟩ := step_yellow_ccw _ _ _ _ _ _ _ _ _ _ _ _ _ _ _ _ _ _ _ _ _ _ _ _ h
      rw [e1, e2]
      dsimp only [Option.bind]
      obtain ⟨e3, -, -⟩ := step_yellow_ccw _ _ _ _ _ _ _ _ _ _ _ _ _ _ _ _ _ _ _ _ _ _ _ _ h1
      obtain ⟨e4, -, -⟩ := step_white_cw _ _ _ _ _ _ _ _ _ _ _ _ _ _ _ _ _ _ _ _ _ _ _ _ h2
      rw [e3, e4]
  · have f1 : RotateSide 1 d1 = RotateSide 1 1 := funext fun x => RotateSide_d_ne hd1 1 x
    rw [f1]
    by_cases hd2 : d2 = 0
    · subst hd2
      obtain ⟨e1, h1, -⟩ := step_white_ccw _ _ _ _ _ _ _ _ _ _ _ _ _ _ _ _ _ _ _ _ _ _ _ _ h
      obtain ⟨e2, h2, -⟩ := step_yellow_cw _ _ _ _ _ _ _ _ _ _ _ _ _ _ _ _ _ _ _ _ _ _ _ _ h
      rw [e1, e2]
      dsimp only [Option.bind]
      obtain ⟨e3, -, -⟩ := step_yellow_cw _ _ _ _ _ _ _ _ _ _ _ _ _ _ _ _ _ _ _ _ _ _ _ _ h1
      obtain ⟨e4, -, -⟩ := step_white_ccw _ _ _ _ _ _ _ _ _ _ _ _ _ _ _ _ _ _ _ _ _ _ _ _ h2
      rw [e3, e4]
    · have f2 : RotateSide 2 d2 = RotateSide 2 1 := funext fun x => RotateSide_d_ne hd2 2 x
      rw [f2]
      obtain ⟨e1, h1, -⟩ := step_white_ccw _ _ _ _ _ _ _ _ _ _ _ _ _ _ _ _ _ _ _ _ _ _ _ _ h
      obtain ⟨e2, h2, -⟩ := step_yellow_ccw _ _ _ _ _ _ _ _ _ _ _ _ _ _ _ _ _ _ _ _ _ _ _ _ h
      rw [e1, e2]
      dsimp only [Option.bind]
      obtain ⟨e3, -, -⟩ := step_yellow_ccw _ _ _ _ _ _ _ _ _ _ _ _ _ _ _ _ _ _ _ _ _ _ _ _ h1
      obtain ⟨e4, -, -⟩ := step_white_ccw _ _ _ _ _ _ _ _ _ _ _ _ _ _ _ _ _ _ _ _ _ _ _ _ h2
      rw [e3, e4]

/-- The counter-clockwise color remap inverts the clockwise remap wherever
the latter succeeds. -/
theorem next_color_inverse {a cf ct : Nat} (h : NextColorClockwise a cf = some ct) :
    NextColorCounterClockwise a ct = some cf := by
  have ha : 1 ≤ a ∧ a ≤ 6 := by
    by_contra hc
    have h1 : a ≠ CUBE_WHITE := show a ≠ 1 by omega
    have h2 : a ≠ CUBE_YELLOW := show a ≠ 2 by omega
    have h3 : a ≠ CUBE_RED := show a ≠ 3 by omega
    have h4 : a ≠ CUBE_GREEN := show a ≠ 4 by omega
    have h5 : a ≠ CUBE_ORANGE := show a ≠ 5 by omega
    have h6 : a ≠ CUBE_BLUE := show a ≠ 6 by omega
    unfold NextColorClockwise _side_edge_face_get at h
    rw [if_neg h1, if_neg h2, if_neg h3, if_neg h4, if_neg h5, if_neg h6] at h
    exact absurd h (by simp)
  obtain ⟨ha1, ha6⟩ := ha
  interval_cases a <;>
    simp [NextColorClockwise, NextColorCounterClockwise, _side_edge_face_get,
      _side_edge_white, _side_edge_yellow, _side_edge_red, _side_edge_orange, _side_edge_green,
      _side_edge_blue, ROTATE_CLOCKWISE, ROTATE_COUNTER, CUBE_WHITE, CUBE_YELLOW, CUBE_RED,
      CUBE_GREEN, CUBE_ORANGE, CUBE_BLUE] at h ⊢ <;>
    split_ifs at h <;> (try (rw [Option.some.injEq] at h; subst h)) <;> simp_all

/-- Failed edge-binding lookup in the visible-color read is fatal. -/
theorem side_edge_color_get_fail {side_id_P : Nat} {side_P : List Cell} {side_index_P : Nat}
    (h0 : side_id_P ≠ (side_P.getD side_index_P CUBE_NIL).getD CUBE_EDGE_FACE_0 0)
    (h1 : side_id_P ≠ (side_P.getD side_index_P CUBE_NIL).getD CUBE_EDGE_FACE_1 0) :
    _side_edge_color_get side_id_P side_P side_index_P = none := by
  unfold _side_edge_color_get
  rw [if_neg h0, if_neg h1]

/-- Failed corner-binding lookup in the visible-color read is fatal. -/
theorem side_corner_color_get_fail {side_id_P : Nat} {side_P : List Cell} {side_index_P : Nat}
    (h0 : side_id_P ≠ (side_P.getD side_index_P CUBE_NIL).getD CUBE_CORNER_FACE_0 0)
    (h1 : side_id_P ≠ (side_P.getD side_index_P CUBE_NIL).getD CUBE_CORNER_FACE_1 0)
    (h2 : side_id_P ≠ (side_P.getD side_index_P CUBE_NIL).getD CUBE_CORNER_FACE_2 0) :
    _side_corner_color_get side_id_P side_P side_index_P = none := by
  unfold _side_corner_color_get
  rw [if_neg h0, if_neg h1, if_neg h2]

/-- A failed edge-binding probe in the remap step is NOT fatal: the source
falls through both branches and returns every cell unchanged. -/
theorem rfe_no_match {s d : Nat} (cl e cr : Cell)
    (h0 : e.getD CUBE_EDGE_FACE_0 0 ≠ s) (h1 : e.getD CUBE_EDGE_FACE_1 0 ≠ s) :
    _rotate_face_edge s d cl e cr = some (cl, e, cr) := by
  unfold _rotate_face_edge
  rw [if_neg h0, if_neg h1]

/-- A failed corner-binding probe in the remap step is NOT fatal either: when
no binding of the cell equals the probed value, the corner rebinding helper
falls through its three branches and returns the cell unchanged. -/
theorem pcd_no_match {cell_P : Cell} {edge_P : Nat} (edge_cell_P : Cell) (edge_face_P : Nat)
    (h0 : cell_P.getD CUBE_CORNER_FACE_0 0 ≠ edge_P)
    (h1 : cell_P.getD CUBE_CORNER_FACE_1 0 ≠ edge_P)
    (h2 : cell_P.getD CUBE_CORNER_FACE_2 0 ≠ edge_P) :
    _rotate_face_edge_plus_cube_delay cell_P edge_P edge_cell_P edge_face_P = cell_P := by
  unfold _rotate_face_edge_plus_cube_delay
  rw [if_neg h0, if_neg h1, if_neg h2]

/-- The position pass is an exact 2-slot circular shift, in both directions. -/
theorem rotate_colors_shift (sid : Nat) {side : List Cell} (h8 : side.length = 8)
    (p : Nat) (hp : p < 8) :
    (_rotate_colors ROTATE_CLOCKWISE sid side).getD ((p + 2) % 8) CUBE_NIL =
      side.getD p CUBE_NIL ∧
    (_rotate_colors ROTATE_COUNTER sid side).getD ((p + 6) % 8) CUBE_NIL =
      side.getD p CUBE_NIL := by
  obtain ⟨x0, x1, x2, x3, x4, x5, x6, x7, rfl⟩ := length_eq_eight h8
  interval_cases p <;> exact ⟨rfl, rfl⟩

/-! # The claims -/

/-- C1: for every face color `f` among the 6 valid colors, writing back the
ring just read — `PutSide(f, GetSide(f))`, i.e. `_side_put f (_side_get f c) c`
— leaves every cell of the cube's three layers unchanged: the put index map is
the exact inverse of the get index map. -/
theorem put_get_no_op (f : Nat) (hf1 : 1 ≤ f) (hf6 : f ≤ 6) (c : Cube) :
    ((_side_get f c).bind fun side => _side_put f side c) = some c :=
  put_get_roundtrip hf1 hf6 c

theorem put_get_no_op_witness :
    ((_side_get CUBE_RED initCube).bind fun side => _side_put CUBE_RED side initCube) =
      some initCube :=
  put_get_no_op CUBE_RED (by decide) (by decide) initCube

/-- C2: for every face color `f` among the 6 valid colors, every direction in
{Clockwise, CounterClockwise}, and every cube state reachable from the solved
cube, four consecutive `RotateSide(f, d)` calls return the cube to exactly
(structural equality of the three-layer representation) the state it had
before the first call. -/
theorem rotate_four_returns {c : Cube} (hreach : Reachable c) (f d : Nat)
    (hf1 : 1 ≤ f) (hf6 : f ≤ 6) (hd : d = ROTATE_CLOCKWISE ∨ d = ROTATE_COUNTER) :
    ((((RotateSide f d c).bind (RotateSide f d)).bind (RotateSide f d)).bind
      (RotateSide f d)) = some c :=
  rotate4_core hreach f d hf1 hf6 hd

theorem rotate_four_returns_witness :
    ((((RotateSide CUBE_RED ROTATE_CLOCKWISE initCube).bind
      (RotateSide CUBE_RED ROTATE_CLOCKWISE)).bind
      (RotateSide CUBE_RED ROTATE_CLOCKWISE)).bind
      (RotateSide CUBE_RED ROTATE_CLOCKWISE)) = some initCube :=
  rotate_four_returns Reachable.init CUBE_RED ROTATE_CLOCKWISE (by decide) (by decide)
    (Or.inl rfl)

/-- C3: for every face color `f` among the 6 valid colors and every cube state
reachable from the solved cube, `RotateSide(f, Clockwise)` immediately
followed by `RotateSide(f, CounterClockwise)` leaves the cube state exactly
unchanged. -/
theorem rotate_cw_ccw_no_op {c : Cube} (hreach : Reachable c) (f : Nat)
    (hf1 : 1 ≤ f) (hf6 : f ≤ 6) :
    (RotateSide f ROTATE_CLOCKWISE c).bind (RotateSide f ROTATE_COUNTER) = some c :=
  rotate_inv_core hreach f hf1 hf6

theorem rotate_cw_ccw_no_op_witness :
    (RotateSide CUBE_GREEN ROTATE_CLOCKWISE initCube).bind
      (RotateSide CUBE_GREEN ROTATE_COUNTER) = some initCube :=
  rotate_cw_ccw_no_op Reachable.init CUBE_GREEN (by decide) (by decide)

/-- C4 counterexample: already on the freshly constructed cube (the empty
sequence of rotations) there are only 8 White stickers, not 9: the White and
Yellow center stickers are not represented in the three layers, so the
claimed "9 stickers of each of the 6 colors" is false. -/
theorem sticker_count_white_not_nine :
    (stickerList initCube).count CUBE_WHITE = 8 ∧
    (stickerList initCube).count CUBE_WHITE ≠ 9 := by decide

/-- C4 amended: after any finite sequence of `RotateSide` calls the multiset
of sticker colors across the cube's three layers is unchanged from the
initial cube, and it holds exactly 9 stickers of each of the 4 lateral colors
but only 8 each of White and Yellow (the two invisible center stickers are
not stored). -/
theorem sticker_multiset_conserved {c : Cube} (hreach : Reachable c) :
    (∀ col, (stickerList c).count col = (stickerList initCube).count col) ∧
    (stickerList c).count CUBE_WHITE = 8 ∧ (stickerList c).count CUBE_YELLOW = 8 ∧
    (stickerList c).count CUBE_RED = 9 ∧ (stickerList c).count CUBE_GREEN = 9 ∧
    (stickerList c).count CUBE_ORANGE = 9 ∧ (stickerList c).count CUBE_BLUE = 9 := by
  refine ⟨reachable_counts hreach, ?_, ?_, ?_, ?_, ?_, ?_⟩ <;>
    rw [reachable_counts hreach] <;> decide

theorem sticker_multiset_conserved_witness :
    (stickerList initCube).count CUBE_WHITE = 8 ∧
    (stickerList initCube).count CUBE_BLUE = 9 :=
  ⟨(sticker_multiset_conserved Reachable.init).2.1,
   (sticker_multiset_conserved Reachable.init).2.2.2.2.2.2⟩

/-- C5: the clockwise color-remap map (`NextColorClockwise`, realised by the
`_side_edge_*` family dispatched through `_side_edge_face_get`) is, for the
White axis, the fixed 4-cycle Red→Green→Orange→Blue→Red, and, for the Red
axis, the fixed 4-cycle White→Blue→Yellow→Green→White; and wherever the
clockwise map is defined, the counter-clockwise map is exactly its inverse
permutation. -/
theorem color_remap_cycles_and_inverse :
    (NextColorClockwise CUBE_WHITE CUBE_RED = some CUBE_GREEN ∧
     NextColorClockwise CUBE_WHITE CUBE_GREEN = some CUBE_ORANGE ∧
     NextColorClockwise CUBE_WHITE CUBE_ORANGE = some CUBE_BLUE ∧
     NextColorClockwise CUBE_WHITE CUBE_BLUE = some CUBE_RED) ∧
    (NextColorClockwise CUBE_RED CUBE_WHITE = some CUBE_BLUE ∧
     NextColorClockwise CUBE_RED CUBE_BLUE = some CUBE_YELLOW ∧
     NextColorClockwise CUBE_RED CUBE_YELLOW = some CUBE_GREEN ∧
     NextColorClockwise CUBE_RED CUBE_GREEN = some CUBE_WHITE) ∧
    (∀ a cf ct, NextColorClockwise a cf = some ct →
      NextColorCounterClockwise a ct = some cf) :=
  ⟨by decide, by decide, fun _ _ _ h => next_color_inverse h⟩

theorem color_remap_cycles_and_inverse_witness :
    NextColorCounterClockwise CUBE_WHITE CUBE_GREEN = some CUBE_RED :=
  color_remap_cycles_and_inverse.2.2 CUBE_WHITE CUBE_RED CUBE_GREEN (by decide)

/-- C6: the position-permutation pass `_rotate_colors` rotates the 8-slot
ring as a circular buffer by exactly 2 slots: clockwise the cell at clock
position `p` moves, unmodified, to position `(p+2) % 8`, and counter-clockwise
to `(p+6) % 8` = p−2 mod 8, for all 8 positions and arbitrary cells (edges
and corners alike). -/
theorem rotate_colors_shift_two (sid : Nat) {side : List Cell} (h8 : side.length = 8)
    (p : Nat) (hp : p < 8) :
    (_rotate_colors ROTATE_CLOCKWISE sid side).getD ((p + 2) % 8) CUBE_NIL =
      side.getD p CUBE_NIL ∧
    (_rotate_colors ROTATE_COUNTER sid side).getD ((p + 6) % 8) CUBE_NIL =
      side.getD p CUBE_NIL :=
  rotate_colors_shift sid h8 p hp

theorem rotate_colors_shift_two_witness :
    (_rotate_colors ROTATE_CLOCKWISE CUBE_WHITE init_top).getD ((0 + 2) % 8) CUBE_NIL =
      init_top.getD 0 CUBE_NIL ∧
    (_rotate_colors ROTATE_COUNTER CUBE_WHITE init_top).getD ((0 + 6) % 8) CUBE_NIL =
      init_top.getD 0 CUBE_NIL :=
  rotate_colors_shift_two CUBE_WHITE (by decide) 0 (by decide)

/-- C7: for all direction values `d1`, `d2` and every cube state reachable
from the solved cube, `RotateSide(White, d1)` then `RotateSide(Yellow, d2)`
yields exactly the same cube state as `RotateSide(Yellow, d2)` then
`RotateSide(White, d1)`. -/
theorem opposite_faces_commute {c : Cube} (hreach : Reachable c) (d1 d2 : Nat) :
    (RotateSide CUBE_WHITE d1 c).bind (RotateSide CUBE_YELLOW d2) =
    (RotateSide CUBE_YELLOW d2 c).bind (RotateSide CUBE_WHITE d1) :=
  commute_wy_core hreach d1 d2

theorem opposite_faces_commute_witness :
    (RotateSide CUBE_WHITE ROTATE_CLOCKWISE initCube).bind
      (RotateSide CUBE_YELLOW ROTATE_COUNTER) =
    (RotateSide CUBE_YELLOW ROTATE_COUNTER initCube).bind
      (RotateSide CUBE_WHITE ROTATE_CLOCKWISE) :=
  opposite_faces_commute Reachable.init ROTATE_CLOCKWISE ROTATE_COUNTER

/-- C8 counterexample: the remap step inside `RotateSide` probes the edge
cell `_CUBE_WR` (bound to White and Red) for side Green; no binding matches,
and instead of aborting with a fatal failure the call returns every cell
unchanged — refuting the claim that every such lookup aborts. -/
theorem remap_lookup_silent_skip :
    _rotate_face_edge CUBE_GREEN ROTATE_CLOCKWISE _CUBE_WRG _CUBE_WR _CUBE_WBR =
      some (_CUBE_WRG, _CUBE_WR, _CUBE_WBR) := by decide

/-- C8 amended: the visible-color reads (`_side_edge_color_get`,
`_side_corner_color_get`) do abort fatally when the probed face matches none
of the cell's bound side-identities, but the remap step inside `RotateSide`
does not: `_rotate_face_edge` silently returns its cells unchanged when
neither of the edge cell's two bound side-identities equals the rotating
side, and its corner rebinding helper `_rotate_face_edge_plus_cube_delay`
silently returns the corner cell unchanged when none of its three bound
side-identities equals the probed value. -/
theorem lookup_failure_behavior :
    (∀ sid side idx, sid ≠ (side.getD idx CUBE_NIL).getD CUBE_EDGE_FACE_0 0 →
      sid ≠ (side.getD idx CUBE_NIL).getD CUBE_EDGE_FACE_1 0 →
      _side_edge_color_get sid side idx = none) ∧
    (∀ sid side idx, sid ≠ (side.getD idx CUBE_NIL).getD CUBE_CORNER_FACE_0 0 →
      sid ≠ (side.getD idx CUBE_NIL).getD CUBE_CORNER_FACE_1 0 →
      sid ≠ (side.getD idx CUBE_NIL).getD CUBE_CORNER_FACE_2 0 →
      _side_corner_color_get sid side idx = none) ∧
    (∀ s d cl e cr, e.getD CUBE_EDGE_FACE_0 0 ≠ s → e.getD CUBE_EDGE_FACE_1 0 ≠ s →
      _rotate_face_edge s d cl e cr = some (cl, e, cr)) ∧
    (∀ cell probe ec fi, cell.getD CUBE_CORNER_FACE_0 0 ≠ probe →
      cell.getD CUBE_CORNER_FACE_1 0 ≠ probe → cell.getD CUBE_CORNER_FACE_2 0 ≠ probe →
      _rotate_face_edge_plus_cube_delay cell probe ec fi = cell) :=
  ⟨fun _ _ _ h0 h1 => side_edge_color_get_fail h0 h1,
   fun _ _ _ h0 h1 h2 => side_corner_color_get_fail h0 h1 h2,
   fun _ _ cl e cr h0 h1 => rfe_no_match cl e cr h0 h1,
   fun _ _ ec fi h0 h1 h2 => pcd_no_match ec fi h0 h1 h2⟩

theorem lookup_failure_behavior_witness :
    _side_edge_color_get CUBE_GREEN [_CUBE_WR] 0 = none ∧
    _side_corner_color_get CUBE_YELLOW [_CUBE_WRG] 0 = none ∧
    _rotate_face_edge CUBE_BLUE ROTATE_CLOCKWISE _CUBE_WRG _CUBE_WR _CUBE_WBR =
      some (_CUBE_WRG, _CUBE_WR, _CUBE_WBR) ∧
    _rotate_face_edge_plus_cube_delay _CUBE_WRG CUBE_YELLOW _CUBE_WR CUBE_EDGE_FACE_1 =
      _CUBE_WRG :=
  ⟨lookup_failure_behavior.1 CUBE_GREEN [_CUBE_WR] 0 (by decide) (by decide),
   lookup_failure_behavior.2.1 CUBE_YELLOW [_CUBE_WRG] 0 (by decide) (by decide) (by decide),
   lookup_failure_behavior.2.2.1 CUBE_BLUE ROTATE_CLOCKWISE _CUBE_WRG _CUBE_WR _CUBE_WBR
     (by decide) (by decide),
   lookup_failure_behavior.2.2.2 _CUBE_WRG CUBE_YELLOW _CUBE_WR CUBE_EDGE_FACE_1
     (by decide) (by decide) (by decide)⟩

/-- C9 counterexample: the direction value 2 is neither Clockwise (0) nor
CounterClockwise (1), yet `RotateSide(White, 2)` does not fail — it behaves
exactly like a counter-clockwise turn and mutates the cube away from the
solved state. -/
theorem invalid_direction_mutates :
    RotateSide CUBE_WHITE 2 initCube = RotateSide CUBE_WHITE ROTATE_COUNTER initCube ∧
    (RotateSide CUBE_WHITE 2 initCube).isSome = true ∧
    RotateSide CUBE_WHITE 2 initCube ≠ some initCube := by decide

/-- C9 amended: a face value outside the 6 valid colors makes `RotateSide`
fail fatally before any cube state is produced (modelling the uncaught
indexing error), but an invalid direction value is not validated at all: any
value other than Clockwise (0) is silently executed as counter-clockwise and
mutates the cube. -/
theorem invalid_args_behavior :
    (∀ f, (f < 1 ∨ 6 < f) → ∀ d c, RotateSide f d c = none) ∧
    (∀ d, d ≠ 0 → ∀ f c, RotateSide f d c = RotateSide f ROTATE_COUNTER c) :=
  ⟨fun _ hf d c => RotateSide_invalid_side hf d c,
   fun _ hd f c => RotateSide_d_ne hd f c⟩

theorem invalid_args_behavior_witness :
    RotateSide 0 ROTATE_CLOCKWISE initCube = none ∧
    RotateSide CUBE_WHITE 2 initCube = RotateSide CUBE_WHITE ROTATE_COUNTER initCube :=
  ⟨invalid_args_behavior.1 0 (by decide) ROTATE_CLOCKWISE initCube,
   invalid_args_behavior.2 2 (by decide) CUBE_WHITE initCube⟩

/-- C10: for every valid face `f` and any direction, `RotateSide(f, d)`
writes only the 8 layer cells that form the ring of face `f` (the positions
listed in `_SIDE_INDEX[f]` for the layers selected for `f`); every other cell
of the three layers, and the frozen solved snapshot `_cube_solved`, are left
unchanged by the call. -/
theorem rotate_side_frame {f d : Nat} (hf1 : 1 ≤ f) (hf6 : f ≤ 6) (r : RubicsCube)
    {r' : RubicsCube} (hr : RotateSideObj f d r = some r') :
    r'._cube_solved = r._cube_solved ∧
    ∀ lid idx, (lid, idx) ∉ ringPositions f →
      cubeRead r'._cube lid idx = cubeRead r._cube lid idx := by
  unfold RotateSideObj at hr
  rcases hq : RotateSide f d r._cube with _ | c2
  · rw [hq] at hr
    exact absurd hr (by simp)
  · rw [hq] at hr
    dsimp only [Option.map] at hr
    injection hr with hr2
    subst hr2
    refine ⟨rfl, fun lid idx hmem => ?_⟩
    obtain ⟨side, hp⟩ := RotateSide_shape hq
    exact side_put_frame hf1 hf6 side _ hp lid idx hmem

theorem rotate_side_frame_witness :
    ((RotateSideObj CUBE_WHITE ROTATE_CLOCKWISE initRubicsCube).getD
      initRubicsCube)._cube_solved = initRubicsCube._cube_solved ∧
    cubeRead ((RotateSideObj CUBE_WHITE ROTATE_CLOCKWISE initRubicsCube).getD
      initRubicsCube)._cube 1 0 = cubeRead initRubicsCube._cube 1 0 :=
  ⟨(@rotate_side_frame CUBE_WHITE ROTATE_CLOCKWISE (by decide) (by decide) initRubicsCube
      ((RotateSideObj CUBE_WHITE ROTATE_CLOCKWISE initRubicsCube).getD initRubicsCube)
      (by decide)).1,
   (@rotate_side_frame CUBE_WHITE ROTATE_CLOCKWISE (by decide) (by decide) initRubicsCube
      ((RotateSideObj CUBE_WHITE ROTATE_CLOCKWISE initRubicsCube).getD initRubicsCube)
      (by decide)).2 1 0 (by decide)⟩

end Rubic
